import Mathlib

/-!
# Network resilience and session layer of the marine-safety client

A shallow embedding of `src/services/api.js` (class `ApiService`),
`src/context/AuthContext.js` (component `AuthProvider`) and the handler
`handleLogin` of `src/screen/Login_backup.js`.

The JavaScript code is asynchronous but single-threaded; one call is modelled
as a function from the world before the call to its completion (a returned
value or a thrown error) and the world after it.  The world holds what the
code can observe or change: the AsyncStorage contents, the module variable
`API_BASE_URL`, the React state of `AuthProvider` and of the login screen, and
the environment (the backend's answers and persistence faults), together with
four logs (the requests handed to `fetch`, the `setTimeout` sleeps of the retry
loops, the dialogs shown and the navigations).
-/

namespace Frontend

/-! ## JavaScript values -/

/-- A parsed JSON value.  A number is an integer (`num`) or a decimal fraction: `dec m k`
is the number `m / 10^k`, written with `k` digits after the point. -/
inductive Json where
  | null
  | bool (b : Bool)
  | num (n : Int)
  | dec (m : Int) (k : Nat)
  | str (s : String)
  | arr (xs : List Json)
  | obj (kvs : List (String × Json))

/-- A JavaScript value read from a JSON document; `none` is `undefined`. -/
abbrev JsVal := Option Json

/-- JavaScript truthiness of a JSON value: `null`, `false`, `0` and `''` are falsy. -/
def Json.truthy : Json → Bool
  | .null => false
  | .bool b => b
  | .num n => n != 0
  | .dec m _ => m != 0
  | .str s => s != ""
  | .arr _ => true
  | .obj _ => true

/-- JavaScript truthiness of a possibly `undefined` value. -/
def JsVal.truthy : JsVal → Bool
  | none => false
  | some v => v.truthy

/-- Truthiness of a string or `null`, as returned by `AsyncStorage.getItem`. -/
def strTruthy : Option String → Bool
  | none => false
  | some s => s != ""

/-- Is the value JSON `null`. -/
def Json.isNull : Json → Bool
  | .null => true
  | _ => false

/-- The text of the decimal fraction `m / 10^k` in positional notation: the digits of `m`
with the point before the last `k` of them. -/
def decimalText (m : Int) (k : Nat) : String :=
  let digits := toString m.natAbs
  let padded := String.mk (List.replicate (k + 1 - digits.length) '0') ++ digits
  (if m < 0 then "-" else "") ++ padded.take (padded.length - k) ++
    (if k = 0 then "" else "." ++ padded.drop (padded.length - k))

mutual
/-- The JavaScript `String(v)` conversion, used by `new Error(v)`. -/
def Json.toJsString : Json → String
  | .null => "null"
  | .bool b => if b then "true" else "false"
  | .num n => toString n
  | .dec m k => decimalText m k
  | .str s => s
  | .arr xs => Json.joinElems xs
  | .obj _ => "[object Object]"
termination_by structural x => x
/-- The `Array.prototype.join(',')` conversion: `null` elements print as the empty string. -/
def Json.joinElems : List Json → String
  | [] => ""
  | x :: rest =>
    (if x.isNull then "" else Json.toJsString x) ++ (if rest.isEmpty then "" else ",")
      ++ Json.joinElems rest
termination_by structural x => x
end

/-- A JavaScript error object: its `name` and its `message`. -/
structure JsError where
  name : String
  message : String
  deriving DecidableEq, Repr

/-- The expression `new Error(msg)`. -/
def mkError (msg : String) : JsError := ⟨"Error", msg⟩

/-- The TypeError raised by reading property `key` of `null`. -/
def nullPropertyError (key : String) : JsError :=
  ⟨"TypeError", "Cannot read property " ++ key ++ " of null"⟩

/-- Property read `v.key` on a parsed JSON value.  Reading a property of `null` throws;
a missing property, or any of the property names the client uses on a string, number,
boolean or array, is `undefined`. -/
def Json.getProp (v : Json) (key : String) : Except JsError JsVal :=
  match v with
  | .null => .error (nullPropertyError key)
  | .obj kvs => .ok (kvs.lookup key)
  | _ => .ok none

/-! ## HTTP requests and responses -/

/-- The `options` object handed to `fetch`: the fields the client sets.  `body` is the
value whose `JSON.stringify` text is sent; `headers` is a JavaScript object, kept as an
association list in insertion order. -/
structure Options where
  method : Option String := none
  headers : List (String × String) := []
  body : Option Json := none
  timeout : Option Nat := none

/-- One call of `fetch(resource, options)`. -/
structure Request where
  url : String
  options : Options

/-- Set property `k` of a JavaScript object: overwrite in place or append. -/
def setKey (k v : String) : List (String × String) → List (String × String)
  | [] => [(k, v)]
  | (k0, v0) :: rest => if k0 = k then (k, v) :: rest else (k0, v0) :: setKey k v rest

/-- Object spread `{ ...a, ...b }`. -/
def spread (a b : List (String × String)) : List (String × String) :=
  b.foldl (fun acc kv => setKey kv.1 kv.2 acc) a

/-- An HTTP response as delivered by `fetch`.  `body` is what the first `json()` read
settles with: the parsed value, or the rejection for a missing or malformed body. -/
structure Response where
  status : Nat
  statusText : String
  body : Except JsError Json

/-- The `ok` flag of a response: status in 200..299. -/
def Response.ok (r : Response) : Bool := 200 ≤ r.status && r.status ≤ 299

/-- The rejection of a second read of a response body (`bodyUsed` is already set). -/
def bodyUsedError : JsError := ⟨"TypeError", "Already read"⟩

/-- A response in the hands of the code, with its `bodyUsed` flag. -/
structure Body where
  response : Response
  used : Bool := false

/-- One `await response.json()`: a body can be consumed once; a later read rejects. -/
def Body.json (b : Body) : Except JsError Json × Body :=
  if b.used then (.error bodyUsedError, b) else (b.response.body, { b with used := true })

/-- How a `fetch` that is not aborted settles: a response (of any status), or a
network failure, for which `fetch` rejects with a `TypeError`. -/
inductive Settle where
  | response (r : Response)
  | failure (message : String)

/-- The behaviour of the network for one request: it settles `delay` ms after the call. -/
structure NetOutcome where
  delay : Nat
  result : Settle

/-- The rejection of a `fetch` whose signal is aborted. -/
def abortError : JsError := ⟨"AbortError", "Aborted"⟩

/-! ## The world -/

/-- One entry of the request log: the request as it left the client, how the `fetch`
promise settled for it, and the content of the `authToken` slot of AsyncStorage when it
left (a ghost value, used only to state properties). -/
structure Sent where
  request : Request
  tokenSlot : Option String
  answer : Except JsError Response

/-- Everything a call can observe or change. -/
structure World where
  /-- AsyncStorage contents. -/
  storage : String → Option String
  /-- Environment: whether the n-th AsyncStorage operation rejects, and with what. -/
  storageFault : Nat → Option JsError
  /-- Number of AsyncStorage operations performed so far. -/
  storageOps : Nat
  /-- Environment: how the n-th request of the run settles. -/
  backend : Nat → Request → NetOutcome
  /-- Log of the requests handed to `fetch`, oldest first. -/
  sent : List Sent
  /-- Log of the backoff sleeps in ms, oldest first. -/
  sleeps : List Nat
  /-- The module variable `API_BASE_URL`. -/
  apiBaseUrl : String
  /-- React state `isAuthenticated`. -/
  isAuthenticated : Bool
  /-- React state `user` (`none` is `null`). -/
  user : JsVal
  /-- React state `loading`. -/
  loading : Bool
  /-- Log of the `Alert.alert(title, message)` dialogs shown, oldest first. -/
  alerts : List (String × String) := []
  /-- Log of the `navigation.navigate(route, params)` calls: the route and the `screen`
  parameter, oldest first. -/
  navigations : List (String × String) := []
  /-- React state `isLoading` of the login screen. -/
  isLoading : Bool := false

/-- An asynchronous JavaScript computation: the completion and the world after it. -/
def Js (α : Type) : Type := World → Except JsError α × World

/-- Return a value. -/
def Js.pure {α : Type} (a : α) : Js α := fun w => (.ok a, w)

/-- Sequence two computations; a throw skips the rest. -/
def Js.bind {α β : Type} (m : Js α) (f : α → Js β) : Js β := fun w =>
  match m w with
  | (.ok a, w1) => f a w1
  | (.error e, w1) => (.error e, w1)

/-- The statement `throw e`. -/
def Js.throw {α : Type} (e : JsError) : Js α := fun w => (.error e, w)

/-- The statement `try m catch (e) h`; the effects of `m` before the throw are kept. -/
def Js.tryCatch {α : Type} (m : Js α) (h : JsError → Js α) : Js α := fun w =>
  match m w with
  | (.ok a, w1) => (.ok a, w1)
  | (.error e, w1) => h e w1

instance : Monad Js where
  pure := Js.pure
  bind := Js.bind

instance : MonadExcept JsError Js where
  throw := Js.throw
  tryCatch := Js.tryCatch

/-- Lift a pure completion (a value or a throw) into a computation. -/
def Js.ofExcept {α : Type} : Except JsError α → Js α
  | .ok a => Js.pure a
  | .error e => Js.throw e

/-! ## Environment primitives -/

/-- The storage with `key` set to `v`. -/
def setSlot (s : String → Option String) (key : String) (v : Option String) :
    String → Option String :=
  fun k => if k = key then v else s k

/-- The call `AsyncStorage.getItem(key)`. -/
def getItem (key : String) : Js (Option String) := fun w =>
  match w.storageFault w.storageOps with
  | some e => (.error e, { w with storageOps := w.storageOps + 1 })
  | none => (.ok (w.storage key), { w with storageOps := w.storageOps + 1 })

/-- The call `AsyncStorage.setItem(key, value)`; a rejected write changes nothing. -/
def setItem (key value : String) : Js Unit := fun w =>
  match w.storageFault w.storageOps with
  | some e => (.error e, { w with storageOps := w.storageOps + 1 })
  | none => (.ok (), { w with storageOps := w.storageOps + 1,
                              storage := setSlot w.storage key (some value) })

/-- The call `AsyncStorage.removeItem(key)`; a rejected removal changes nothing. -/
def removeItem (key : String) : Js Unit := fun w =>
  match w.storageFault w.storageOps with
  | some e => (.error e, { w with storageOps := w.storageOps + 1 })
  | none => (.ok (), { w with storageOps := w.storageOps + 1,
                              storage := setSlot w.storage key none })

/-- How the promise of a `fetch` settles when its signal is aborted `abortAfter` ms after
the call: with the network's own outcome if that comes first, otherwise with `AbortError`. -/
def settle (out : NetOutcome) (abortAfter : Nat) : Except JsError Response :=
  if out.delay < abortAfter then
    match out.result with
    | .response r => .ok r
    | .failure m => .error ⟨"TypeError", m⟩
  else .error abortError

/-- The call `fetch(resource, options)` with a signal that is aborted `abortAfter` ms
after the call: the request is logged and the promise settles as `settle` says. -/
def fetch (req : Request) (abortAfter : Nat) : Js Response := fun w =>
  let answer := settle (w.backend w.sent.length req) abortAfter
  (answer, { w with sent := w.sent ++ [⟨req, w.storage "authToken", answer⟩] })

/-- The statement `await new Promise(resolve => setTimeout(resolve, ms))`. -/
def sleep (ms : Nat) : Js Unit := fun w => (.ok (), { w with sleeps := w.sleeps ++ [ms] })

/-- Read the module variable `API_BASE_URL`. -/
def getBaseUrl : Js String := fun w => (.ok w.apiBaseUrl, w)

/-- The React state setter `setUser`. -/
def setUser (u : JsVal) : Js Unit := fun w => (.ok (), { w with user := u })

/-- The React state setter `setIsAuthenticated`. -/
def setIsAuthenticated (b : Bool) : Js Unit := fun w => (.ok (), { w with isAuthenticated := b })

/-- The operand `v || fallback` of `new Error(...)`, converted to the message string. -/
def messageOr (v : JsVal) (fallback : String) : String :=
  match v with
  | some j => if j.truthy then j.toJsString else fallback
  | none => fallback

/-! ## ApiService (src/services/api.js) -/

/-- `ApiService.getToken` (lines 12-19). -/
def getToken : Js (Option String) := do
  try
    getItem "authToken"
  catch _ =>
    pure none

/-- `ApiService.setToken` (lines 22-29).  AsyncStorage stores strings only: a value that
is not a string is rejected by AsyncStorage, and the rejection is logged like any other. -/
def setToken (token : Json) : Js Unit := do
  try
    match token with
    | .str s => setItem "authToken" s
    | _ => pure ()
  catch _ =>
    pure ()

/-- `ApiService.removeToken` (lines 32-39). -/
def removeToken : Js Unit := do
  try
    removeItem "authToken"
  catch _ =>
    pure ()

/-- `ApiService.fetchWithTimeout` (lines 101-120): `timeout` defaults to 20000 ms; the
abort timer is the only thing that aborts the signal. -/
def fetchWithTimeout (resource : String) (options : Options) : Js Response := do
  let timeout := options.timeout.getD 20000
  try
    let response ← fetch ⟨resource, options⟩ timeout
    pure response
  catch error =>
    if error.name = "AbortError" then
      throw (mkError "Request timeout")
    throw error

/-- The constant `maxRetries` of `makeAuthenticatedRequest` (line 43). -/
def maxRetries : Nat := 3

/-- The `try` block of one iteration of the retry loop (lines 47-85).  `firstRead` is the
`response.json()` of line 65; line 79 calls `response.json()` on the same response again. -/
def attemptBody (endpoint : String) (options : Options) : Js Json := do
  let token ← getToken
  let defaultHeaders := spread [("Content-Type", "application/json")]
    (if strTruthy token then [("Authorization", "Bearer " ++ token.getD "")] else [])
  let base ← getBaseUrl
  let response ← fetchWithTimeout (base ++ endpoint)
    { options with headers := spread defaultHeaders options.headers }
  let body : Body := { response := response }
  if !response.ok then
    let firstRead := body.json
    let errorData := match firstRead.1 with
      | .ok v => v
      | .error _ => Json.obj [("message",
          .str ("HTTP " ++ toString response.status ++ ": " ++ response.statusText))]
    if response.status = 401 && strTruthy token then
      removeToken
      throw (mkError "Authentication required")
    else if response.status = 401 && !strTruthy token then
      let again ← Js.ofExcept firstRead.2.json.1
      return again
    let message ← Js.ofExcept (errorData.getProp "message")
    throw (mkError (messageOr message ("HTTP error! status: " ++ toString response.status)))
  Js.ofExcept body.json.1

/-- The `while (attempt < maxRetries)` loop of `makeAuthenticatedRequest` (lines 46-97),
entered with the current value of `attempt`.  The first argument bounds the number of
iterations; `none` is returned only if that bound is exhausted.  Leaving the loop by its
condition makes the function return `undefined`. -/
def retryLoop (endpoint : String) (options : Options) : Nat → Nat → Js (Option JsVal)
  | 0, _ => pure none
  | fuel + 1, attempt =>
    if attempt < maxRetries then
      tryCatch (do
          let v ← attemptBody endpoint options
          pure (some (some v)))
        (fun error => do
          let attempt := attempt + 1
          if attempt = maxRetries then
            throw error
          sleep (1000 * attempt)
          retryLoop endpoint options fuel attempt)
    else
      pure (some none)

/-- `ApiService.makeAuthenticatedRequest` (lines 42-98): `attempt` starts at 0. -/
def makeAuthenticatedRequest (endpoint : String) (options : Options) : Js (Option JsVal) :=
  retryLoop endpoint options maxRetries 0

/-- `ApiService.login` (lines 123-155).  Line 138 reads `data.token` before the status
is looked at. -/
def login (username password : String) : Js Json := do
  try
    let base ← getBaseUrl
    let response ← fetchWithTimeout (base ++ "/login")
      { method := some "POST",
        headers := [("Content-Type", "application/json"), ("Accept", "application/json")],
        body := some (.obj [("username", .str username), ("password", .str password)]),
        timeout := some 30000 }
    let body : Body := { response := response }
    let data ← Js.ofExcept body.json.1
    let token ← Js.ofExcept (data.getProp "token")
    if !response.ok then
      let message ← Js.ofExcept (data.getProp "message")
      throw (mkError (messageOr message "Login failed"))
    match token with
    | some t => if t.truthy then setToken t
    | none => pure ()
    pure data
  catch error =>
    throw error

/-! ## AuthProvider (src/context/AuthContext.js) -/

/-- `logout` of `AuthProvider` (lines 66-75). -/
def logout : Js Unit := do
  try
    removeItem "authToken"
    removeItem "user"
    setUser none
    setIsAuthenticated false
  catch _ =>
    pure ()

/-- The engine functions `JSON.stringify` and `JSON.parse`, which the client calls on user
profiles.  They are built into the JavaScript engine and are taken as parameters. -/
structure JsonApi where
  stringify : Json → String
  parse : String → Except JsError Json

/-- The React state setter `setLoading`. -/
def setLoading (b : Bool) : Js Unit := fun w => (.ok (), { w with loading := b })

/-- The statement `try m finally f`: `f` runs whether `m` returns or throws. -/
def Js.tryFinally {α : Type} (m : Js α) (f : Js Unit) : Js α := fun w =>
  match m w with
  | (res, w1) =>
    match f w1 with
    | (.ok _, w2) => (res, w2)
    | (.error e, w2) => (.error e, w2)

/-- Is a value of the React state `user` a profile, that is neither `undefined` nor
`null`. -/
def userPresent : JsVal → Bool
  | none => false
  | some .null => false
  | some _ => true

/-- `loadAuthData` of `AuthProvider` (lines 20-33), run once when the provider mounts. -/
def AuthProvider.loadAuthData (api : JsonApi) : Js Unit :=
  Js.tryFinally
    (do
      try
        let storedToken ← getItem "authToken"
        let storedUser ← getItem "user"
        if strTruthy storedToken && strTruthy storedUser then
          let parsed ← Js.ofExcept (api.parse (storedUser.getD ""))
          setUser (some parsed)
          setIsAuthenticated true
      catch _ =>
        pure ())
    (setLoading false)

/-- `login` of `AuthProvider` (lines 38-64).  A token that is not a string is rejected
by AsyncStorage. -/
def AuthProvider.login (api : JsonApi) (userData : Json) (token : JsVal) : Js Unit := do
  try
    if token.truthy then
      match token with
      | some (.str t) => setItem "authToken" t
      | _ => throw (mkError "AsyncStorage: value is not a string")
    else
      let _existingToken ← getItem "authToken"
      pure ()
    setItem "user" (api.stringify userData)
    setUser (some userData)
    setIsAuthenticated true
  catch error =>
    throw error

/-! ## The login screen (src/screen/Login_backup.js) -/

/-- Set property `k` of a JavaScript object holding JSON values. -/
def setProp (k : String) (v : Json) : List (String × Json) → List (String × Json)
  | [] => [(k, v)]
  | (k0, v0) :: rest => if k0 = k then (k, v) :: rest else (k0, v0) :: setProp k v rest

/-- The own enumerable properties that an object spread copies from a value: those of an
object, the indices of an array or of a string, none for anything else. -/
def ownProps : JsVal → List (String × Json)
  | some (.obj kvs) => kvs
  | some (.arr xs) => xs.enum.map (fun p => (toString p.1, p.2))
  | some (.str s) => s.data.enum.map (fun p => (toString p.1, Json.str (String.singleton p.2)))
  | _ => []

/-- The object `userData` that `handleLogin` builds (lines 42-46) from the login response
and the typed username: `username: responseData.username || username` followed by the
spread of `responseData.user`.  The pairs are kept in insertion order. -/
def userDataOf (responseData : Json) (username : String) : Except JsError Json :=
  match responseData.getProp "username", responseData.getProp "user" with
  | .ok name, .ok user =>
    .ok (.obj ((ownProps user).foldl (fun acc kv => setProp kv.1 kv.2 acc)
      [("username", if name.truthy then name.getD (.str username) else .str username)]))
  | .error e, _ => .error e
  | _, .error e => .error e

/-! ## Endpoint selection (src/services/api.js) -/

/-- The constant `API_URLS` (lines 4-6).  The functions below take the candidate list as
a parameter; this is the list the source configures. -/
def API_URLS : List String := ["http://192.168.43.143:3000"]

/-- The element `API_URLS[0]`; it is `undefined` for an empty list. -/
def firstUrl (urls : List String) : String := urls.head?.getD "undefined"

/-- Assign the module variable `API_BASE_URL`. -/
def setApiBaseUrl (url : String) : Js Unit := fun w => (.ok (), { w with apiBaseUrl := url })

/-- `ApiService.setBaseUrl` (lines 475-487). -/
def setBaseUrl (urls : List String) (url : String) : Js Unit := do
  if url ∈ urls then
    setApiBaseUrl url
    try
      setItem "apiBaseUrl" url
    catch _ =>
      pure ()
  else
    pure ()

/-- The options of a health probe (lines 379-386). -/
def healthOptions : Options :=
  { method := some "GET",
    headers := [("Content-Type", "application/json"), ("Accept", "application/json")],
    timeout := some 15000 }

/-- The `try` block of one iteration of the loop of `healthCheck` (lines 377-401).  The
call `this.setBaseUrl(url)` is not awaited; its assignment and its write are issued at
once, and it settles by itself. -/
def probe (urls : List String) (url : String) : Js Json := do
  let response ← fetchWithTimeout (url ++ "/health") healthOptions
  if response.ok then
    let body : Body := { response := response }
    let data ← Js.ofExcept body.json.1
    let base ← getBaseUrl
    if base ≠ url then
      setBaseUrl urls url
    return data
  else
    throw (mkError ("Health check failed: " ++ toString response.status))

/-- The text of `lastError?.message` inside the template string of line 408. -/
def lastErrorMessage : Option JsError → String
  | some e => e.message
  | none => "undefined"

/-- The loop `for (const url of API_URLS)` of `healthCheck` over the candidates still to
probe, with the current `lastError`, and the final `throw` (lines 375-408). -/
def healthCheckFrom (urls : List String) : List String → Option JsError → Js Json
  | [], lastError =>
    throw (mkError ("All API endpoints unreachable. Last error: " ++ lastErrorMessage lastError))
  | url :: rest, _ =>
    tryCatch (probe urls url) (fun error => healthCheckFrom urls rest (some error))

/-- `ApiService.healthCheck` (lines 372-409). -/
def healthCheck (urls : List String) : Js Json :=
  healthCheckFrom urls urls none

/-- The constant `MAX_RETRIES` of the method `initialize` (line 437). -/
def MAX_RETRIES : Nat := 3

/-- The loop `while (attempts < MAX_RETRIES && !success)` of the method `initialize` (lines 441-460),
entered with the current values of `attempts` and `success`.  The first argument bounds
the number of evaluations of the loop condition; `none` is returned only if that bound
is exhausted. -/
def connectLoop (urls : List String) : Nat → Nat → Bool → Js (Option Unit)
  | 0, _, _ => pure none
  | fuel + 1, attempts, success =>
    if attempts < MAX_RETRIES && !success then do
      let attempts := attempts + 1
      let success ← tryCatch (do
          let _ ← healthCheck urls
          pure true)
        (fun _ => do
          if attempts < MAX_RETRIES then
            sleep (1000 * attempts)
          pure false)
      connectLoop urls fuel attempts success
    else
      pure (some ())

/-- The method `initialize` of `ApiService` (lines 412-472). -/
def initService (urls : List String) : Js (Option Unit) := do
  try
    let storedUrl ← tryCatch (getItem "apiBaseUrl") (fun _ => pure none)
    if strTruthy storedUrl && decide (storedUrl.getD "" ∈ urls) then
      setApiBaseUrl (storedUrl.getD "")
    else
      setApiBaseUrl (firstUrl urls)
    connectLoop urls (MAX_RETRIES + 1) 0 false
  catch _ =>
    pure (some ())

/-- One record of the result of `testAllConnections`. -/
structure ConnectionResult where
  url : String
  status : String
  responseTime : Option Nat := none
  data : Option Json := none
  error : Option String := none

/-- The options of a connection test (lines 500-504). -/
def testOptions : Options :=
  { method := some "GET",
    headers := [("Content-Type", "application/json")],
    timeout := some 3000 }

/-- The time the network takes for the next request, as the two `Date.now()` calls around
the `await` measure it. -/
def nextDelay (req : Request) : Js Nat := fun w =>
  (.ok (w.backend w.sent.length req).delay, w)

/-- One iteration of the loop of `testAllConnections` (lines 498-514): the record pushed
for candidate `url`. -/
def testConnection (url : String) : Js ConnectionResult := do
  try
    let elapsed ← nextDelay ⟨url ++ "/health", testOptions⟩
    let response ← fetchWithTimeout (url ++ "/health") testOptions
    if response.ok then
      let body : Body := { response := response }
      let data ← Js.ofExcept body.json.1
      pure { url := url, status := "success", responseTime := some elapsed, data := some data }
    else
      pure { url := url, status := "error",
             error := some ("HTTP " ++ toString response.status) }
  catch error =>
    pure { url := url, status := "error", error := some error.message }

/-- The loop of `testAllConnections` over the candidates still to test, with the records
pushed so far. -/
def testAllFrom : List String → List ConnectionResult → Js (List ConnectionResult)
  | [], results => pure results
  | url :: rest, results => do
    let record ← testConnection url
    testAllFrom rest (results ++ [record])

/-- `ApiService.testAllConnections` (lines 495-517). -/
def testAllConnections (urls : List String) : Js (List ConnectionResult) :=
  testAllFrom urls []

/-! ## Data fetchers and status checks (src/services/api.js) -/

/-- The engine's clock, which the client reads when it builds mock data: `now` is the
value of `Date.now()` (ms since the epoch) in a given state of the run, `toISOString`
the text of `new Date(ms).toISOString()`.  Both are built into the JavaScript engine
and are taken as parameters. -/
structure DateApi where
  now : World → Int
  toISOString : Int → String

/-- The expression `new Date().toISOString()`. -/
def isoNow (date : DateApi) : Js String := fun w => (.ok (date.toISOString (date.now w)), w)

/-- The expression `new Date(Date.now() - ms).toISOString()`. -/
def isoAgo (date : DateApi) (ms : Nat) : Js String := fun w =>
  (.ok (date.toISOString (date.now w - ms)), w)

/-- The options of the three data fetchers (lines 175-181, 229-235, 279-285). -/
def fetcherOptions : Options :=
  { method := some "GET",
    headers := [("Content-Type", "application/json"), ("Accept", "application/json")] }

/-- The mock array of `getWeatherData` (lines 190-202, and again lines 208-220). -/
def weatherMock (date : DateApi) : Js Json := do
  let timestamp ← isoNow date
  pure (.arr [.obj [("id", .num 1), ("temperature", .num 25), ("humidity", .num 60),
    ("windSpeed", .dec 25 1), ("condition", .str "Partly Cloudy"),
    ("location", .str "Development Mode"), ("pressure", .num 1013),
    ("visibility", .num 10), ("timestamp", .str timestamp)]])

/-- The mock array of `getLocationData` (lines 244-254, and again lines 260-270). -/
def locationMock (date : DateApi) : Js Json := do
  let timestamp ← isoNow date
  pure (.arr [.obj [("id", .num 1), ("Latitude", .dec (-62088) 4),
    ("Longitude", .dec 1068456 4), ("Timestamp", .str timestamp),
    ("BoatID", .str "DEV-BOAT-001"),
    ("address", .str "Development Mode - Jakarta, Indonesia"), ("accuracy", .num 10)]])

/-- The mock array of `getAlerts` (lines 294-309, and again lines 315-330). -/
def alertsMock (date : DateApi) : Js Json := do
  let first ← isoNow date
  let second ← isoAgo date 300000
  pure (.arr [
    .obj [("AlertID", .num 1), ("Message", .str "High winds expected - Development Mode"),
      ("AlertTime", .str first), ("BoatID", .str "DEV-BOAT-001"),
      ("LCDStatus", .str "Active")],
    .obj [("AlertID", .num 2), ("Message", .str "Shallow waters ahead - Development Mode"),
      ("AlertTime", .str second), ("BoatID", .str "DEV-BOAT-001"),
      ("LCDStatus", .str "Acknowledged")]])

/-- `ApiService.getWeatherData` (lines 170-221).  No token is read and no `Authorization`
header is built; `data.data || data` is the value returned for a 2xx answer. -/
def getWeatherData (date : DateApi) : Js Json := do
  try
    let base ← getBaseUrl
    let response ← fetchWithTimeout (base ++ "/weather") fetcherOptions
    if response.ok then
      let body : Body := { response := response }
      let data ← Js.ofExcept body.json.1
      let inner ← Js.ofExcept (data.getProp "data")
      pure (if inner.truthy then inner.getD data else data)
    else
      weatherMock date
  catch _ =>
    weatherMock date

/-- `ApiService.getLocationData` (lines 224-271). -/
def getLocationData (date : DateApi) : Js Json := do
  try
    let base ← getBaseUrl
    let response ← fetchWithTimeout (base ++ "/locations") fetcherOptions
    if response.ok then
      let body : Body := { response := response }
      let data ← Js.ofExcept body.json.1
      let inner ← Js.ofExcept (data.getProp "data")
      pure (if inner.truthy then inner.getD data else data)
    else
      locationMock date
  catch _ =>
    locationMock date

/-- `ApiService.getAlerts` (lines 274-331). -/
def getAlerts (date : DateApi) : Js Json := do
  try
    let base ← getBaseUrl
    let response ← fetchWithTimeout (base ++ "/alerts") fetcherOptions
    if response.ok then
      let body : Body := { response := response }
      let data ← Js.ofExcept body.json.1
      let inner ← Js.ofExcept (data.getProp "data")
      pure (if inner.truthy then inner.getD data else data)
    else
      alertsMock date
  catch _ =>
    alertsMock date

/-- `ApiService.checkApiStatus` (lines 520-527): `fetchWithTimeout` is called without
options, so with the empty object. -/
def checkApiStatus : Js Response := do
  try
    let base ← getBaseUrl
    fetchWithTimeout (base ++ "/") {}
  catch error =>
    throw error

/-- `ApiService.checkIotHealth` (lines 543-550). -/
def checkIotHealth : Js Response := do
  try
    let base ← getBaseUrl
    fetchWithTimeout (base ++ "/iot/health") {}
  catch error =>
    throw error

/-! ## The handler of the login button (src/screen/Login_backup.js) -/

/-- The call `Alert.alert(title, message)`. -/
def showAlert (title message : String) : Js Unit := fun w =>
  (.ok (), { w with alerts := w.alerts ++ [(title, message)] })

/-- The call `navigation.navigate(route, params)`, with the `screen` entry of `params`. -/
def navigate (route screen : String) : Js Unit := fun w =>
  (.ok (), { w with navigations := w.navigations ++ [(route, screen)] })

/-- The React state setter `setIsLoading`. -/
def setIsLoading (b : Bool) : Js Unit := fun w => (.ok (), { w with isLoading := b })

/-- Does the list of characters `sub` occur in the list as a contiguous block. -/
def infixOf (sub : List Char) : List Char → Bool
  | [] => sub.isEmpty
  | c :: rest => sub.isPrefixOf (c :: rest) || infixOf sub rest

/-- The method `String.prototype.includes`. -/
def includes (s sub : String) : Bool := infixOf sub.data s.data

/-- `handleLogin` (lines 23-68), for the values `username` and `password` of the two
input fields.  The `console.log` of lines 35-39 reads three properties of the response. -/
def handleLogin (api : JsonApi) (username password : String) : Js Unit := do
  if username = "" ∨ password = "" then
    showAlert "Login Error" "Please enter both username and password."
  else
    setIsLoading true
    Js.tryFinally
      (do
        try
          let responseData ← login username password
          let success ← Js.ofExcept (responseData.getProp "success")
          let token ← Js.ofExcept (responseData.getProp "token")
          let _name ← Js.ofExcept (responseData.getProp "username")
          if success.truthy then
            let userData ← Js.ofExcept (userDataOf responseData username)
            AuthProvider.login api userData token
            navigate "Home" "Dashboard"
          else
            showAlert "Login Error" "Invalid username or password."
        catch error =>
          if error.message = "Request timeout" ∨
              includes error.message "Network request failed" then
            showAlert "Login Error" "Network error. Please try again later."
          else
            showAlert "Login Error" "Invalid username or password.")
      (setIsLoading false)

/-! ## Example worlds -/

/-- A backend that answers every request at once with the same response. -/
def constBackend (r : Response) : Nat → Request → NetOutcome := fun _ _ => ⟨0, .response r⟩

/-- A world with a working store holding `token`, an unauthenticated session and the
given backend. -/
def mkWorld (token : Option String) (backend : Nat → Request → NetOutcome) : World :=
  { storage := setSlot (fun _ => none) "authToken" token,
    storageFault := fun _ => none,
    storageOps := 0,
    backend := backend,
    sent := [],
    sleeps := [],
    apiBaseUrl := "http://192.168.43.143:3000",
    isAuthenticated := false,
    user := none,
    loading := false }

/-- A backend that rejects the first request with 401 and answers 200 afterwards. -/
def rejectOnce : Nat → Request → NetOutcome := fun n _ =>
  if n = 0 then
    ⟨120, .response ⟨401, "Unauthorized", .ok (.obj [("message", .str "jwt expired")])⟩⟩
  else ⟨120, .response ⟨200, "OK", .ok (.arr [])⟩⟩

/-- A backend unreachable for two requests that answers 401 from the third on. -/
def rejectThird : Nat → Request → NetOutcome := fun n _ =>
  if n < 2 then ⟨40, .failure "Network request failed"⟩
  else ⟨120, .response ⟨401, "Unauthorized", .ok (.obj [("message", .str "jwt expired")])⟩⟩

/-- The response of a backend in trouble. -/
def serverError : Response :=
  ⟨500, "Internal Server Error", .ok (.obj [("message", .str "boom")])⟩

/-- The 401 response of a backend that wants a token. -/
def unauthorized : Response :=
  ⟨401, "Unauthorized", .ok (.obj [("message", .str "No token provided")])⟩

/-- A backend that fails at transport level: a refused connection, then a request that
never settles, then a refused connection. -/
def unreachable : Nat → Request → NetOutcome := fun n _ =>
  if n = 1 then ⟨1000000, .failure "never"⟩ else ⟨40, .failure "Network request failed"⟩

/-- A backend that answers 200 after 25 seconds. -/
def slowBackend : Nat → Request → NetOutcome := fun _ _ =>
  ⟨25000, .response ⟨200, "OK", .ok (.arr [])⟩⟩

/-- A signed-in session for user alice: token `T1` and the profile are persisted. -/
def signedIn (backend : Nat → Request → NetOutcome) (fault : Nat → Option JsError) : World :=
  { storage := setSlot (setSlot (fun _ => none) "authToken" (some "T1")) "user"
      (some "\x7b\"username\":\"alice\"\x7d"),
    storageFault := fault,
    storageOps := 0,
    backend := backend,
    sent := [],
    sleeps := [],
    apiBaseUrl := "http://192.168.43.143:3000",
    isAuthenticated := true,
    user := some (.obj [("username", .str "alice")]),
    loading := false }

/-- A persistence layer whose first operation rejects. -/
def firstOpFails : Nat → Option JsError := fun n =>
  if n = 0 then some (mkError "Failed to delete storage directory") else none

/-- A backend that accepts the login and hands out token `T1`. -/
def tokenBackend : Nat → Request → NetOutcome := fun _ _ =>
  ⟨300, .response ⟨200, "OK", .ok (.obj [("success", .bool true), ("token", .str "T1")])⟩⟩

/-- A backend that accepts the login without handing out a token. -/
def sessionBackend : Nat → Request → NetOutcome := fun _ _ =>
  ⟨300, .response ⟨200, "OK", .ok (.obj [("success", .bool true)])⟩⟩

/-- The JSON text of the profile of alice. -/
def aliceText : String := "\x7b\"username\":\"alice\"\x7d"

/-- A small instance of the engine functions: it writes and reads the profile of alice,
writes every other value as the empty object and reads every other text as the empty
object. -/
def toyJson : JsonApi :=
  { stringify := fun v =>
      match v with
      | .obj [("username", .str "alice")] => aliceText
      | _ => "\x7b\x7d",
    parse := fun s =>
      if s = aliceText then .ok (.obj [("username", .str "alice")]) else .ok (.obj []) }

/-- The state of a freshly mounted `AuthProvider` (lines 15-17) over the given
persistence. -/
def freshStart (storage : String → Option String) (fault : Nat → Option JsError) : World :=
  { storage := storage,
    storageFault := fault,
    storageOps := 0,
    backend := slowBackend,
    sent := [],
    sleeps := [],
    apiBaseUrl := "http://192.168.43.143:3000",
    isAuthenticated := false,
    user := none,
    loading := true }

/-- A candidate list with two entries. -/
def candidates : List String := ["http://10.0.0.1:3000", "http://10.0.0.2:3000"]

/-- The answer of a healthy backend to a health probe. -/
def healthyAnswer : Response := ⟨200, "OK", .ok (.obj [("status", .str "ok")])⟩

/-- A network in which only the second candidate is reachable. -/
def secondOnly : Nat → Request → NetOutcome := fun _ req =>
  if req.url = "http://10.0.0.2:3000/health" then ⟨50, .response healthyAnswer⟩
  else ⟨40, .failure "Network request failed"⟩

/-- A network in which the first candidate answers 200 with a body that is not JSON and
the second answers 200 with a JSON body. -/
def plainTextFirst : Nat → Request → NetOutcome := fun _ req =>
  if req.url = "http://10.0.0.1:3000/health" then
    ⟨50, .response ⟨200, "OK", .error ⟨"SyntaxError", "JSON Parse error: Unexpected token: O"⟩⟩⟩
  else ⟨50, .response healthyAnswer⟩

/-- A network in which the first candidate is unreachable and the second answers 503. -/
def allDown : Nat → Request → NetOutcome := fun _ req =>
  if req.url = "http://10.0.0.2:3000/health" then
    ⟨50, .response ⟨503, "Service Unavailable", .ok (.obj [])⟩⟩
  else ⟨40, .failure "Network request failed"⟩

/-- A world at startup: the first candidate is active, `stored` is the persisted URL. -/
def endpointWorld (backend : Nat → Request → NetOutcome) (stored : Option String)
    (fault : Nat → Option JsError) : World :=
  { storage := setSlot (fun _ => none) "apiBaseUrl" stored,
    storageFault := fault,
    storageOps := 0,
    backend := backend,
    sent := [],
    sleeps := [],
    apiBaseUrl := "http://10.0.0.1:3000",
    isAuthenticated := false,
    user := none,
    loading := false }

/-- A clock that always reads 14 November 2023, 22:13:20 UTC, with the texts of that
instant and of any other one. -/
def fixedClock : DateApi :=
  { now := fun _ => 1700000000000,
    toISOString := fun t =>
      if t = 1700000000000 then "2023-11-14T22:13:20.000Z" else "2023-11-14T22:08:20.000Z" }

/-- A backend whose genuine answers are the very arrays that the fetchers use as mock
data at the reading of `fixedClock`. -/
def mirrorBackend : Nat → Request → NetOutcome := fun _ req =>
  ⟨50, .response ⟨200, "OK",
    if req.url = "http://192.168.43.143:3000/weather" then
      (weatherMock fixedClock (mkWorld none unreachable)).1
    else if req.url = "http://192.168.43.143:3000/locations" then
      (locationMock fixedClock (mkWorld none unreachable)).1
    else (alertsMock fixedClock (mkWorld none unreachable)).1⟩⟩

/-- A backend that hands out token `T1` to the first request and answers every later
request with an array of one alert. -/
def loginThenAlerts : Nat → Request → NetOutcome := fun n _ =>
  if n = 0 then
    ⟨300, .response ⟨200, "OK", .ok (.obj [("success", .bool true), ("token", .str "T1")])⟩⟩
  else
    ⟨80, .response ⟨200, "OK",
      .ok (.arr [.obj [("AlertID", .num 7), ("Message", .str "Storm warning")]])⟩⟩

/-- A gateway that answers every request with status 504 and the message 'Request
timeout'. -/
def gatewayTimeout : Nat → Request → NetOutcome := fun _ _ =>
  ⟨200, .response ⟨504, "Gateway Timeout", .ok (.obj [("message", .str "Request timeout")])⟩⟩

/-- A backend that refuses the login with a 2xx answer and hands out token `T2` all the
same. -/
def refusingBackend : Nat → Request → NetOutcome := fun _ _ =>
  ⟨300, .response ⟨200, "OK", .ok (.obj [("success", .bool false), ("token", .str "T2")])⟩⟩

/-- The React state of `AuthProvider` after a restart of the process: the state is
reset, persistence is kept. -/
def restarted (w : World) : World :=
  { w with isAuthenticated := false, user := none, loading := true }

/-! ## Vocabulary of the statements and of the proofs -/

/-- The worlds that the session layer can reach from a fresh install (empty session,
no profile persisted): by startup loading, by the `login` of `AuthProvider` called as
`handleLogin` calls it (with the profile object it builds), by `logout`, by a restart
of the process (the React state is reset, persistence is kept), and by any other step
that leaves the session state and the persisted profile alone. -/
inductive Reachable (api : JsonApi) : World → Prop
  | start (w : World) (hauth : w.isAuthenticated = false) (huser : w.user = none)
      (hstore : w.storage "user" = none) : Reachable api w
  | load {w : World} (h : Reachable api w) : Reachable api (AuthProvider.loadAuthData api w).2
  | login {w : World} (responseData : Json) (username : String) (userData : Json)
      (token : JsVal) (h : Reachable api w)
      (hdata : userDataOf responseData username = .ok userData) :
      Reachable api (AuthProvider.login api userData token w).2
  | logout {w : World} (h : Reachable api w) : Reachable api (logout w).2
  | restart {w : World} (h : Reachable api w) :
      Reachable api { w with isAuthenticated := false, user := none, loading := true }
  | frame {w : World} (w1 : World) (h : Reachable api w)
      (hauth : w1.isAuthenticated = w.isAuthenticated) (huser : w1.user = w.user)
      (hstore : w1.storage "user" = w.storage "user") : Reachable api w1

/-- The persistence layer never rejects. -/
def workingStore (w : World) : Prop := ∀ n, w.storageFault n = none

/-- What the log shows of a request: the token slot, the `Authorization` header sent and
the status of the answer. -/
def Sent.summary (s : Sent) : Option String × Option String × Option Nat :=
  (s.tokenSlot, s.request.options.headers.lookup "Authorization",
   s.answer.toOption.map (fun r => r.status))

/-- The token that `getToken` hands to the attempt starting in world `w`. -/
def tokenRead (w : World) : Option String :=
  match w.storageFault w.storageOps with
  | some _ => none
  | none => w.storage "authToken"

/-- The request that an attempt builds from the token it read and `API_BASE_URL`. -/
def attemptRequest (endpoint : String) (options : Options) (token : Option String)
    (base : String) : Request :=
  let defaultHeaders := spread [("Content-Type", "application/json")]
    (if strTruthy token then [("Authorization", "Bearer " ++ token.getD "")] else [])
  { url := base ++ endpoint,
    options := { options with headers := spread defaultHeaders options.headers } }

/-- The error thrown at line 82 for a non-success response that is not a 401. -/
def httpFailure (r : Response) : JsError :=
  match r.body with
  | .ok v =>
    (match v.getProp "message" with
     | .ok m => mkError (messageOr m ("HTTP error! status: " ++ toString r.status))
     | .error e => e)
  | .error _ =>
    mkError (messageOr (some (.str ("HTTP " ++ toString r.status ++ ": " ++ r.statusText)))
      ("HTTP error! status: " ++ toString r.status))

/-- The log entry of the attempt starting in world `w`. -/
def attemptSent (endpoint : String) (options : Options) (w : World) : Sent :=
  ⟨attemptRequest endpoint options (tokenRead w) w.apiBaseUrl, w.storage "authToken",
   settle (w.backend w.sent.length (attemptRequest endpoint options (tokenRead w) w.apiBaseUrl))
     (options.timeout.getD 20000)⟩

/-- The world after the token read and the request of the attempt starting in `w`. -/
def afterSend (endpoint : String) (options : Options) (w : World) : World :=
  { w with storageOps := w.storageOps + 1,
           sent := w.sent ++ [attemptSent endpoint options w] }

/-- The error with which an attempt ends, if it fails, given the token it read and how
its request settled (`none`: the attempt returns the parsed body). -/
def attemptFailure (tok : Option String) : Except JsError Response → Option JsError
  | .error x => some (if x.name = "AbortError" then mkError "Request timeout" else x)
  | .ok r =>
    if r.ok then
      (match r.body with
       | .ok _ => none
       | .error e => some e)
    else if r.status = 401 then
      (if strTruthy tok then some (mkError "Authentication required") else some bodyUsedError)
    else some (httpFailure r)

/-- The statements of the `try` block of the `login` of `AuthProvider` that follow the
handling of the token (lines 56-58). -/
def loginTail (api : JsonApi) (userData : Json) : Js Unit := do
  setItem "user" (api.stringify userData)
  setUser (some userData)
  setIsAuthenticated true

/-- The two ways in which a `login` of `AuthProvider` started in world `w` can end:
completed, with the session Authenticated as `userData` and the profile persisted, or
thrown, with the session state and the persisted profile as they were in `w`. -/
def LoginOutcome (api : JsonApi) (userData : Json) (w : World)
    (r : Except JsError Unit × World) : Prop :=
  (r.1 = .ok () ∧ r.2.isAuthenticated = true ∧ r.2.user = some userData ∧
    r.2.storage "user" = some (api.stringify userData)) ∨
  ((∃ e, r.1 = .error e) ∧ r.2.isAuthenticated = w.isAuthenticated ∧ r.2.user = w.user ∧
    r.2.storage "user" = w.storage "user")

/-- The calls on the endpoint selection that C14 ranges over. -/
inductive EndpointCall where
  | init
  | health
  | setUrl (url : String)
  | testAll

/-- The world after one call on the endpoint selection. -/
def EndpointCall.run (urls : List String) : EndpointCall → World → World
  | .init, w => (initService urls w).2
  | .health, w => (healthCheck urls w).2
  | .setUrl url, w => (setBaseUrl urls url w).2
  | .testAll, w => (testAllConnections urls w).2

/-- The world after a sequence of calls on the endpoint selection. -/
def runCalls (urls : List String) (calls : List EndpointCall) (w : World) : World :=
  calls.foldl (fun acc c => c.run urls acc) w

/-- The error with which the probe of a candidate ends, if it fails, given how its
request settled (`none`: the probe succeeds, with a 2xx status and a body that parses):
a rejection of `fetch` ('Request timeout' for an abort), the rejection of
`response.json()`, or 'Health check failed: status' for a non-2xx status. -/
def probeFailure : Except JsError Response → Option JsError
  | .error x => some (if x.name = "AbortError" then mkError "Request timeout" else x)
  | .ok r =>
    if r.ok then
      (match r.body with
       | .ok _ => none
       | .error e => some e)
    else some (mkError ("Health check failed: " ++ toString r.status))

/-- How the probe of candidate `url` settles when it is request number `n` of the run. -/
def probeAnswer (w : World) (n : Nat) (url : String) : Except JsError Response :=
  settle (w.backend n ⟨url ++ "/health", healthOptions⟩) 15000

/-- The log entry of the probe of candidate `url` started in world `w`. -/
def probeSent (url : String) (w : World) : Sent :=
  ⟨⟨url ++ "/health", healthOptions⟩, w.storage "authToken", probeAnswer w w.sent.length url⟩

/-- The world in which the first health check of the method `initialize` starts: the
persisted URL has been read and `API_BASE_URL` has been chosen (lines 417-434). -/
def chooseUrl (urls : List String) (w : World) : World :=
  { w with
    storageOps := w.storageOps + 1,
    apiBaseUrl :=
      match w.storageFault w.storageOps, w.storage "apiBaseUrl" with
      | none, some stored => if stored ≠ "" ∧ stored ∈ urls then stored else firstUrl urls
      | _, _ => firstUrl urls }

/-- The world after a backoff sleep of `ms` milliseconds. -/
def slept (ms : Nat) (w : World) : World := { w with sleeps := w.sleeps ++ [ms] }

/-- How the connection test of candidate `url` settles when it is request number `n` of
the run. -/
def testAnswer (w : World) (n : Nat) (url : String) : Except JsError Response :=
  settle (w.backend n ⟨url ++ "/health", testOptions⟩) 3000

/-- Does an answer make a connection test a success: a 2xx status and a body that
parses. -/
def testPassed : Except JsError Response → Bool
  | .ok r =>
    r.ok && (match r.body with
      | .ok _ => true
      | .error _ => false)
  | .error _ => false

/-- The record that a connection test pushes for candidate `url`, given the time measured
and how the request settled. -/
def testRecord (url : String) (elapsed : Nat) : Except JsError Response → ConnectionResult
  | .error x =>
    { url := url, status := "error",
      error := some (if x.name = "AbortError" then "Request timeout" else x.message) }
  | .ok r =>
    if r.ok then
      (match r.body with
       | .ok d => { url := url, status := "success", responseTime := some elapsed,
                    data := some d }
       | .error e => { url := url, status := "error", error := some e.message })
    else { url := url, status := "error", error := some ("HTTP " ++ toString r.status) }

/-- The log entry of the connection test of candidate `url` started in world `w`. -/
def testSent (url : String) (w : World) : Sent :=
  ⟨⟨url ++ "/health", testOptions⟩, w.storage "authToken", testAnswer w w.sent.length url⟩

/-- The requests that the step from world `a` to world `b` adds to the log all satisfy
`P`. -/
def Adds (P : Sent → Prop) (a b : World) : Prop :=
  ∃ l, b.sent = a.sent ++ l ∧ ∀ s ∈ l, P s

/-- The three data fetchers. -/
inductive Fetcher where
  | weather
  | location
  | alerts

/-- The path that a fetcher requests. -/
def Fetcher.path : Fetcher → String
  | .weather => "/weather"
  | .location => "/locations"
  | .alerts => "/alerts"

/-- The mock array of a fetcher. -/
def Fetcher.mock (date : DateApi) : Fetcher → Js Json
  | .weather => weatherMock date
  | .location => locationMock date
  | .alerts => alertsMock date

/-- The call of a fetcher. -/
def Fetcher.run (date : DateApi) : Fetcher → Js Json
  | .weather => getWeatherData date
  | .location => getLocationData date
  | .alerts => getAlerts date

/-- How the request of a fetcher for `path` settles when it is sent in world `w`. -/
def fetcherAnswer (w : World) (path : String) : Except JsError Response :=
  settle (w.backend w.sent.length ⟨w.apiBaseUrl ++ path, fetcherOptions⟩) 20000

/-- The log entry of the request of a fetcher for `path` sent in world `w`. -/
def fetcherSent (path : String) (w : World) : Sent :=
  ⟨⟨w.apiBaseUrl ++ path, fetcherOptions⟩, w.storage "authToken", fetcherAnswer w path⟩

/-- The backend data that a fetcher returns for an answer: the value of `data.data || data`
for a 2xx answer whose body parses to a value other than `null`; `none` for every other
answer, for which the fetcher returns its mock array. -/
def backendData : Except JsError Response → Option Json
  | .error _ => none
  | .ok r =>
    if r.ok then
      (match r.body with
       | .ok d =>
         (match d.getProp "data" with
          | .ok inner => some (if inner.truthy then inner.getD d else d)
          | .error _ => none)
       | .error _ => none)
    else none

/-- The request of `ApiService.login` (lines 127-134). -/
def loginRequest (username password base : String) : Request :=
  { url := base ++ "/login",
    options :=
      { method := some "POST",
        headers := [("Content-Type", "application/json"), ("Accept", "application/json")],
        body := some (.obj [("username", .str username), ("password", .str password)]),
        timeout := some 30000 } }

/-- How the request of a login started in world `w` settles. -/
def loginAnswer (username password : String) (w : World) : Except JsError Response :=
  settle (w.backend w.sent.length (loginRequest username password w.apiBaseUrl)) 30000

/-- The log entry of the request of a login started in world `w`. -/
def loginSent (username password : String) (w : World) : Sent :=
  ⟨loginRequest username password w.apiBaseUrl, w.storage "authToken",
   loginAnswer username password w⟩

/-- The completion of `ApiService.login`, given how its request settled: the parsed body
of a 2xx answer, or the error thrown. -/
def loginResult : Except JsError Response → Except JsError Json
  | .error x => .error (if x.name = "AbortError" then mkError "Request timeout" else x)
  | .ok r =>
    match r.body with
    | .error e => .error e
    | .ok data =>
      match data.getProp "token" with
      | .error e => .error e
      | .ok _ =>
        if r.ok then .ok data
        else
          match data.getProp "message" with
          | .error e => .error e
          | .ok m => .error (mkError (messageOr m "Login failed"))

/-- The token that `ApiService.login` hands to `setToken`, given how its request settled:
the truthy `token` of the body of a 2xx answer. -/
def loginToken : Except JsError Response → Option Json
  | .error _ => none
  | .ok r =>
    if r.ok then
      (match r.body with
       | .ok data =>
         (match data.getProp "token" with
          | .ok (some t) => if t.truthy then some t else none
          | _ => none)
       | .error _ => none)
    else none

/-- The header `Content-Type: application/json` is on the request. -/
def jsonType (s : Sent) : Prop :=
  s.request.options.headers.lookup "Content-Type" = some "application/json"

/-- The text of the dialog that `handleLogin` shows for a caught error with the given
message (lines 57-64). -/
def loginDialog (message : String) : String :=
  if message = "Request timeout" ∨ includes message "Network request failed" then
    "Network error. Please try again later."
  else "Invalid username or password."

/-- The world in which `handleLogin` calls `ApiService.login`. -/
def busy (w : World) : World := { w with isLoading := true }

/-- The world after `handleLogin` has shown a 'Login Error' dialog with the given text
and has run its `finally` block. -/
def dismissed (text : String) (w : World) : World :=
  { w with alerts := w.alerts ++ [("Login Error", text)], isLoading := false }

/-! ## Basic facts about the primitives -/

theorem getToken_eq (w : World) :
    getToken w = (.ok (match w.storageFault w.storageOps with
                        | some _ => none
                        | none => w.storage "authToken"),
                  { w with storageOps := w.storageOps + 1 }) := by
  simp only [getToken, tryCatch, tryCatchThe, MonadExcept.tryCatch, Js.tryCatch, getItem]
  cases w.storageFault w.storageOps <;> rfl

theorem removeToken_eq (w : World) :
    removeToken w = (.ok (), { w with
      storageOps := w.storageOps + 1,
      storage := match w.storageFault w.storageOps with
                 | some _ => w.storage
                 | none => setSlot w.storage "authToken" none }) := by
  simp only [removeToken, tryCatch, tryCatchThe, MonadExcept.tryCatch, Js.tryCatch, removeItem]
  cases w.storageFault w.storageOps <;> rfl

theorem fetchWithTimeout_eq (resource : String) (options : Options) (w : World) :
    fetchWithTimeout resource options w =
      ((match settle (w.backend w.sent.length ⟨resource, options⟩)
                (options.timeout.getD 20000) with
        | .ok r => .ok r
        | .error e => .error (if e.name = "AbortError" then mkError "Request timeout" else e)),
       { w with sent := w.sent ++ [⟨⟨resource, options⟩, w.storage "authToken",
           settle (w.backend w.sent.length ⟨resource, options⟩)
             (options.timeout.getD 20000)⟩] }) := by
  simp only [fetchWithTimeout, tryCatch, tryCatchThe, MonadExcept.tryCatch, Js.tryCatch,
    bind, Js.bind, pure, Js.pure, fetch]
  cases settle (w.backend w.sent.length ⟨resource, options⟩) (options.timeout.getD 20000) with
  | ok r => rfl
  | error e =>
    by_cases hn : e.name = "AbortError"
    · simp [hn, throw, throwThe, MonadExcept.throw, Js.throw, Js.bind]
    · simp [hn, throw, throwThe, MonadExcept.throw, Js.throw, Js.pure, Js.bind]

/-- One attempt, branch by branch. -/
theorem attemptBody_eq (endpoint : String) (options : Options) (w : World) :
    attemptBody endpoint options w =
      match (attemptSent endpoint options w).answer with
      | .error e =>
        (.error (if e.name = "AbortError" then mkError "Request timeout" else e),
         afterSend endpoint options w)
      | .ok r =>
        if r.ok then (r.body, afterSend endpoint options w)
        else if r.status = 401 then
          if strTruthy (tokenRead w) then
            (.error (mkError "Authentication required"),
             (removeToken (afterSend endpoint options w)).2)
          else (.error bodyUsedError, afterSend endpoint options w)
        else (.error (httpFailure r), afterSend endpoint options w) := by
  simp only [attemptBody, bind, Js.bind, getToken_eq, getBaseUrl, fetchWithTimeout_eq]
  simp only [attemptSent, afterSend, tokenRead, attemptRequest]
  cases hs : settle (w.backend w.sent.length (attemptRequest endpoint options (tokenRead w) w.apiBaseUrl))
     (options.timeout.getD 20000) with
  | error e => 
    simp only [attemptRequest, tokenRead] at hs
    simp only [hs]
  | ok r =>
    simp only [attemptRequest, tokenRead] at hs
    simp only [hs]
    by_cases hok : r.ok = true
    · simp [hok, Body.json, Js.ofExcept, Js.bind, pure, Js.pure]
      cases r.body <;> rfl
    · have hok2 : r.ok = false := by simpa using hok
      generalize (match w.storageFault w.storageOps with
        | some _ => none
        | none => w.storage "authToken") = tok at *
      by_cases h401 : r.status = 401
      · cases htok : strTruthy tok
        · simp [hok2, h401, htok, Body.json, Js.ofExcept, Js.bind, Js.throw]
        · simp [hok2, h401, htok, Js.bind, Js.throw, removeToken_eq, throw, throwThe,
            MonadExcept.throw]
      · simp only [hok2, h401, Bool.not_false, if_true, decide_False, Bool.false_and,
          Bool.false_eq_true, if_false, httpFailure, Body.json, Js.bind, pure, Js.pure]
        cases hb : r.body with
        | error e =>
          simp [hb, Json.getProp, Js.ofExcept, Js.pure, Js.throw, throw, throwThe,
            MonadExcept.throw, Js.bind]
        | ok v =>
          simp only [hb]
          cases hp : v.getProp "message" with
          | error e => simp [hp, Js.ofExcept, Js.throw]
          | ok m =>
            simp [hp, Js.ofExcept, Js.pure, Js.throw, throw, throwThe, MonadExcept.throw,
              Js.bind]

/-- One iteration of the retry loop. -/
theorem retryLoop_succ (endpoint : String) (options : Options) (fuel attempt : Nat)
    (w : World) :
    retryLoop endpoint options (fuel + 1) attempt w =
      if attempt < maxRetries then
        match attemptBody endpoint options w with
        | (.ok v, w1) => (.ok (some (some v)), w1)
        | (.error e, w1) =>
          if attempt + 1 = maxRetries then (.error e, w1)
          else retryLoop endpoint options fuel (attempt + 1)
            { w1 with sleeps := w1.sleeps ++ [1000 * (attempt + 1)] }
      else (.ok (some none), w) := by
  by_cases hlt : attempt < maxRetries
  · simp only [retryLoop, hlt, if_true, tryCatch, tryCatchThe, MonadExcept.tryCatch,
      Js.tryCatch, bind, Js.bind, pure, Js.pure]
    rcases attemptBody endpoint options w with ⟨v | e, w1⟩
    · by_cases hlast : attempt + 1 = maxRetries
      · simp [hlast, throw, throwThe, MonadExcept.throw, Js.throw, Js.bind]
      · simp [hlast, Js.pure, Js.bind, sleep]
    · rfl
  · simp [retryLoop, hlt, pure, Js.pure]

/-- A reflexive and transitive relation between worlds that every attempt and every
backoff sleep respects relates the world before the retry loop to the world after it. -/
theorem retryLoop_rel (R : World → World → Prop) (endpoint : String) (options : Options)
    (hrefl : ∀ w, R w w) (htrans : ∀ a b c, R a b → R b c → R a c)
    (hatt : ∀ w, R w (attemptBody endpoint options w).2)
    (hsleep : ∀ w ms, R w { w with sleeps := w.sleeps ++ [ms] }) :
    ∀ (fuel attempt : Nat) (w : World), R w (retryLoop endpoint options fuel attempt w).2 := by
  intro fuel
  induction fuel with
  | zero => intro attempt w; exact hrefl w
  | succ fuel ih =>
    intro attempt w
    rw [retryLoop_succ]
    by_cases hlt : attempt < maxRetries
    · simp only [hlt, if_true]
      have h1 := hatt w
      rcases hb : attemptBody endpoint options w with ⟨v | e, w1⟩
      · rw [hb] at h1
        by_cases hlast : attempt + 1 = maxRetries
        · simpa [hlast] using h1
        · simp only [hlast, if_false]
          exact htrans _ _ _ h1 (htrans _ _ _ (hsleep w1 _) (ih _ _))
      · rw [hb] at h1
        exact h1
    · simp only [hlt, if_false]
      exact hrefl w

/-! ## The transcript of a call -/

theorem attemptBody_sent (endpoint : String) (options : Options) (w : World) :
    (attemptBody endpoint options w).2.sent = w.sent ++ [attemptSent endpoint options w] := by
  rw [attemptBody_eq]
  cases (attemptSent endpoint options w).answer with
  | error e => rfl
  | ok r =>
    simp only []
    split
    · rfl
    · split
      · split
        · simp [removeToken_eq, afterSend]
        · rfl
      · rfl

theorem attemptBody_sleeps (endpoint : String) (options : Options) (w : World) :
    (attemptBody endpoint options w).2.sleeps = w.sleeps := by
  rw [attemptBody_eq]
  cases (attemptSent endpoint options w).answer with
  | error e => rfl
  | ok r =>
    simp only []
    split
    · rfl
    · split
      · split
        · simp [removeToken_eq, afterSend]
        · rfl
      · rfl

theorem attemptBody_env (endpoint : String) (options : Options) (w : World) :
    (attemptBody endpoint options w).2.storageFault = w.storageFault ∧
    (attemptBody endpoint options w).2.backend = w.backend := by
  rw [attemptBody_eq]
  cases (attemptSent endpoint options w).answer with
  | error e => exact ⟨rfl, rfl⟩
  | ok r =>
    simp only []
    split
    · exact ⟨rfl, rfl⟩
    · split
      · split
        · simp [removeToken_eq, afterSend]
        · exact ⟨rfl, rfl⟩
      · exact ⟨rfl, rfl⟩

theorem attemptBody_fails (endpoint : String) (options : Options) (w : World) (e : JsError)
    (h : attemptFailure (tokenRead w) (attemptSent endpoint options w).answer = some e) :
    (attemptBody endpoint options w).1 = .error e := by
  rw [attemptBody_eq]
  cases ha : (attemptSent endpoint options w).answer with
  | error x =>
    rw [ha] at h
    simp only [attemptFailure, Option.some.injEq] at h
    simp [h]
  | ok r =>
    rw [ha] at h
    simp only [attemptFailure] at h
    simp only []
    cases hok : r.ok
    · simp only [hok, Bool.false_eq_true, if_false] at h ⊢
      by_cases h401 : r.status = 401
      · simp only [h401, if_true] at h ⊢
        cases ht : strTruthy (tokenRead w)
        · simp only [ht, Bool.false_eq_true, if_false, Option.some.injEq] at h ⊢
          rw [h]
        · simp only [ht, if_true, Option.some.injEq] at h ⊢
          rw [h]
      · simp only [h401, if_false, Option.some.injEq] at h ⊢
        rw [h]
    · simp only [hok, if_true] at h ⊢
      cases hb : r.body with
      | error x => rw [hb] at h; simp only [Option.some.injEq] at h; rw [h]
      | ok v => rw [hb] at h; simp at h

theorem attemptBody_returns (endpoint : String) (options : Options) (w : World)
    (h : attemptFailure (tokenRead w) (attemptSent endpoint options w).answer = none) :
    ∃ r v, (attemptSent endpoint options w).answer = .ok r ∧ r.body = .ok v ∧
      (attemptBody endpoint options w).1 = .ok v := by
  rw [attemptBody_eq]
  cases ha : (attemptSent endpoint options w).answer with
  | error x => rw [ha] at h; simp [attemptFailure] at h
  | ok r =>
    rw [ha] at h
    simp only [attemptFailure] at h
    cases hok : r.ok
    · simp only [hok, Bool.false_eq_true, if_false] at h
      by_cases h401 : r.status = 401
      · simp only [h401, if_true] at h
        cases ht : strTruthy (tokenRead w) <;> simp [ht] at h
      · simp [h401] at h
    · simp only [hok, if_true] at h
      cases hb : r.body with
      | error x => rw [hb] at h; simp at h
      | ok v => exact ⟨r, v, rfl, hb, by simp [hok, hb]⟩

theorem tokenRead_working (w : World) (h : workingStore w) :
    tokenRead w = w.storage "authToken" := by
  simp [tokenRead, h w.storageOps]

/-- The transcript of the retry loop: the requests it adds to the log, one per attempt,
and how the outcome of the loop follows from the way each of them settled. -/
theorem retryLoop_trace (endpoint : String) (options : Options) :
    ∀ (fuel attempt : Nat) (w : World), attempt < maxRetries → maxRetries ≤ attempt + fuel →
    ∃ new : List Sent,
      (retryLoop endpoint options fuel attempt w).2.sent = w.sent ++ new ∧
      0 < new.length ∧ attempt + new.length ≤ maxRetries ∧
      ∀ (i : Nat) (s : Sent), new[i]? = some s →
        ∃ tok : Option String, (workingStore w → tok = s.tokenSlot) ∧
          (∀ e, attemptFailure tok s.answer = some e →
            (attempt + i + 1 = maxRetries →
              (retryLoop endpoint options fuel attempt w).1 = .error e) ∧
            (attempt + i + 1 < maxRetries → i + 1 < new.length)) ∧
          (attemptFailure tok s.answer = none →
            i + 1 = new.length ∧ ∃ r v, s.answer = .ok r ∧ r.body = .ok v ∧
              (retryLoop endpoint options fuel attempt w).1 = .ok (some (some v))) := by
  intro fuel
  induction fuel with
  | zero => intro attempt w h1 h2; omega
  | succ fuel ih =>
    intro attempt w hlt hfuel
    rw [retryLoop_succ]
    simp only [hlt, if_true]
    have hsent := attemptBody_sent endpoint options w
    have henv := attemptBody_env endpoint options w
    have hslot : (attemptSent endpoint options w).tokenSlot = w.storage "authToken" := rfl
    cases hf : attemptFailure (tokenRead w) (attemptSent endpoint options w).answer with
    | none =>
      obtain ⟨r, v, har, hbv, hres⟩ := attemptBody_returns endpoint options w hf
      rcases hb : attemptBody endpoint options w with ⟨res, w1⟩
      rw [hb] at hsent hres
      simp only at hsent hres
      subst hres
      refine ⟨[attemptSent endpoint options w], hsent, by simp, by simp; omega, ?_⟩
      intro i s hi
      have hi0 : i = 0 ∧ s = attemptSent endpoint options w := by
        cases i with
        | zero => simpa using hi.symm
        | succ j => simp at hi
      obtain ⟨rfl, rfl⟩ := hi0
      refine ⟨tokenRead w, fun hw => by rw [tokenRead_working w hw, hslot], ?_, ?_⟩
      · intro e he; rw [hf] at he; simp at he
      · intro _; exact ⟨by simp, r, v, har, hbv, rfl⟩
    | some e =>
      have hres := attemptBody_fails endpoint options w e hf
      rcases hb : attemptBody endpoint options w with ⟨res, w1⟩
      rw [hb] at hsent hres henv
      simp only at hsent hres henv
      subst hres
      simp only []
      by_cases hlast : attempt + 1 = maxRetries
      · simp only [hlast, if_true]
        refine ⟨[attemptSent endpoint options w], hsent, by simp, by simp; omega, ?_⟩
        intro i s hi
        have hi0 : i = 0 ∧ s = attemptSent endpoint options w := by
          cases i with
          | zero => simpa using hi.symm
          | succ j => simp at hi
        obtain ⟨rfl, rfl⟩ := hi0
        refine ⟨tokenRead w, fun hw => by rw [tokenRead_working w hw, hslot], ?_, ?_⟩
        · intro e2 he2
          rw [hf] at he2
          simp only [Option.some.injEq] at he2
          subst he2
          exact ⟨fun _ => rfl, fun h => by omega⟩
        · intro hn; rw [hf] at hn; simp at hn
      · simp only [hlast, if_false]
        obtain ⟨new, hnew, hpos, hlen, hall⟩ :=
          ih (attempt + 1) { w1 with sleeps := w1.sleeps ++ [1000 * (attempt + 1)] }
            (by omega) (by omega)
        refine ⟨attemptSent endpoint options w :: new, ?_, by simp, by simp; omega, ?_⟩
        · rw [hnew]
          simp only [hsent, List.append_assoc, List.singleton_append]
        · intro i s hi
          cases i with
          | zero =>
            have hs : s = attemptSent endpoint options w := by simpa using hi.symm
            subst hs
            refine ⟨tokenRead w, fun hw => by rw [tokenRead_working w hw, hslot], ?_, ?_⟩
            · intro e2 he2
              exact ⟨fun h => by omega, fun _ => by simp; omega⟩
            · intro hn; rw [hf] at hn; simp at hn
          | succ j =>
            have hj : new[j]? = some s := by simpa using hi
            obtain ⟨tok, htok, hfail, hret⟩ := hall j s hj
            refine ⟨tok, fun hw => htok (fun n => by simpa [henv.1] using hw n), ?_, ?_⟩
            · intro e2 he2
              obtain ⟨h1, h2⟩ := hfail e2 he2
              exact ⟨fun h => h1 (by omega), fun h => by simpa using h2 (by omega)⟩
            · intro hn
              obtain ⟨h1, h2⟩ := hret hn
              exact ⟨by simp; omega, h2⟩

/-- The backoff sleeps of the retry loop: one after each failed attempt but the last. -/
theorem retryLoop_sleeps (endpoint : String) (options : Options) :
    ∀ (fuel attempt : Nat) (w : World), attempt < maxRetries → maxRetries ≤ attempt + fuel →
      (retryLoop endpoint options fuel attempt w).2.sleeps =
        w.sleeps ++ (List.range
          ((retryLoop endpoint options fuel attempt w).2.sent.length - w.sent.length - 1)).map
            (fun k => 1000 * (attempt + k + 1)) := by
  intro fuel
  induction fuel with
  | zero => intro attempt w h1 h2; omega
  | succ fuel ih =>
    intro attempt w hlt hfuel
    rw [retryLoop_succ]
    simp only [hlt, if_true]
    have hsent := attemptBody_sent endpoint options w
    have hsl := attemptBody_sleeps endpoint options w
    rcases hb : attemptBody endpoint options w with ⟨res | v, w1⟩
    · rw [hb] at hsent hsl
      simp only at hsent hsl
      by_cases hlast : attempt + 1 = maxRetries
      · simp [hlast, hsent, hsl]
      · simp only [hlast, if_false]
        obtain ⟨new, hnew, hpos, -, -⟩ := retryLoop_trace endpoint options fuel (attempt + 1)
          { w1 with sleeps := w1.sleeps ++ [1000 * (attempt + 1)] } (by omega) (by omega)
        rw [ih (attempt + 1) _ (by omega) (by omega), hnew]
        simp only [hsent, hsl, List.length_append, List.length_singleton]
        have e1 : w.sent.length + 1 + new.length - (w.sent.length + 1) - 1 = new.length - 1 := by
          omega
        have e2 : w.sent.length + 1 + new.length - w.sent.length - 1 = (new.length - 1) + 1 := by
          omega
        rw [e1, e2, List.range_succ_eq_map]
        simp only [List.map_cons, List.map_map, List.append_assoc, List.singleton_append]
        congr 2
        apply List.map_congr_left
        intro k _
        simp only [Function.comp, Nat.succ_eq_add_one]
        ring
    · rw [hb] at hsent hsl
      simp only at hsent hsl
      simp [hsent, hsl]

/-- The transcript of `makeAuthenticatedRequest`: one to three requests. -/
theorem makeAuthenticatedRequest_trace (endpoint : String) (options : Options) (w : World) :
    ∃ new : List Sent,
      (makeAuthenticatedRequest endpoint options w).2.sent = w.sent ++ new ∧
      0 < new.length ∧ new.length ≤ 3 ∧
      ∀ (i : Nat) (s : Sent), new[i]? = some s →
        ∃ tok : Option String, (workingStore w → tok = s.tokenSlot) ∧
          (∀ e, attemptFailure tok s.answer = some e →
            (i = 2 → (makeAuthenticatedRequest endpoint options w).1 = .error e) ∧
            (i < 2 → i + 1 < new.length)) ∧
          (attemptFailure tok s.answer = none →
            i + 1 = new.length ∧ ∃ r v, s.answer = .ok r ∧ r.body = .ok v ∧
              (makeAuthenticatedRequest endpoint options w).1 = .ok (some (some v))) := by
  obtain ⟨new, h1, h2, h3, h4⟩ :=
    retryLoop_trace endpoint options maxRetries 0 w (by decide) (by simp)
  refine ⟨new, h1, h2, by simpa [maxRetries] using h3, ?_⟩
  intro i s hi
  obtain ⟨tok, ht, hf, hr⟩ := h4 i s hi
  refine ⟨tok, ht, ?_, hr⟩
  intro e he
  obtain ⟨a, b⟩ := hf e he
  exact ⟨fun h => a (by simp [maxRetries, h]), fun h => b (by simp [maxRetries]; omega)⟩

/-- The iteration bound of the model is never exhausted: the retry loop always ends by
itself, with a returned body or a thrown error. -/
theorem retryLoop_ends (endpoint : String) (options : Options) :
    ∀ (fuel attempt : Nat) (w : World), attempt < maxRetries → maxRetries ≤ attempt + fuel →
      (∃ v, (retryLoop endpoint options fuel attempt w).1 = .ok (some (some v))) ∨
      (∃ e, (retryLoop endpoint options fuel attempt w).1 = .error e) := by
  intro fuel
  induction fuel with
  | zero => intro attempt w h1 h2; omega
  | succ fuel ih =>
    intro attempt w hlt hfuel
    rw [retryLoop_succ]
    simp only [hlt, if_true]
    rcases attemptBody endpoint options w with ⟨e | v, w1⟩
    · by_cases hlast : attempt + 1 = maxRetries
      · simp [hlast]
      · simp only [hlast, if_false]
        exact ih _ _ (by omega) (by omega)
    · exact Or.inl ⟨v, rfl⟩

/-- `makeAuthenticatedRequest` always ends: it returns a parsed body or throws. -/
theorem makeAuthenticatedRequest_ends (endpoint : String) (options : Options) (w : World) :
    (∃ v, (makeAuthenticatedRequest endpoint options w).1 = .ok (some (some v))) ∨
    (∃ e, (makeAuthenticatedRequest endpoint options w).1 = .error e) :=
  retryLoop_ends endpoint options maxRetries 0 w (by decide) (by simp)

/-- A response with status 401 is not a success. -/
theorem not_ok_of_401 (r : Response) (h : r.status = 401) : r.ok = false := by
  simp [Response.ok, h]

/-! ## C1: a 401 answer to a request that carried the stored token -/

/-- C1, as stated, fails: with token `T1` stored and a backend that answers the first
request 401, the call does not fail with 'Authentication required'.  The rejection is
caught by the retry loop: after a 1000 ms sleep a second request is issued (without
token, the token being removed) and the call returns that request's body. -/
theorem C1_rejection_is_retried :
    ((makeAuthenticatedRequest "/alerts" {} (mkWorld (some "T1") rejectOnce)).2.sent.map
        Sent.summary = [(some "T1", some "Bearer T1", some 401), (none, none, some 200)]) ∧
    (makeAuthenticatedRequest "/alerts" {} (mkWorld (some "T1") rejectOnce)).1
        = .ok (some (some (.arr []))) ∧
    (makeAuthenticatedRequest "/alerts" {} (mkWorld (some "T1") rejectOnce)).2.sleeps
        = [1000] :=
  ⟨by decide, rfl, by decide⟩

/-- C1, amended: with a working store, when request number `i` (from 0) of a call carried
the stored token and was answered 401, then if it was the third request the call fails
with 'Authentication required' and no further request is issued; if it was the first or
the second, the rejection is not surfaced: a further request is issued. -/
theorem C1_rejection_surfaces_on_third_attempt (endpoint : String) (options : Options)
    (w : World) (hw : workingStore w) (i : Nat) (s : Sent) (r : Response)
    (hi : ((makeAuthenticatedRequest endpoint options w).2.sent.drop w.sent.length)[i]?
      = some s)
    (htok : strTruthy s.tokenSlot = true) (hans : s.answer = .ok r) (h401 : r.status = 401) :
    (i = 2 →
      (makeAuthenticatedRequest endpoint options w).1
          = .error (mkError "Authentication required") ∧
      (makeAuthenticatedRequest endpoint options w).2.sent.length = w.sent.length + 3) ∧
    (i < 2 →
      w.sent.length + i + 1 < (makeAuthenticatedRequest endpoint options w).2.sent.length) := by
  obtain ⟨new, hnew, hpos, hlen, hall⟩ := makeAuthenticatedRequest_trace endpoint options w
  rw [hnew, List.drop_left] at hi
  obtain ⟨tok, htokeq, hfail, -⟩ := hall i s hi
  have hf : attemptFailure tok s.answer = some (mkError "Authentication required") := by
    rw [htokeq hw, hans]
    simp [attemptFailure, not_ok_of_401 r h401, h401, htok]
  obtain ⟨h2, hlt⟩ := hfail _ hf
  have hil : i < new.length := by
    rcases Nat.lt_or_ge i new.length with h | h
    · exact h
    · rw [List.getElem?_eq_none h] at hi; simp at hi
  refine ⟨fun h => ⟨h2 h, ?_⟩, fun h => ?_⟩
  · rw [hnew, List.length_append]; omega
  · have := hlt h
    rw [hnew, List.length_append]; omega

set_option maxHeartbeats 1000000 in
/-- C1, amended, at a concrete run: the backend is unreachable twice and answers the
third request, which carries token `T1`, with 401. -/
theorem C1_rejection_surfaces_on_third_attempt_witness :
    (2 = 2 →
      (makeAuthenticatedRequest "/alerts" {} (mkWorld (some "T1") rejectThird)).1
          = .error (mkError "Authentication required") ∧
      (makeAuthenticatedRequest "/alerts" {} (mkWorld (some "T1") rejectThird)).2.sent.length
          = (mkWorld (some "T1") rejectThird).sent.length + 3) ∧
    (2 < 2 →
      (mkWorld (some "T1") rejectThird).sent.length + 2 + 1 <
        (makeAuthenticatedRequest "/alerts" {}
          (mkWorld (some "T1") rejectThird)).2.sent.length) :=
  C1_rejection_surfaces_on_third_attempt "/alerts" {} (mkWorld (some "T1") rejectThird)
    (fun _ => rfl) 2
    ⟨attemptRequest "/alerts" {} (some "T1") "http://192.168.43.143:3000", some "T1",
      .ok ⟨401, "Unauthorized", .ok (.obj [("message", .str "jwt expired")])⟩⟩
    ⟨401, "Unauthorized", .ok (.obj [("message", .str "jwt expired")])⟩ rfl rfl rfl rfl

/-! ## C2: a non-success status other than 401 -/

set_option maxHeartbeats 1000000 in
/-- C2, as stated, fails: against a backend that answers 500 the call issues three
requests and sleeps 1000 ms and 2000 ms before the error reaches the caller. -/
theorem C2_http_error_is_retried :
    (makeAuthenticatedRequest "/alerts" {} (mkWorld none (constBackend serverError))).2.sent.length
        = 3 ∧
    (makeAuthenticatedRequest "/alerts" {} (mkWorld none (constBackend serverError))).2.sleeps
        = [1000, 2000] ∧
    (makeAuthenticatedRequest "/alerts" {} (mkWorld none (constBackend serverError))).1
        = .error (mkError "boom") :=
  ⟨by decide, by decide, rfl⟩

/-- C2, amended: when request number `i` (from 0) of a call is answered with a
non-success status other than 401 and a body whose `message` is the non-empty string `m`,
then if it was the third request the call fails with the HTTP error carrying `m`, three
requests having been issued and the backoff sleeps of 1000 ms and 2000 ms having
happened; if it was the first or the second, the failure is retried: a further request
is issued. -/
theorem C2_http_error_surfaces_on_third_attempt (endpoint : String) (options : Options)
    (w : World) (i : Nat) (s : Sent) (r : Response) (kvs : List (String × Json)) (m : String)
    (hi : ((makeAuthenticatedRequest endpoint options w).2.sent.drop w.sent.length)[i]?
      = some s)
    (hans : s.answer = .ok r) (hok : r.ok = false) (h401 : r.status ≠ 401)
    (hbody : r.body = .ok (.obj kvs)) (hmsg : kvs.lookup "message" = some (.str m))
    (hm : m ≠ "") :
    (i = 2 →
      (makeAuthenticatedRequest endpoint options w).1 = .error (mkError m) ∧
      (makeAuthenticatedRequest endpoint options w).2.sent.length = w.sent.length + 3 ∧
      (makeAuthenticatedRequest endpoint options w).2.sleeps = w.sleeps ++ [1000, 2000]) ∧
    (i < 2 →
      w.sent.length + i + 1 < (makeAuthenticatedRequest endpoint options w).2.sent.length) := by
  obtain ⟨new, hnew, hpos, hlen, hall⟩ := makeAuthenticatedRequest_trace endpoint options w
  rw [hnew, List.drop_left] at hi
  obtain ⟨tok, -, hfail, -⟩ := hall i s hi
  have hf : attemptFailure tok s.answer = some (mkError m) := by
    rw [hans]
    simp [attemptFailure, hok, h401, httpFailure, hbody, Json.getProp, hmsg, messageOr,
      Json.truthy, hm, Json.toJsString]
  obtain ⟨h2, hlt⟩ := hfail _ hf
  have hil : i < new.length := by
    rcases Nat.lt_or_ge i new.length with h | h
    · exact h
    · rw [List.getElem?_eq_none h] at hi; simp at hi
  refine ⟨fun h => ⟨h2 h, ?_, ?_⟩, fun h => ?_⟩
  · rw [hnew, List.length_append]; omega
  · have hs := retryLoop_sleeps endpoint options maxRetries 0 w (by decide) (by simp)
    have hl : (retryLoop endpoint options maxRetries 0 w).2.sent.length = w.sent.length + 3 := by
      have := hnew
      unfold makeAuthenticatedRequest at this
      rw [this, List.length_append]; omega
    unfold makeAuthenticatedRequest
    rw [hs, hl]
    simp [List.range_succ]
  · have := hlt h
    rw [hnew, List.length_append]; omega

set_option maxHeartbeats 1000000 in
/-- C2, amended, at a concrete run: a backend that answers 500 with message 'boom'. -/
theorem C2_http_error_surfaces_on_third_attempt_witness :
    (2 = 2 →
      (makeAuthenticatedRequest "/alerts" {} (mkWorld none (constBackend serverError))).1
          = .error (mkError "boom") ∧
      (makeAuthenticatedRequest "/alerts" {}
          (mkWorld none (constBackend serverError))).2.sent.length
          = (mkWorld none (constBackend serverError)).sent.length + 3 ∧
      (makeAuthenticatedRequest "/alerts" {} (mkWorld none (constBackend serverError))).2.sleeps
          = (mkWorld none (constBackend serverError)).sleeps ++ [1000, 2000]) ∧
    (2 < 2 →
      (mkWorld none (constBackend serverError)).sent.length + 2 + 1 <
        (makeAuthenticatedRequest "/alerts" {}
          (mkWorld none (constBackend serverError))).2.sent.length) :=
  C2_http_error_surfaces_on_third_attempt "/alerts" {} (mkWorld none (constBackend serverError))
    2 ⟨attemptRequest "/alerts" {} none "http://192.168.43.143:3000", none, .ok serverError⟩
    serverError [("message", .str "boom")] "boom" rfl rfl rfl (by decide) rfl rfl (by decide)

/-! ## C3: the token is removed after a 401 -/

/-- What one attempt leaves alone: the session state, `API_BASE_URL`, and every
AsyncStorage slot but `authToken`, which it keeps or empties. -/
theorem attemptBody_frame (endpoint : String) (options : Options) (w : World) :
    (attemptBody endpoint options w).2.isAuthenticated = w.isAuthenticated ∧
    (attemptBody endpoint options w).2.user = w.user ∧
    (attemptBody endpoint options w).2.loading = w.loading ∧
    (attemptBody endpoint options w).2.apiBaseUrl = w.apiBaseUrl ∧
    (∀ k, k ≠ "authToken" → (attemptBody endpoint options w).2.storage k = w.storage k) ∧
    ((attemptBody endpoint options w).2.storage "authToken" = w.storage "authToken" ∨
      (attemptBody endpoint options w).2.storage "authToken" = none) := by
  rw [attemptBody_eq]
  cases (attemptSent endpoint options w).answer with
  | error e => exact ⟨rfl, rfl, rfl, rfl, fun _ _ => rfl, Or.inl rfl⟩
  | ok r =>
    simp only []
    split
    · exact ⟨rfl, rfl, rfl, rfl, fun _ _ => rfl, Or.inl rfl⟩
    · split
      · split
        · simp only [removeToken_eq, afterSend]
          refine ⟨trivial, trivial, trivial, trivial, ?_, ?_⟩
          · intro k hk
            cases w.storageFault (w.storageOps + 1) <;> simp [setSlot, hk]
          · cases w.storageFault (w.storageOps + 1) <;> simp [setSlot]
        · exact ⟨rfl, rfl, rfl, rfl, fun _ _ => rfl, Or.inl rfl⟩
      · exact ⟨rfl, rfl, rfl, rfl, fun _ _ => rfl, Or.inl rfl⟩

/-- With a working store, an attempt that carried the stored token and was answered 401
leaves the `authToken` slot empty. -/
theorem attemptBody_removes (endpoint : String) (options : Options) (w : World)
    (hw : workingStore w) (r : Response)
    (hans : (attemptSent endpoint options w).answer = .ok r) (h401 : r.status = 401)
    (htok : strTruthy (w.storage "authToken") = true) :
    (attemptBody endpoint options w).2.storage "authToken" = none := by
  rw [attemptBody_eq, hans]
  simp [not_ok_of_401 r h401, h401, tokenRead_working w hw, htok, removeToken_eq, afterSend,
    hw (w.storageOps + 1), setSlot]

/-- C3: with a working store, if some request of a call carried the stored token and was
answered 401, the token store is empty when the call ends, whatever the other attempts
did: a `getToken()` made then returns `null`. -/
theorem C3_token_removed_after_rejection (endpoint : String) (options : Options)
    (w : World) (hw : workingStore w) (s : Sent) (r : Response)
    (hs : s ∈ (makeAuthenticatedRequest endpoint options w).2.sent.drop w.sent.length)
    (htok : strTruthy s.tokenSlot = true) (hans : s.answer = .ok r) (h401 : r.status = 401) :
    (getToken (makeAuthenticatedRequest endpoint options w).2).1 = .ok none := by
  have key := retryLoop_rel
    (fun a b => workingStore a →
      workingStore b ∧ (a.storage "authToken" = none → b.storage "authToken" = none) ∧
      ∃ new, b.sent = a.sent ++ new ∧
        ∀ x ∈ new, strTruthy x.tokenSlot = true → ∀ y, x.answer = .ok y → y.status = 401 →
          b.storage "authToken" = none)
    endpoint options
    (fun a ha => ⟨ha, fun h => h, [], by simp, by simp⟩)
    (fun a b c hab hbc ha => by
      obtain ⟨hb, hab1, n1, hn1, hab2⟩ := hab ha
      obtain ⟨hc, hbc1, n2, hn2, hbc2⟩ := hbc hb
      refine ⟨hc, fun h => hbc1 (hab1 h), n1 ++ n2, by rw [hn2, hn1, List.append_assoc], ?_⟩
      intro x hx hxt y hxa hy
      rcases List.mem_append.mp hx with h | h
      · exact hbc1 (hab2 x h hxt y hxa hy)
      · exact hbc2 x h hxt y hxa hy)
    (fun a ha => by
      have hf := attemptBody_frame endpoint options a
      have he := attemptBody_env endpoint options a
      refine ⟨fun n => by rw [he.1]; exact ha n, ?_, [attemptSent endpoint options a],
        attemptBody_sent endpoint options a, ?_⟩
      · intro h
        rcases hf.2.2.2.2.2 with h2 | h2
        · rw [h2, h]
        · exact h2
      · intro x hx hxt y hxa hy
        have hx2 : x = attemptSent endpoint options a := by simpa using hx
        subst hx2
        exact attemptBody_removes endpoint options a ha y hxa hy hxt)
    (fun a ms ha => ⟨ha, fun h => h, [], by simp, by simp⟩)
    maxRetries 0 w hw
  obtain ⟨hw2, -, new, hnew, hall⟩ := key
  have hnew2 : (makeAuthenticatedRequest endpoint options w).2.sent = w.sent ++ new := hnew
  rw [hnew2, List.drop_left] at hs
  have hnone : (makeAuthenticatedRequest endpoint options w).2.storage "authToken" = none :=
    hall s hs htok r hans h401
  rw [getToken_eq]
  have hw3 : workingStore (makeAuthenticatedRequest endpoint options w).2 := hw2
  simp [hw3 _, hnone]

/-- C3 at a concrete run: token `T1` is stored, the first request is answered 401 and the
second 200; the store is empty afterwards. -/
theorem C3_token_removed_after_rejection_witness :
    (getToken (makeAuthenticatedRequest "/alerts" {} (mkWorld (some "T1") rejectOnce)).2).1
      = .ok none :=
  C3_token_removed_after_rejection "/alerts" {} (mkWorld (some "T1") rejectOnce)
    (fun _ => rfl)
    ⟨attemptRequest "/alerts" {} (some "T1") "http://192.168.43.143:3000", some "T1",
      .ok ⟨401, "Unauthorized", .ok (.obj [("message", .str "jwt expired")])⟩⟩
    ⟨401, "Unauthorized", .ok (.obj [("message", .str "jwt expired")])⟩
    (List.mem_cons_self _ _) rfl rfl rfl

/-! ## C4: a 401 answer to a request without token -/

set_option maxHeartbeats 1000000 in
/-- C4 fails on the code: with no token stored and a backend that answers 401 with a
JSON body, the call does not return that body after one request.  The body was already
read at line 65, so the second `response.json()` at line 79 rejects; the rejection is
caught by the retry loop, and after three requests and two sleeps the call throws. -/
theorem C4_unauthenticated_401_throws :
    ((makeAuthenticatedRequest "/alerts" {} (mkWorld none (constBackend unauthorized))).2.sent.map
        Sent.summary = [(none, none, some 401), (none, none, some 401), (none, none, some 401)]) ∧
    (makeAuthenticatedRequest "/alerts" {} (mkWorld none (constBackend unauthorized))).1
        = .error bodyUsedError ∧
    (makeAuthenticatedRequest "/alerts" {} (mkWorld none (constBackend unauthorized))).2.sleeps
        = [1000, 2000] :=
  ⟨by decide, rfl, by decide⟩

/-! ## C5: at most three requests, and the last transport error is raised -/

/-- C5: a call issues at most 3 requests, whatever the backend does; and when it issued
three requests and each failed at transport level (the `fetch` promise rejected: a
connection error, or the abort of a timeout), the call raises the error of the third
attempt, that is the rejection itself, or 'Request timeout' for an abort. -/
theorem C5_at_most_three_requests (endpoint : String) (options : Options) (w : World) :
    (makeAuthenticatedRequest endpoint options w).2.sent.length ≤ w.sent.length + 3 ∧
    ∀ (s0 s1 s2 : Sent) (x0 x1 x2 : JsError),
      (makeAuthenticatedRequest endpoint options w).2.sent = w.sent ++ [s0, s1, s2] →
      s0.answer = .error x0 → s1.answer = .error x1 → s2.answer = .error x2 →
      (makeAuthenticatedRequest endpoint options w).1
        = .error (if x2.name = "AbortError" then mkError "Request timeout" else x2) := by
  obtain ⟨new, hnew, hpos, hlen, hall⟩ := makeAuthenticatedRequest_trace endpoint options w
  refine ⟨by rw [hnew, List.length_append]; omega, ?_⟩
  intro s0 s1 s2 x0 x1 x2 hsent _ _ h2
  have hn : new = [s0, s1, s2] := by
    rw [hnew] at hsent
    exact List.append_cancel_left hsent
  obtain ⟨tok, -, hfail, -⟩ := hall 2 s2 (by rw [hn]; rfl)
  exact (hfail _ (by rw [h2]; rfl)).1 rfl

set_option maxHeartbeats 1000000 in
/-- C5 at a concrete run: a refused connection, a request that never settles, a refused
connection; the call raises the third error. -/
theorem C5_at_most_three_requests_witness :
    (makeAuthenticatedRequest "/alerts" {} (mkWorld none unreachable)).1
      = .error ⟨"TypeError", "Network request failed"⟩ :=
  (C5_at_most_three_requests "/alerts" {} (mkWorld none unreachable)).2
    ⟨attemptRequest "/alerts" {} none "http://192.168.43.143:3000", none,
      .error ⟨"TypeError", "Network request failed"⟩⟩
    ⟨attemptRequest "/alerts" {} none "http://192.168.43.143:3000", none, .error abortError⟩
    ⟨attemptRequest "/alerts" {} none "http://192.168.43.143:3000", none,
      .error ⟨"TypeError", "Network request failed"⟩⟩
    ⟨"TypeError", "Network request failed"⟩ abortError ⟨"TypeError", "Network request failed"⟩
    rfl rfl rfl rfl

/-! ## C6: the Authorization header -/

theorem lookup_setKey (k k1 v : String) (l : List (String × String)) (h : k ≠ k1) :
    (setKey k1 v l).lookup k = l.lookup k := by
  have hb : (k == k1) = false := by simpa using h
  induction l with
  | nil => simp [setKey, List.lookup, hb]
  | cons kv rest ih =>
    obtain ⟨k0, v0⟩ := kv
    by_cases h0 : k0 = k1
    · subst h0
      simp [setKey, List.lookup, hb]
    · simp only [setKey, h0, if_false, List.lookup]
      rw [ih]

theorem lookup_spread (k : String) (b : List (String × String)) :
    ∀ a : List (String × String), b.lookup k = none → (spread a b).lookup k = a.lookup k := by
  induction b with
  | nil => intro a _; rfl
  | cons kv rest ih =>
    intro a h
    obtain ⟨k1, v1⟩ := kv
    have hne : k ≠ k1 := by
      intro heq
      subst heq
      simp [List.lookup] at h
    have hrest : rest.lookup k = none := by
      have : (k == k1) = false := by simpa using hne
      simpa [List.lookup, this] using h
    have := ih (setKey k1 v1 a) hrest
    simp only [spread, List.foldl] at this ⊢
    rw [this, lookup_setKey k k1 v1 a hne]

/-- The `Authorization` header of an attempt, for a caller that passes none. -/
theorem attemptRequest_authorization (endpoint : String) (options : Options)
    (tok : Option String) (base : String) (hno : options.headers.lookup "Authorization" = none) :
    (attemptRequest endpoint options tok base).options.headers.lookup "Authorization" =
      if strTruthy tok then some ("Bearer " ++ tok.getD "") else none := by
  simp only [attemptRequest]
  rw [lookup_spread _ _ _ hno]
  cases strTruthy tok
  · simp [spread, List.lookup]
  · simp only [if_true, spread, List.foldl, setKey]
    simp [List.lookup]

/-- C6: with a working store and a caller that passes no `Authorization` header of its
own, every request of a call carries `Authorization: Bearer <token>` when the store held
a non-empty token as that request left, and no `Authorization` header when the store
held none or the empty string; the store is consulted anew for each request. -/
theorem C6_bearer_header_iff_token (endpoint : String) (options : Options) (w : World)
    (hw : workingStore w) (hno : options.headers.lookup "Authorization" = none) (s : Sent)
    (hs : s ∈ (makeAuthenticatedRequest endpoint options w).2.sent.drop w.sent.length) :
    (∀ t, s.tokenSlot = some t → t ≠ "" →
      s.request.options.headers.lookup "Authorization" = some ("Bearer " ++ t)) ∧
    (s.tokenSlot = none ∨ s.tokenSlot = some "" →
      s.request.options.headers.lookup "Authorization" = none) := by
  have key := retryLoop_rel
    (fun a b => workingStore a →
      workingStore b ∧ ∃ new, b.sent = a.sent ++ new ∧
        ∀ x ∈ new, x.request.options.headers.lookup "Authorization" =
          if strTruthy x.tokenSlot then some ("Bearer " ++ x.tokenSlot.getD "") else none)
    endpoint options
    (fun a ha => ⟨ha, [], by simp, by simp⟩)
    (fun a b c hab hbc ha => by
      obtain ⟨hb, n1, hn1, hab2⟩ := hab ha
      obtain ⟨hc, n2, hn2, hbc2⟩ := hbc hb
      refine ⟨hc, n1 ++ n2, by rw [hn2, hn1, List.append_assoc], ?_⟩
      intro x hx
      rcases List.mem_append.mp hx with h | h
      · exact hab2 x h
      · exact hbc2 x h)
    (fun a ha => by
      have he := attemptBody_env endpoint options a
      refine ⟨fun n => by rw [he.1]; exact ha n, [attemptSent endpoint options a],
        attemptBody_sent endpoint options a, ?_⟩
      intro x hx
      have hx2 : x = attemptSent endpoint options a := by simpa using hx
      subst hx2
      simp only [attemptSent]
      rw [attemptRequest_authorization _ _ _ _ hno, tokenRead_working a ha])
    (fun a ms ha => ⟨ha, [], by simp, by simp⟩)
    maxRetries 0 w hw
  obtain ⟨-, new, hnew, hall⟩ := key
  have hnew2 : (makeAuthenticatedRequest endpoint options w).2.sent = w.sent ++ new := hnew
  rw [hnew2, List.drop_left] at hs
  have h := hall s hs
  refine ⟨fun t ht hne => ?_, fun h0 => ?_⟩
  · rw [h, ht]
    simp [strTruthy, hne]
  · rw [h]
    rcases h0 with h0 | h0 <;> simp [h0, strTruthy]

/-- C6 at a concrete run: the first request leaves with token `T1` stored and is
answered 401, which empties the store; the second request leaves without the header. -/
theorem C6_bearer_header_iff_token_witness :
    ((∀ t, some "T1" = some t → t ≠ "" →
        (attemptRequest "/alerts" {} (some "T1") "http://192.168.43.143:3000"
          ).options.headers.lookup "Authorization" = some ("Bearer " ++ t)) ∧
      (some "T1" = (none : Option String) ∨ some "T1" = some "" →
        (attemptRequest "/alerts" {} (some "T1") "http://192.168.43.143:3000"
          ).options.headers.lookup "Authorization" = none)) ∧
    ((∀ t, (none : Option String) = some t → t ≠ "" →
        (attemptRequest "/alerts" {} none "http://192.168.43.143:3000"
          ).options.headers.lookup "Authorization" = some ("Bearer " ++ t)) ∧
      ((none : Option String) = none ∨ (none : Option String) = some "" →
        (attemptRequest "/alerts" {} none "http://192.168.43.143:3000"
          ).options.headers.lookup "Authorization" = none)) :=
  ⟨C6_bearer_header_iff_token "/alerts" {} (mkWorld (some "T1") rejectOnce) (fun _ => rfl) rfl
      ⟨attemptRequest "/alerts" {} (some "T1") "http://192.168.43.143:3000", some "T1",
        .ok ⟨401, "Unauthorized", .ok (.obj [("message", .str "jwt expired")])⟩⟩
      (List.mem_cons_self _ _),
   C6_bearer_header_iff_token "/alerts" {} (mkWorld (some "T1") rejectOnce) (fun _ => rfl) rfl
      ⟨attemptRequest "/alerts" {} none "http://192.168.43.143:3000", none,
        .ok ⟨200, "OK", .ok (.arr [])⟩⟩
      (List.mem_cons_of_mem _ (List.mem_cons_self _ _))⟩

/-! ## C7: the timeout race of fetchWithTimeout -/

/-- C7: with `T` the `timeout` option, or 20000 when it is absent: if the network settles
before `T` ms, the call yields the response, or rethrows the network failure as it is;
if `T` ms elapse first, the `fetch` is aborted (its promise rejects with `AbortError`)
and the call fails with the error 'Request timeout'. -/
theorem C7_timeout_race (resource : String) (options : Options) (w : World) :
    ((w.backend w.sent.length ⟨resource, options⟩).delay < options.timeout.getD 20000 →
      (fetchWithTimeout resource options w).1 =
        match (w.backend w.sent.length ⟨resource, options⟩).result with
        | .response r => .ok r
        | .failure m => .error ⟨"TypeError", m⟩) ∧
    (options.timeout.getD 20000 < (w.backend w.sent.length ⟨resource, options⟩).delay →
      (fetchWithTimeout resource options w).1 = .error (mkError "Request timeout") ∧
      (fetchWithTimeout resource options w).2.sent.getLast?.map (fun s => s.answer)
        = some (.error abortError)) := by
  rw [fetchWithTimeout_eq]
  constructor
  · intro h
    simp only [settle, h, if_true]
    cases (w.backend w.sent.length ⟨resource, options⟩).result with
    | response r => rfl
    | failure m => simp
  · intro h
    have h2 : ¬ (w.backend w.sent.length ⟨resource, options⟩).delay
        < options.timeout.getD 20000 := by omega
    simp [settle, h2, abortError]

/-- C7 at concrete calls: an answer that takes 25 s is delivered under a 30 s timeout,
and lost to 'Request timeout' under the default of 20 s. -/
theorem C7_timeout_race_witness :
    (fetchWithTimeout "http://192.168.43.143:3000/login" { timeout := some 30000 }
        (mkWorld none slowBackend)).1 = .ok ⟨200, "OK", .ok (.arr [])⟩ ∧
    ((fetchWithTimeout "http://192.168.43.143:3000/" {} (mkWorld none slowBackend)).1
        = .error (mkError "Request timeout") ∧
      (fetchWithTimeout "http://192.168.43.143:3000/" {}
        (mkWorld none slowBackend)).2.sent.getLast?.map (fun s => s.answer)
        = some (.error abortError)) :=
  ⟨(C7_timeout_race "http://192.168.43.143:3000/login" { timeout := some 30000 }
      (mkWorld none slowBackend)).1 (by decide),
   (C7_timeout_race "http://192.168.43.143:3000/" {} (mkWorld none slowBackend)).2
      (by decide)⟩

/-! ## C8: logout -/

/-- C8, as stated, fails: when removing the token from persistence fails, `logout`
leaves the session signed in: the state setters at lines 70-71 are skipped. -/
theorem C8_logout_keeps_session_on_failure :
    (logout (signedIn slowBackend firstOpFails)).1 = .ok () ∧
    (logout (signedIn slowBackend firstOpFails)).2.isAuthenticated = true ∧
    (logout (signedIn slowBackend firstOpFails)).2.user
      = some (.obj [("username", .str "alice")]) :=
  ⟨rfl, rfl, rfl⟩

/-- C8, amended: `logout` never raises; when both removals succeed it ends with the
session Unauthenticated (`isAuthenticated = false`, `user` absent) and both slots
empty, for every prior session state; when a removal fails the session state is left
as it was. -/
theorem C8_logout_resets_when_removals_succeed (w : World) :
    (logout w).1 = .ok () ∧
    (w.storageFault w.storageOps = none → w.storageFault (w.storageOps + 1) = none →
      (logout w).2.isAuthenticated = false ∧ (logout w).2.user = none ∧
      (logout w).2.storage "authToken" = none ∧ (logout w).2.storage "user" = none) ∧
    ((w.storageFault w.storageOps).isSome = true ∨
        (w.storageFault (w.storageOps + 1)).isSome = true →
      (logout w).2.isAuthenticated = w.isAuthenticated ∧ (logout w).2.user = w.user) := by
  simp only [logout, tryCatch, tryCatchThe, MonadExcept.tryCatch, Js.tryCatch, bind, Js.bind,
    removeItem, setUser, setIsAuthenticated, pure, Js.pure]
  cases h0 : w.storageFault w.storageOps with
  | some e => simp
  | none =>
    cases h1 : w.storageFault (w.storageOps + 1) with
    | some e => simp [h1]
    | none => simp [h1, setSlot]

/-- C8, amended, at concrete calls: a signed-in session with a working store, and one
whose first removal fails. -/
theorem C8_logout_resets_when_removals_succeed_witness :
    ((logout (signedIn slowBackend (fun _ => none))).2.isAuthenticated = false ∧
      (logout (signedIn slowBackend (fun _ => none))).2.user = none ∧
      (logout (signedIn slowBackend (fun _ => none))).2.storage "authToken" = none ∧
      (logout (signedIn slowBackend (fun _ => none))).2.storage "user" = none) ∧
    ((logout (signedIn slowBackend firstOpFails)).2.isAuthenticated
        = (signedIn slowBackend firstOpFails).isAuthenticated ∧
      (logout (signedIn slowBackend firstOpFails)).2.user
        = (signedIn slowBackend firstOpFails).user) :=
  ⟨(C8_logout_resets_when_removals_succeed (signedIn slowBackend (fun _ => none))).2.1 rfl rfl,
   (C8_logout_resets_when_removals_succeed (signedIn slowBackend firstOpFails)).2.2
      (Or.inl rfl)⟩

/-! ## C9: a 401 answer and the session -/

/-- C9, as stated, fails: a signed-in session whose request carries token `T1` and is
answered 401 loses the stored token only; `isAuthenticated` stays true, `user` stays
present and the persisted profile stays in AsyncStorage. -/
theorem C9_session_survives_rejection :
    ((makeAuthenticatedRequest "/alerts" {} (signedIn rejectOnce (fun _ => none))).2.sent.map
        Sent.summary = [(some "T1", some "Bearer T1", some 401), (none, none, some 200)]) ∧
    (makeAuthenticatedRequest "/alerts" {}
        (signedIn rejectOnce (fun _ => none))).2.storage "authToken" = none ∧
    (makeAuthenticatedRequest "/alerts" {}
        (signedIn rejectOnce (fun _ => none))).2.isAuthenticated = true ∧
    (makeAuthenticatedRequest "/alerts" {} (signedIn rejectOnce (fun _ => none))).2.user
      = some (.obj [("username", .str "alice")]) ∧
    (makeAuthenticatedRequest "/alerts" {}
        (signedIn rejectOnce (fun _ => none))).2.storage "user"
      = some "\x7b\"username\":\"alice\"\x7d" :=
  ⟨by decide, by decide, by decide, rfl, by decide⟩

/-- C9, amended: no call of `makeAuthenticatedRequest`, and so none whose request
carried a stored token and was answered 401, resets the session: `isAuthenticated`,
`user`, `loading` and the persisted user profile are left as they were. -/
theorem C9_session_untouched_by_requests (endpoint : String) (options : Options) (w : World) :
    (makeAuthenticatedRequest endpoint options w).2.isAuthenticated = w.isAuthenticated ∧
    (makeAuthenticatedRequest endpoint options w).2.user = w.user ∧
    (makeAuthenticatedRequest endpoint options w).2.loading = w.loading ∧
    (makeAuthenticatedRequest endpoint options w).2.storage "user" = w.storage "user" := by
  have key := retryLoop_rel
    (fun a b => b.isAuthenticated = a.isAuthenticated ∧ b.user = a.user ∧
      b.loading = a.loading ∧ ∀ k, k ≠ "authToken" → b.storage k = a.storage k)
    endpoint options
    (fun a => ⟨rfl, rfl, rfl, fun _ _ => rfl⟩)
    (fun a b c hab hbc =>
      ⟨hbc.1.trans hab.1, hbc.2.1.trans hab.2.1, hbc.2.2.1.trans hab.2.2.1,
        fun k hk => (hbc.2.2.2 k hk).trans (hab.2.2.2 k hk)⟩)
    (fun a => by
      have hf := attemptBody_frame endpoint options a
      exact ⟨hf.1, hf.2.1, hf.2.2.1, hf.2.2.2.2.1⟩)
    (fun a ms => ⟨rfl, rfl, rfl, fun _ _ => rfl⟩)
    maxRetries 0 w
  exact ⟨key.1, key.2.1, key.2.2.1, key.2.2.2 "user" (by decide)⟩

/-! ## C10: login stores the token of the response -/

/-- C10: with a working store, for every username, password, non-empty token `T` and
earlier content of the store, a login that the backend answers within the 30 s timeout
with a 2xx status and the body `success: true, token: T` returns that body and leaves
the token store holding `T`: a following `getToken()` returns `T`. -/
theorem C10_login_stores_token (username password T statusText : String) (status d : Nat)
    (w : World) (hw : workingStore w) (hT : T ≠ "") (hd : d < 30000)
    (hstatus : 200 ≤ status ∧ status ≤ 299)
    (hback : ∀ req, w.backend w.sent.length req =
      ⟨d, .response ⟨status, statusText,
        .ok (.obj [("success", .bool true), ("token", .str T)])⟩⟩) :
    (login username password w).1
      = .ok (.obj [("success", .bool true), ("token", .str T)]) ∧
    (getToken (login username password w).2).1 = .ok (some T) := by
  have hok : Response.ok ⟨status, statusText,
      .ok (.obj [("success", .bool true), ("token", .str T)])⟩ = true := by
    simp [Response.ok, hstatus.1, hstatus.2]
  have hTb : (T != "") = true := by simpa using hT
  simp [login, tryCatch, tryCatchThe, MonadExcept.tryCatch, Js.tryCatch, bind, Js.bind,
    getBaseUrl, fetchWithTimeout_eq, hback, settle, hd, Body.json,
    Js.ofExcept, Js.pure, Json.getProp, List.lookup, hok, setToken, setItem, hw _,
    Json.truthy, hTb, getToken_eq, pure, setSlot]

/-- C10 at a concrete call: alice logs in, token `old` being stored; the backend hands
out `T1`. -/
theorem C10_login_stores_token_witness :
    (login "alice" "pw" (mkWorld (some "old") tokenBackend)).1
      = .ok (.obj [("success", .bool true), ("token", .str "T1")]) ∧
    (getToken (login "alice" "pw" (mkWorld (some "old") tokenBackend)).2).1
      = .ok (some "T1") :=
  C10_login_stores_token "alice" "pw" "T1" "OK" 200 300 (mkWorld (some "old") tokenBackend)
    (fun _ => rfl) (by decide) (by decide) (by decide) (fun _ => rfl)


/-! ## C11: a login whose response carries no token -/

/-- C11: with a working store, for every content `s` of the token store, a login that the
backend answers in time with a 2xx status and the body `success: true` (no `token`
field), followed by the `login` of `AuthProvider` with the profile that `handleLogin`
builds and the absent token of the response, leaves the token store equal to `s` and
the session Authenticated. -/
theorem C11_login_without_token_keeps_store (api : JsonApi)
    (username password statusText : String) (status d : Nat) (w : World)
    (hw : workingStore w) (hd : d < 30000) (hstatus : 200 ≤ status ∧ status ≤ 299)
    (hback : ∀ req, w.backend w.sent.length req =
      ⟨d, .response ⟨status, statusText, .ok (.obj [("success", .bool true)])⟩⟩) :
    (login username password w).1 = .ok (.obj [("success", .bool true)]) ∧
    Json.getProp (.obj [("success", .bool true)]) "token" = .ok none ∧
    userDataOf (.obj [("success", .bool true)]) username
      = .ok (.obj [("username", .str username)]) ∧
    (AuthProvider.login api (.obj [("username", .str username)]) none
      (login username password w).2).1 = .ok () ∧
    (AuthProvider.login api (.obj [("username", .str username)]) none
      (login username password w).2).2.storage "authToken" = w.storage "authToken" ∧
    (AuthProvider.login api (.obj [("username", .str username)]) none
      (login username password w).2).2.isAuthenticated = true := by
  have hok : Response.ok ⟨status, statusText, .ok (.obj [("success", .bool true)])⟩ = true := by
    simp [Response.ok, hstatus.1, hstatus.2]
  have hlogin : login username password w =
      (.ok (.obj [("success", .bool true)]),
       { w with sent := w.sent ++ [⟨⟨w.apiBaseUrl ++ "/login",
          { method := some "POST",
            headers := [("Content-Type", "application/json"), ("Accept", "application/json")],
            body := some (.obj [("username", .str username), ("password", .str password)]),
            timeout := some 30000 }⟩, w.storage "authToken",
          .ok ⟨status, statusText, .ok (.obj [("success", .bool true)])⟩⟩] }) := by
    simp [login, tryCatch, tryCatchThe, MonadExcept.tryCatch, Js.tryCatch, bind, Js.bind,
      getBaseUrl, fetchWithTimeout_eq, hback, settle, hd, Body.json, Js.ofExcept, Js.pure,
      Json.getProp, List.lookup, hok, pure]
  rw [hlogin]
  refine ⟨rfl, rfl, ?_, ?_⟩
  · simp [userDataOf, Json.getProp, List.lookup, JsVal.truthy, ownProps]
  · simp [AuthProvider.login, tryCatch, tryCatchThe, MonadExcept.tryCatch, Js.tryCatch, bind,
      Js.bind, JsVal.truthy, getItem, setItem, setUser, setIsAuthenticated, hw _, pure,
      Js.pure, setSlot]

/-- C11 at a concrete call: alice logs in, token `old` being stored; the backend accepts
without handing out a token. -/
theorem C11_login_without_token_keeps_store_witness :
    (login "alice" "pw" (mkWorld (some "old") sessionBackend)).1
      = .ok (.obj [("success", .bool true)]) ∧
    Json.getProp (.obj [("success", .bool true)]) "token" = .ok none ∧
    userDataOf (.obj [("success", .bool true)]) "alice"
      = .ok (.obj [("username", .str "alice")]) ∧
    (AuthProvider.login toyJson (.obj [("username", .str "alice")]) none
      (login "alice" "pw" (mkWorld (some "old") sessionBackend)).2).1 = .ok () ∧
    (AuthProvider.login toyJson (.obj [("username", .str "alice")]) none
      (login "alice" "pw" (mkWorld (some "old") sessionBackend)).2).2.storage "authToken"
      = (mkWorld (some "old") sessionBackend).storage "authToken" ∧
    (AuthProvider.login toyJson (.obj [("username", .str "alice")]) none
      (login "alice" "pw" (mkWorld (some "old") sessionBackend)).2).2.isAuthenticated = true :=
  C11_login_without_token_keeps_store toyJson "alice" "pw" "OK" 200 300
    (mkWorld (some "old") sessionBackend) (fun _ => rfl) (by decide) (by decide)
    (fun _ => rfl)


/-! ## C12: startup reconciliation -/

/-- The world after `loadAuthData`, case by case. -/
theorem loadAuthData_eq (api : JsonApi) (w : World) :
    AuthProvider.loadAuthData api w =
      (.ok (),
        match w.storageFault w.storageOps with
        | some _ => { w with storageOps := w.storageOps + 1, loading := false }
        | none =>
          match w.storageFault (w.storageOps + 1) with
          | some _ => { w with storageOps := w.storageOps + 2, loading := false }
          | none =>
            if strTruthy (w.storage "authToken") && strTruthy (w.storage "user") then
              match api.parse ((w.storage "user").getD "") with
              | .ok v => { w with storageOps := w.storageOps + 2, loading := false,
                                  user := some v, isAuthenticated := true }
              | .error _ => { w with storageOps := w.storageOps + 2, loading := false }
            else { w with storageOps := w.storageOps + 2, loading := false }) := by
  simp only [AuthProvider.loadAuthData, Js.tryFinally, tryCatch, tryCatchThe,
    MonadExcept.tryCatch, Js.tryCatch, bind, Js.bind, getItem, setLoading, pure, Js.pure]
  cases h0 : w.storageFault w.storageOps with
  | some e => rfl
  | none =>
    simp only []
    cases h1 : w.storageFault (w.storageOps + 1) with
    | some e => rfl
    | none =>
      simp only []
      cases hb : (strTruthy (w.storage "authToken") && strTruthy (w.storage "user"))
      · simp [Js.pure]
      · simp only [if_true]
        cases hp : api.parse ((w.storage "user").getD "") with
        | error e => simp [Js.ofExcept, Js.throw, Js.bind]
        | ok v => simp [Js.ofExcept, Js.pure, Js.bind, setUser, setIsAuthenticated]

/-- C12: started from the empty session, `loadAuthData` never raises, issues no request
and ends with `loading = false`; the session is Authenticated after it exactly when both
reads of persistence succeed, a non-empty token and a non-empty profile text are found,
and the text parses, and `user` is then the parsed profile; in every other case the
session stays Unauthenticated with `user` absent. -/
theorem C12_startup_reconciliation (api : JsonApi) (w : World)
    (hauth : w.isAuthenticated = false) (huser : w.user = none) :
    (AuthProvider.loadAuthData api w).1 = .ok () ∧
    (AuthProvider.loadAuthData api w).2.loading = false ∧
    (AuthProvider.loadAuthData api w).2.sent = w.sent ∧
    ((AuthProvider.loadAuthData api w).2.isAuthenticated = true ↔
      ∃ t u v, w.storageFault w.storageOps = none ∧ w.storageFault (w.storageOps + 1) = none ∧
        w.storage "authToken" = some t ∧ t ≠ "" ∧ w.storage "user" = some u ∧ u ≠ "" ∧
        api.parse u = .ok v) ∧
    (∀ u v, (AuthProvider.loadAuthData api w).2.isAuthenticated = true →
      w.storage "user" = some u → api.parse u = .ok v →
      (AuthProvider.loadAuthData api w).2.user = some v) ∧
    ((AuthProvider.loadAuthData api w).2.isAuthenticated = false →
      (AuthProvider.loadAuthData api w).2.user = none) := by
  rw [loadAuthData_eq]
  refine ⟨rfl, ?_⟩
  cases h0 : w.storageFault w.storageOps with
  | some e => simp [hauth, huser]
  | none =>
    cases h1 : w.storageFault (w.storageOps + 1) with
    | some e => simp [hauth, huser]
    | none =>
      cases ht : w.storage "authToken" with
      | none => simp [strTruthy, hauth, huser]
      | some t =>
        cases hu : w.storage "user" with
        | none => simp [strTruthy, hauth, huser]
        | some u =>
          by_cases hte : t = ""
          · simp [strTruthy, hte, hauth, huser]
          · by_cases hue : u = ""
            · simp [strTruthy, hue, hauth, huser]
            · cases hp : api.parse u with
              | error e => simp [strTruthy, hte, hue, hp, hauth, huser]
              | ok v =>
                have hb : (t != "" && u != "") = true := by simp [hte, hue]
                simp only [strTruthy, hb, if_true, Option.getD_some, hp]
                refine ⟨trivial, trivial, ⟨fun _ => ⟨t, u, v, trivial, trivial, rfl, hte, rfl,
                  hue, hp⟩, fun _ => trivial⟩, ?_, ?_⟩
                · intro u1 v1 _ hu1 hp1
                  cases hu1
                  rw [hp] at hp1
                  cases hp1
                  rfl
                · intro h
                  simp at h

/-- C12 at concrete starts: with token `T1` and the profile of alice persisted the
session starts Authenticated as alice; with a store whose first read fails it starts
Unauthenticated. -/
theorem C12_startup_reconciliation_witness :
    ((AuthProvider.loadAuthData toyJson
        (freshStart (signedIn slowBackend (fun _ => none)).storage (fun _ => none))).2.isAuthenticated
        = true ∧
      (AuthProvider.loadAuthData toyJson
        (freshStart (signedIn slowBackend (fun _ => none)).storage (fun _ => none))).2.user
        = some (.obj [("username", .str "alice")])) ∧
    (AuthProvider.loadAuthData toyJson
        (freshStart (signedIn slowBackend (fun _ => none)).storage firstOpFails)).2.user
        = none :=
  ⟨⟨(C12_startup_reconciliation toyJson
        (freshStart (signedIn slowBackend (fun _ => none)).storage (fun _ => none))
        rfl rfl).2.2.2.1.mpr
        ⟨"T1", aliceText, .obj [("username", .str "alice")], rfl, rfl, rfl, by decide, rfl,
          by decide, rfl⟩,
      (C12_startup_reconciliation toyJson
        (freshStart (signedIn slowBackend (fun _ => none)).storage (fun _ => none))
        rfl rfl).2.2.2.2.1 aliceText (.obj [("username", .str "alice")]) rfl rfl rfl⟩,
    (C12_startup_reconciliation toyJson
        (freshStart (signedIn slowBackend (fun _ => none)).storage firstOpFails)
        rfl rfl).2.2.2.2.2 rfl⟩


/-! ## C13: an authenticated session has a user -/

/-- The profile that `handleLogin` builds is an object. -/
theorem userDataOf_obj (responseData : Json) (username : String) (userData : Json)
    (h : userDataOf responseData username = .ok userData) : ∃ kvs, userData = .obj kvs := by
  unfold userDataOf at h
  split at h
  · simp only [Except.ok.injEq] at h
    exact ⟨_, h.symm⟩
  · simp at h
  · simp at h

/-- Catching an error only to throw it again changes nothing. -/
theorem tryCatch_rethrow {α : Type} (m : Js α) : Js.tryCatch m Js.throw = m := by
  funext w
  simp only [Js.tryCatch, Js.throw]
  rcases m w with ⟨e | a, w1⟩ <;> rfl

/-- The last three statements of the `try` block of `login`, started in a world that
agrees with `w` on the session state and the persisted profile. -/
theorem loginTail_outcome (api : JsonApi) (userData : Json) (w w0 : World)
    (hauth : w0.isAuthenticated = w.isAuthenticated) (huser : w0.user = w.user)
    (hstore : w0.storage "user" = w.storage "user") :
    LoginOutcome api userData w (loginTail api userData w0) := by
  simp only [LoginOutcome, loginTail, bind, Js.bind, setItem, setUser, setIsAuthenticated]
  cases h0 : w0.storageFault w0.storageOps with
  | none => left; simp [setSlot]
  | some e => right; simp [hauth, huser, hstore]

/-- The `login` of `AuthProvider` either completes, with the session Authenticated as
`userData` and the profile persisted, or throws and leaves the session state and the
persisted profile as they were. -/
theorem authLogin_cases (api : JsonApi) (userData : Json) (token : JsVal) (w : World) :
    LoginOutcome api userData w (AuthProvider.login api userData token w) := by
  have hunfold : AuthProvider.login api userData token w =
      (if token.truthy then
        (match token with
         | some (.str t) => (setItem "authToken" t).bind (fun _ => loginTail api userData)
         | _ => Js.throw (mkError "AsyncStorage: value is not a string"))
       else (getItem "authToken").bind (fun _ => loginTail api userData)) w := by
    simp only [AuthProvider.login, tryCatch, tryCatchThe, MonadExcept.tryCatch, throw,
      throwThe, MonadExcept.throw]
    rw [tryCatch_rethrow]
    simp only [bind, pure, loginTail]
    cases token.truthy
    · simp [Js.bind, Js.pure]
    · simp only [if_true]
      split
      · rfl
      · simp [Js.bind, Js.throw]
  rw [hunfold]
  cases token.truthy
  · simp only [Bool.false_eq_true, if_false, Js.bind, getItem]
    cases h0 : w.storageFault w.storageOps with
    | none => exact loginTail_outcome api userData w _ rfl rfl rfl
    | some e => right; exact ⟨⟨e, rfl⟩, rfl, rfl, rfl⟩
  · simp only [if_true]
    split
    · simp only [Js.bind, setItem]
      cases h0 : w.storageFault w.storageOps with
      | none =>
        refine loginTail_outcome api userData w _ rfl rfl ?_
        simp [setSlot]
      | some e => right; exact ⟨⟨e, rfl⟩, rfl, rfl, rfl⟩
    · right; exact ⟨⟨_, rfl⟩, rfl, rfl, rfl⟩

/-- After `logout` the session is reset and no profile is persisted, or the session
state and the persisted profile are as they were. -/
theorem logout_cases (w : World) :
    ((logout w).2.isAuthenticated = false ∧ (logout w).2.user = none ∧
      (logout w).2.storage "user" = none) ∨
    ((logout w).2.isAuthenticated = w.isAuthenticated ∧ (logout w).2.user = w.user ∧
      (logout w).2.storage "user" = w.storage "user") := by
  simp only [logout, tryCatch, tryCatchThe, MonadExcept.tryCatch, Js.tryCatch, bind, Js.bind,
    removeItem, setUser, setIsAuthenticated, pure, Js.pure]
  cases h0 : w.storageFault w.storageOps with
  | some e => right; simp
  | none =>
    cases h1 : w.storageFault (w.storageOps + 1) with
    | some e => right; simp [h1, setSlot]
    | none => left; simp [h1, setSlot]

/-- The invariant behind C13: an authenticated session has a user, and the persisted
profile, if any, parses to a value that is not `null`. -/
theorem reachable_invariant (api : JsonApi)
    (hapi : ∀ kvs, ∃ v, api.parse (api.stringify (.obj kvs)) = .ok v ∧ v.isNull = false)
    (w : World) (h : Reachable api w) :
    (w.isAuthenticated = true → userPresent w.user = true) ∧
    (∀ s, w.storage "user" = some s → s ≠ "" →
      ∃ v, api.parse s = .ok v ∧ v.isNull = false) := by
  induction h with
  | start w hauth huser hstore =>
    refine ⟨fun h => ?_, fun s hs => ?_⟩
    · rw [hauth] at h; cases h
    · rw [hstore] at hs; cases hs
  | @load w h ih =>
    rw [loadAuthData_eq]
    obtain ⟨ih1, ih2⟩ := ih
    cases h0 : w.storageFault w.storageOps with
    | some e => exact ⟨ih1, ih2⟩
    | none =>
      cases h1 : w.storageFault (w.storageOps + 1) with
      | some e => exact ⟨ih1, ih2⟩
      | none =>
        simp only []
        cases hb : (strTruthy (w.storage "authToken") && strTruthy (w.storage "user"))
        · exact ⟨ih1, ih2⟩
        · simp only [if_true]
          cases hu : w.storage "user" with
          | none => simp [hu, strTruthy] at hb
          | some u =>
            have hne : u ≠ "" := by
              intro he
              simp [hu, he, strTruthy] at hb
            obtain ⟨v, hv, hvn⟩ := ih2 u hu hne
            simp only [Option.getD_some, hv]
            refine ⟨fun _ => ?_, fun s hs => ?_⟩
            · cases v <;> simp_all [userPresent, Json.isNull]
            · exact ih2 s (by simpa [hu] using hs)
  | @login w responseData username userData token h hdata ih =>
    obtain ⟨ih1, ih2⟩ := ih
    obtain ⟨kvs, rfl⟩ := userDataOf_obj _ _ _ hdata
    rcases authLogin_cases api (.obj kvs) token w with ⟨-, h2, h3, h4⟩ | ⟨-, h2, h3, h4⟩
    · refine ⟨fun _ => by rw [h3]; rfl, fun s hs _ => ?_⟩
      rw [h4] at hs
      cases hs
      exact hapi kvs
    · refine ⟨fun ha => by rw [h3]; exact ih1 (by rw [← h2]; exact ha), fun s hs => ?_⟩
      rw [h4] at hs
      exact ih2 s hs
  | @logout w h ih =>
    obtain ⟨ih1, ih2⟩ := ih
    rcases logout_cases w with ⟨h1, h2, h3⟩ | ⟨h1, h2, h3⟩
    · refine ⟨fun ha => ?_, fun s hs => ?_⟩
      · rw [h1] at ha; cases ha
      · rw [h3] at hs; cases hs
    · refine ⟨fun ha => ?_, fun s hs => ?_⟩
      · rw [h2]; exact ih1 (by rw [← h1]; exact ha)
      · rw [h3] at hs; exact ih2 s hs
  | @restart w h ih =>
    refine ⟨fun ha => ?_, ih.2⟩
    cases ha
  | @frame w w1 h hauth huser hstore ih =>
    exact ⟨fun ha => by rw [huser]; exact ih.1 (by rw [← hauth]; exact ha),
      fun s hs => ih.2 s (by rw [← hstore]; exact hs)⟩


/-- C13: with engine functions for which the text of an object parses back to a value
that is not `null`, in every world reachable from a fresh install through startup
loading, `login` (with the profile object that `handleLogin` builds), `logout`,
restarts and steps that leave the session alone, `isAuthenticated = true` implies that
`user` is present. -/
theorem C13_authenticated_has_user (api : JsonApi)
    (hapi : ∀ kvs, ∃ v, api.parse (api.stringify (.obj kvs)) = .ok v ∧ v.isNull = false)
    (w : World) (h : Reachable api w) (hauth : w.isAuthenticated = true) :
    userPresent w.user = true :=
  (reachable_invariant api hapi w h).1 hauth

/-- C13 at a concrete run: from a fresh install, alice logs in with token `T1`. -/
theorem C13_authenticated_has_user_witness :
    userPresent (AuthProvider.login toyJson (.obj [("username", .str "alice")])
      (some (.str "T1")) (freshStart (fun _ => none) (fun _ => none))).2.user = true :=
  C13_authenticated_has_user toyJson
    (fun kvs => by
      simp only [toyJson]
      split <;> simp [Json.isNull])
    _
    (Reachable.login (.obj [("success", .bool true), ("token", .str "T1")]) "alice"
      (.obj [("username", .str "alice")]) (some (.str "T1"))
      (Reachable.start (freshStart (fun _ => none) (fun _ => none)) rfl rfl rfl) rfl)
    rfl

/-! ## Facts about the endpoint selection -/

theorem setBaseUrl_eq (urls : List String) (url : String) (w : World) :
    setBaseUrl urls url w =
      if url ∈ urls then
        (.ok (), { w with
          apiBaseUrl := url,
          storageOps := w.storageOps + 1,
          storage := match w.storageFault w.storageOps with
                     | some _ => w.storage
                     | none => setSlot w.storage "apiBaseUrl" (some url) })
      else (.ok (), w) := by
  by_cases h : url ∈ urls
  · simp only [setBaseUrl, h, if_true, bind, Js.bind, setApiBaseUrl, tryCatch, tryCatchThe,
      MonadExcept.tryCatch, Js.tryCatch, setItem, pure, Js.pure]
    cases w.storageFault w.storageOps <;> rfl
  · simp [setBaseUrl, h, pure, Js.pure]

/-- One probe, branch by branch. -/
theorem probe_eq (urls : List String) (url : String) (w : World) :
    probe urls url w =
      match probeFailure (probeSent url w).answer, (probeSent url w).answer with
      | some e, _ => (.error e, { w with sent := w.sent ++ [probeSent url w] })
      | none, .ok r =>
        (r.body,
          if w.apiBaseUrl ≠ url then
            (setBaseUrl urls url { w with sent := w.sent ++ [probeSent url w] }).2
          else { w with sent := w.sent ++ [probeSent url w] })
      | none, .error x => (.error x, { w with sent := w.sent ++ [probeSent url w] }) := by
  have hto : healthOptions.timeout.getD 20000 = 15000 := rfl
  have hpa : settle (w.backend w.sent.length ⟨url ++ "/health", healthOptions⟩) 15000
      = probeAnswer w w.sent.length url := rfl
  simp only [probe, bind, Js.bind, fetchWithTimeout_eq, hto, hpa, probeSent]
  cases hs : probeAnswer w w.sent.length url with
  | error x => simp [probeFailure]
  | ok r =>
    simp only [probeFailure]
    cases hok : r.ok
    · simp [throw, throwThe, MonadExcept.throw, Js.throw]
    · simp only [if_true, Body.json, Bool.false_eq_true, if_false]
      cases hb : r.body with
      | error e => simp [Js.ofExcept, Js.throw, Js.bind]
      | ok v =>
        simp only [Js.ofExcept, Js.pure, getBaseUrl, Js.bind, pure]
        by_cases hu : w.apiBaseUrl = url
        · simp [hu, Js.pure, Js.bind, hb]
        · simp only [ne_eq, hu, not_false_eq_true, if_true, if_false, setBaseUrl_eq]
          have hsb := setBaseUrl_eq urls url { w with sent := w.sent ++
            [⟨⟨url ++ "/health", healthOptions⟩, w.storage "authToken", .ok r⟩] }
          by_cases hm : url ∈ urls
          · simp only [hm, if_true] at hsb ⊢
            simp only [Js.bind, hsb, hb, Js.pure]
          · simp only [hm, if_false] at hsb ⊢
            simp only [Js.bind, hsb, hb, Js.pure]


/-- One iteration of the loop of `healthCheck`. -/
theorem healthCheckFrom_cons (urls : List String) (url : String) (rest : List String)
    (lastError : Option JsError) (w : World) :
    healthCheckFrom urls (url :: rest) lastError w =
      match probe urls url w with
      | (.ok v, w1) => (.ok v, w1)
      | (.error e, w1) => healthCheckFrom urls rest (some e) w1 := by
  simp only [healthCheckFrom, tryCatch, tryCatchThe, MonadExcept.tryCatch, Js.tryCatch]
  rcases probe urls url w with ⟨e | v, w1⟩ <;> rfl

/-- A reflexive and transitive relation between worlds that every probe respects
relates the world before a health check to the world after it. -/
theorem healthCheckFrom_rel (R : World → World → Prop) (urls : List String)
    (hrefl : ∀ w, R w w) (htrans : ∀ a b c, R a b → R b c → R a c)
    (hprobe : ∀ url w, R w (probe urls url w).2) :
    ∀ (l : List String) (lastError : Option JsError) (w : World),
      R w (healthCheckFrom urls l lastError w).2 := by
  intro l
  induction l with
  | nil => intro lastError w; exact hrefl w
  | cons url rest ih =>
    intro lastError w
    rw [healthCheckFrom_cons]
    have h1 := hprobe url w
    rcases hb : probe urls url w with ⟨e | v, w1⟩
    · rw [hb] at h1
      exact htrans _ _ _ h1 (ih _ _)
    · rw [hb] at h1
      exact h1

/-- One evaluation of the loop condition of the method `initialize` and, if it holds,
one iteration. -/
theorem connectLoop_succ (urls : List String) (fuel attempts : Nat) (success : Bool)
    (w : World) :
    connectLoop urls (fuel + 1) attempts success w =
      if attempts < MAX_RETRIES ∧ success = false then
        match healthCheck urls w with
        | (.ok _, w1) => connectLoop urls fuel (attempts + 1) true w1
        | (.error _, w1) =>
          connectLoop urls fuel (attempts + 1) false
            (if attempts + 1 < MAX_RETRIES then slept (1000 * (attempts + 1)) w1 else w1)
      else (.ok (some ()), w) := by
  by_cases hc : attempts < MAX_RETRIES ∧ success = false
  · have hb : (decide (attempts < MAX_RETRIES) && !success) = true := by
      simp [hc.1, hc.2]
    rw [if_pos hc]
    simp only [connectLoop, hb, if_true, tryCatch, tryCatchThe, MonadExcept.tryCatch,
      Js.tryCatch, bind, Js.bind, pure, Js.pure]
    rcases healthCheck urls w with ⟨e | v, w1⟩
    · by_cases hlt : attempts + 1 < MAX_RETRIES
      · simp [hlt, sleep, slept, Js.pure, Js.bind]
      · simp [hlt, Js.pure, Js.bind]
    · rfl
  · have hb : (decide (attempts < MAX_RETRIES) && !success) = false := by
      cases success <;> simp_all
    rw [if_neg hc]
    simp only [connectLoop, hb, Bool.false_eq_true, if_false, pure, Js.pure]

/-- A reflexive and transitive relation between worlds that every health check and
every backoff sleep respects relates the world before the loop of the method
`initialize` to the world after it. -/
theorem connectLoop_rel (R : World → World → Prop) (urls : List String)
    (hrefl : ∀ w, R w w) (htrans : ∀ a b c, R a b → R b c → R a c)
    (hhealth : ∀ w, R w (healthCheck urls w).2)
    (hsleep : ∀ w ms, R w (slept ms w)) :
    ∀ (fuel attempts : Nat) (success : Bool) (w : World),
      R w (connectLoop urls fuel attempts success w).2 := by
  intro fuel
  induction fuel with
  | zero => intro attempts success w; exact hrefl w
  | succ fuel ih =>
    intro attempts success w
    rw [connectLoop_succ]
    by_cases hc : attempts < MAX_RETRIES ∧ success = false
    · simp only [hc, and_self, if_true]
      have h1 := hhealth w
      rcases hb : healthCheck urls w with ⟨e | v, w1⟩
      · rw [hb] at h1
        simp only []
        by_cases hlt : attempts + 1 < MAX_RETRIES
        · simp only [hlt, if_true]
          exact htrans _ _ _ h1 (htrans _ _ _ (hsleep w1 _) (ih _ _ _))
        · simp only [hlt, if_false]
          exact htrans _ _ _ h1 (ih _ _ _)
      · rw [hb] at h1
        exact htrans _ _ _ h1 (ih _ _ _)
    · simp only [hc, if_false]
      exact hrefl w

/-- The loop of the method `initialize` always ends by itself, and never throws: the
bound on the evaluations of its condition is not exhausted. -/
theorem connectLoop_ends (urls : List String) :
    ∀ (fuel attempts : Nat) (success : Bool) (w : World),
      0 < fuel → MAX_RETRIES + 1 ≤ attempts + fuel →
      (connectLoop urls fuel attempts success w).1 = .ok (some ()) := by
  intro fuel
  induction fuel with
  | zero => intro attempts success w h; omega
  | succ fuel ih =>
    intro attempts success w _ h
    rw [connectLoop_succ]
    by_cases hc : attempts < MAX_RETRIES ∧ success = false
    · simp only [hc, and_self, if_true]
      rcases healthCheck urls w with ⟨e | v, w1⟩
      · exact ih _ _ _ (by omega) (by omega)
      · exact ih _ _ _ (by omega) (by omega)
    · simp only [hc, if_false]

/-- The method `initialize` is the loop of health checks started in the world in which
`API_BASE_URL` has been chosen. -/
theorem initService_eq (urls : List String) (w : World) :
    initService urls w = connectLoop urls (MAX_RETRIES + 1) 0 false (chooseUrl urls w) := by
  have hends := connectLoop_ends urls (MAX_RETRIES + 1) 0 false
  have hchoose : ∀ (k : Option String → Js (Option Unit)),
      ((tryCatch (getItem "apiBaseUrl") (fun _ => (pure none : Js (Option String)))).bind k) w
        = k (match w.storageFault w.storageOps with
              | some _ => none
              | none => w.storage "apiBaseUrl") { w with storageOps := w.storageOps + 1 } := by
    intro k
    simp only [tryCatch, tryCatchThe, MonadExcept.tryCatch, Js.tryCatch, Js.bind, getItem, pure,
      Js.pure]
    cases w.storageFault w.storageOps <;> rfl
  simp only [initService, tryCatch, tryCatchThe, MonadExcept.tryCatch, bind, pure]
  simp only [tryCatch, tryCatchThe, MonadExcept.tryCatch, bind, pure] at hchoose
  rw [Js.tryCatch, hchoose]
  have hworld : ∀ (c : Bool) (a b : String) (w1 : World),
      (if c = true then (setApiBaseUrl a).bind
          (fun _ => connectLoop urls (MAX_RETRIES + 1) 0 false)
        else (setApiBaseUrl b).bind (fun _ => connectLoop urls (MAX_RETRIES + 1) 0 false)) w1
      = connectLoop urls (MAX_RETRIES + 1) 0 false
          { w1 with apiBaseUrl := if c = true then a else b } := by
    intro c a b w1
    cases c <;> simp [Js.bind, setApiBaseUrl]
  rw [hworld]
  have hsame : ({ ({ w with storageOps := w.storageOps + 1 } : World) with
      apiBaseUrl :=
        if (strTruthy (match w.storageFault w.storageOps with
              | some _ => none
              | none => w.storage "apiBaseUrl") &&
            decide ((match w.storageFault w.storageOps with
              | some _ => none
              | none => w.storage "apiBaseUrl").getD "" ∈ urls)) = true
        then (match w.storageFault w.storageOps with
              | some _ => none
              | none => w.storage "apiBaseUrl").getD ""
        else firstUrl urls } : World) = chooseUrl urls w := by
    simp only [chooseUrl]
    cases w.storageFault w.storageOps with
    | some e => simp [strTruthy]
    | none =>
      cases w.storage "apiBaseUrl" with
      | none => simp [strTruthy]
      | some stored =>
        by_cases h1 : stored = ""
        · simp [strTruthy, h1]
        · by_cases h2 : stored ∈ urls
          · simp [strTruthy, h1, h2]
          · simp [strTruthy, h1, h2]
  rw [hsame]
  have h := hends (chooseUrl urls w) (by simp) (by simp)
  rcases hc : connectLoop urls (MAX_RETRIES + 1) 0 false (chooseUrl urls w) with ⟨res, w2⟩
  rw [hc] at h
  simp only at h
  subst h
  rfl


/-- A probe either fails, and only logs its request, or succeeds with a 2xx answer whose
body parses, and then makes its candidate the active URL. -/
theorem probe_cases (urls : List String) (url : String) (w : World) :
    (∃ e, probeFailure (probeSent url w).answer = some e ∧
      probe urls url w = (.error e, { w with sent := w.sent ++ [probeSent url w] })) ∨
    (∃ r v, (probeSent url w).answer = .ok r ∧ r.ok = true ∧ r.body = .ok v ∧
      probeFailure (probeSent url w).answer = none ∧
      probe urls url w =
        (.ok v,
          if w.apiBaseUrl ≠ url then
            (setBaseUrl urls url { w with sent := w.sent ++ [probeSent url w] }).2
          else { w with sent := w.sent ++ [probeSent url w] })) := by
  rw [probe_eq]
  cases hf : probeFailure (probeSent url w).answer with
  | some e => exact Or.inl ⟨e, rfl, rfl⟩
  | none =>
    right
    cases ha : (probeSent url w).answer with
    | error x => rw [ha] at hf; simp [probeFailure] at hf
    | ok r =>
      rw [ha] at hf
      simp only [probeFailure] at hf
      cases hok : r.ok
      · simp [hok] at hf
      · simp only [hok, if_true] at hf
        cases hb : r.body with
        | error e => rw [hb] at hf; simp at hf
        | ok v => exact ⟨r, v, rfl, hok, hb, by simp [probeFailure, hok, hb], by simp [hb]⟩

/-- What a probe leaves alone, and what it does to the active URL. -/
theorem probe_frame (urls : List String) (url : String) (w : World) :
    (probe urls url w).2.sleeps = w.sleeps ∧
    (probe urls url w).2.backend = w.backend ∧
    (probe urls url w).2.storageFault = w.storageFault ∧
    (probe urls url w).2.sent = w.sent ++ [probeSent url w] ∧
    ((probe urls url w).2.apiBaseUrl = w.apiBaseUrl ∨
      ((probe urls url w).2.apiBaseUrl = url ∧ url ∈ urls ∧
        probeFailure (probeSent url w).answer = none)) := by
  rcases probe_cases urls url w with ⟨e, hf, hp⟩ | ⟨r, v, ha, hok, hb, hf, hp⟩
  · rw [hp]
    exact ⟨rfl, rfl, rfl, rfl, Or.inl rfl⟩
  · rw [hp]
    by_cases hu : w.apiBaseUrl = url
    · rw [if_neg (by simp [hu])]
      exact ⟨rfl, rfl, rfl, rfl, Or.inl rfl⟩
    · rw [if_pos (by simpa using hu), setBaseUrl_eq]
      by_cases hm : url ∈ urls
      · rw [if_pos hm]
        exact ⟨rfl, rfl, rfl, rfl, Or.inr ⟨rfl, hm, hf⟩⟩
      · rw [if_neg hm]
        exact ⟨rfl, rfl, rfl, rfl, Or.inl rfl⟩

/-- A health check leaves the active URL among the candidates. -/
theorem healthCheck_base_mem (urls : List String) (w : World) (h : w.apiBaseUrl ∈ urls) :
    (healthCheck urls w).2.apiBaseUrl ∈ urls :=
  healthCheckFrom_rel (fun a b => a.apiBaseUrl ∈ urls → b.apiBaseUrl ∈ urls) urls
    (fun _ h => h) (fun _ _ _ hab hbc h => hbc (hab h))
    (fun url a ha => by
      rcases (probe_frame urls url a).2.2.2.2 with h1 | ⟨h1, h2, -⟩
      · rw [h1]; exact ha
      · rw [h1]; exact h2)
    urls none w h

/-- A health check does not sleep. -/
theorem healthCheck_sleeps (urls : List String) (w : World) :
    (healthCheck urls w).2.sleeps = w.sleeps :=
  healthCheckFrom_rel (fun a b => b.sleeps = a.sleeps) urls
    (fun _ => rfl) (fun _ _ _ hab hbc => hbc.trans hab)
    (fun url a => (probe_frame urls url a).1)
    urls none w

/-- A connection test leaves the active URL alone. -/
theorem testConnection_base (url : String) (w : World) :
    (testConnection url w).2.apiBaseUrl = w.apiBaseUrl := by
  simp only [testConnection, tryCatch, tryCatchThe, MonadExcept.tryCatch, Js.tryCatch, bind,
    Js.bind, nextDelay, fetchWithTimeout_eq]
  cases settle (w.backend w.sent.length ⟨url ++ "/health", testOptions⟩)
      (testOptions.timeout.getD 20000) with
  | error e => rfl
  | ok r =>
    simp only []
    cases r.ok
    · rfl
    · simp only [if_true, Body.json, Bool.false_eq_true, if_false]
      cases r.body <;> rfl

/-- The connection tests leave the active URL alone. -/
theorem testAllFrom_base :
    ∀ (l : List String) (results : List ConnectionResult) (w : World),
      (testAllFrom l results w).2.apiBaseUrl = w.apiBaseUrl := by
  intro l
  induction l with
  | nil => intro results w; rfl
  | cons url rest ih =>
    intro results w
    simp only [testAllFrom, bind, Js.bind]
    have h := testConnection_base url w
    rcases hc : testConnection url w with ⟨e | record, w1⟩
    · rw [hc] at h; exact h
    · rw [hc] at h
      simp only []
      rw [ih, h]

/-- The first candidate of a non-empty list is a candidate. -/
theorem firstUrl_mem (urls : List String) (h : urls ≠ []) : firstUrl urls ∈ urls := by
  cases urls with
  | nil => exact absurd rfl h
  | cons a rest => simp [firstUrl]

/-- The URL chosen at the start of the method `initialize` is a candidate. -/
theorem chooseUrl_mem (urls : List String) (w : World) (h : urls ≠ []) :
    (chooseUrl urls w).apiBaseUrl ∈ urls := by
  simp only [chooseUrl]
  cases w.storageFault w.storageOps with
  | some e => exact firstUrl_mem urls h
  | none =>
    cases w.storage "apiBaseUrl" with
    | none => exact firstUrl_mem urls h
    | some stored =>
      simp only []
      split
      · rename_i hc; exact hc.2
      · exact firstUrl_mem urls h

/-- The method `initialize` leaves the active URL among the candidates. -/
theorem initService_base_mem (urls : List String) (w : World) (h : urls ≠ []) :
    (initService urls w).2.apiBaseUrl ∈ urls := by
  rw [initService_eq]
  exact connectLoop_rel (fun a b => a.apiBaseUrl ∈ urls → b.apiBaseUrl ∈ urls) urls
    (fun _ h => h) (fun _ _ _ hab hbc h => hbc (hab h))
    (fun a ha => healthCheck_base_mem urls a ha)
    (fun a ms ha => ha)
    (MAX_RETRIES + 1) 0 false (chooseUrl urls w) (chooseUrl_mem urls w h)


/-! ## C14: the active URL is a candidate -/

/-- C14: for a non-empty candidate list and an active URL that is a candidate (it is
`API_URLS[0]` when the module is loaded), after every sequence of calls of the method
`initialize`, `healthCheck`, `setBaseUrl` (with any argument) and `testAllConnections`,
whatever is persisted and whatever the backend does, `getBaseUrl()` returns a member of
the candidate list. -/
theorem C14_active_url_is_candidate (urls : List String) (hne : urls ≠ [])
    (calls : List EndpointCall) (w : World) (h : w.apiBaseUrl ∈ urls) :
    ∃ u, (getBaseUrl (runCalls urls calls w)).1 = .ok u ∧ u ∈ urls := by
  refine ⟨(runCalls urls calls w).apiBaseUrl, rfl, ?_⟩
  induction calls generalizing w with
  | nil => exact h
  | cons c rest ih =>
    simp only [runCalls, List.foldl] at ih ⊢
    apply ih
    cases c with
    | init => exact initService_base_mem urls w hne
    | health => exact healthCheck_base_mem urls w h
    | setUrl url =>
      simp only [EndpointCall.run, setBaseUrl_eq]
      split
      · assumption
      · exact h
    | testAll =>
      simp only [EndpointCall.run, testAllConnections]
      rw [testAllFrom_base]
      exact h

/-- C14 at a concrete sequence: a foreign URL is proposed, then the service is started,
the connections are tested and a health check runs, only the second candidate being
reachable. -/
theorem C14_active_url_is_candidate_witness :
    ∃ u, (getBaseUrl (runCalls candidates
        [.setUrl "http://evil.example", .init, .testAll, .health]
        (endpointWorld secondOnly (some "http://evil.example") (fun _ => none)))).1 = .ok u ∧
      u ∈ candidates :=
  C14_active_url_is_candidate candidates (by decide)
    [.setUrl "http://evil.example", .init, .testAll, .health]
    (endpointWorld secondOnly (some "http://evil.example") (fun _ => none)) (by decide)

/-! ## C15: setBaseUrl -/

/-- C15: `setBaseUrl(url)` never raises; if `url` is a candidate, the active URL becomes
`url` and `url` is written to persistence (it is persisted when the write succeeds); if
`url` is not a candidate, the call changes nothing: the active URL is as before and no
persistence operation is issued. -/
theorem C15_setBaseUrl (urls : List String) (url : String) (w : World) :
    (setBaseUrl urls url w).1 = .ok () ∧
    (url ∈ urls →
      (setBaseUrl urls url w).2.apiBaseUrl = url ∧
      (setBaseUrl urls url w).2.storageOps = w.storageOps + 1 ∧
      (w.storageFault w.storageOps = none →
        (setBaseUrl urls url w).2.storage "apiBaseUrl" = some url)) ∧
    (url ∉ urls → (setBaseUrl urls url w).2 = w) := by
  rw [setBaseUrl_eq]
  by_cases hm : url ∈ urls
  · rw [if_pos hm]
    refine ⟨rfl, fun _ => ⟨rfl, rfl, fun hf => ?_⟩, fun h => absurd hm h⟩
    simp [hf, setSlot]
  · rw [if_neg hm]
    exact ⟨rfl, fun h => absurd h hm, fun _ => rfl⟩

/-- C15 at concrete calls: the second candidate is accepted and persisted; a foreign URL
is ignored. -/
theorem C15_setBaseUrl_witness :
    ((setBaseUrl candidates "http://10.0.0.2:3000"
        (endpointWorld secondOnly none (fun _ => none))).2.apiBaseUrl = "http://10.0.0.2:3000" ∧
      (setBaseUrl candidates "http://10.0.0.2:3000"
        (endpointWorld secondOnly none (fun _ => none))).2.storageOps
        = (endpointWorld secondOnly none (fun _ => none)).storageOps + 1 ∧
      ((endpointWorld secondOnly none (fun _ => none)).storageFault
          (endpointWorld secondOnly none (fun _ => none)).storageOps = none →
        (setBaseUrl candidates "http://10.0.0.2:3000"
          (endpointWorld secondOnly none (fun _ => none))).2.storage "apiBaseUrl"
          = some "http://10.0.0.2:3000")) ∧
    (setBaseUrl candidates "http://evil.example"
        (endpointWorld secondOnly none (fun _ => none))).2
      = endpointWorld secondOnly none (fun _ => none) :=
  ⟨(C15_setBaseUrl candidates "http://10.0.0.2:3000"
      (endpointWorld secondOnly none (fun _ => none))).2.1 (by decide),
   (C15_setBaseUrl candidates "http://evil.example"
      (endpointWorld secondOnly none (fun _ => none))).2.2 (by decide)⟩

/-! ## C18: the method initialize never raises -/

/-- C18: for every candidate list, every backend and every behaviour of persistence
(so also when every probe fails and when reading the persisted URL fails), the method
`initialize` completes normally; and for a non-empty candidate list the active URL
afterwards is a candidate. -/
theorem C18_startup_never_raises (urls : List String) (w : World) :
    (initService urls w).1 = .ok (some ()) ∧
    (urls ≠ [] → (initService urls w).2.apiBaseUrl ∈ urls) := by
  refine ⟨?_, initService_base_mem urls w⟩
  rw [initService_eq]
  exact connectLoop_ends urls (MAX_RETRIES + 1) 0 false _ (by simp) (by simp)

/-- C18 at a concrete start: no candidate is reachable and the read of the persisted URL
fails. -/
theorem C18_startup_never_raises_witness :
    (initService candidates (endpointWorld allDown none firstOpFails)).2.apiBaseUrl
      ∈ candidates :=
  (C18_startup_never_raises candidates (endpointWorld allDown none firstOpFails)).2
    (by decide)


/-! ## C19: at most three health checks, with linear backoff -/

/-- C19: the method `initialize` completes normally, and the world it leaves is obtained
from the world in which the active URL has been chosen by at most three runs of
`healthCheck`: it stops after the first run that succeeds, sleeps 1000 ms between a
failed first run and the second, 2000 ms between a failed second run and the third, and
does nothing after the third, failed or not; these are its only sleeps. -/
theorem C19_at_most_three_health_checks (urls : List String) (w : World) :
    initService urls w =
      (.ok (some ()),
        match healthCheck urls (chooseUrl urls w) with
        | (.ok _, w1) => w1
        | (.error _, w1) =>
          match healthCheck urls (slept 1000 w1) with
          | (.ok _, w2) => w2
          | (.error _, w2) => (healthCheck urls (slept 2000 w2)).2) ∧
    (initService urls w).2.sleeps =
      w.sleeps ++
        match healthCheck urls (chooseUrl urls w) with
        | (.ok _, _) => []
        | (.error _, w1) =>
          match healthCheck urls (slept 1000 w1) with
          | (.ok _, _) => [1000]
          | (.error _, _) => [1000, 2000] := by
  have hfuel : MAX_RETRIES + 1 = 3 + 1 := rfl
  have h1 : (0 : Nat) < MAX_RETRIES ∧ false = false := ⟨by decide, rfl⟩
  have h2 : (0 : Nat) + 1 < MAX_RETRIES ∧ false = false := ⟨by decide, rfl⟩
  have h3 : (0 : Nat) + 1 + 1 < MAX_RETRIES ∧ false = false := ⟨by decide, rfl⟩
  have h4 : ¬ ((0 : Nat) + 1 + 1 + 1 < MAX_RETRIES ∧ false = false) := by decide
  have hs1 : (0 : Nat) + 1 < MAX_RETRIES := by decide
  have hs2 : (0 : Nat) + 1 + 1 < MAX_RETRIES := by decide
  have hs3 : ¬ ((0 : Nat) + 1 + 1 + 1 < MAX_RETRIES) := by decide
  have hstop : ∀ (fuel attempts : Nat) (w1 : World),
      connectLoop urls (fuel + 1) attempts true w1 = (.ok (some ()), w1) := by
    intro fuel attempts w1
    rw [connectLoop_succ, if_neg (by simp)]
  rw [initService_eq, hfuel, connectLoop_succ, if_pos h1]
  rcases hh0 : healthCheck urls (chooseUrl urls w) with ⟨e | v, w1⟩
  · have e0 : w1.sleeps = w.sleeps := by
      have := healthCheck_sleeps urls (chooseUrl urls w)
      rw [hh0] at this
      exact this
    simp only [if_pos hs1]
    rw [connectLoop_succ, if_pos h2]
    rcases hh1 : healthCheck urls (slept (1000 * (0 + 1)) w1) with ⟨e2 | v2, w2⟩
    · have e1 : w2.sleeps = w.sleeps ++ [1000] := by
        have := healthCheck_sleeps urls (slept (1000 * (0 + 1)) w1)
        rw [hh1] at this
        simp only [slept] at this
        rw [this, e0]
      simp only [if_pos hs2]
      rw [connectLoop_succ, if_pos h3]
      rcases hh2 : healthCheck urls (slept (1000 * (0 + 1 + 1)) w2) with ⟨e4 | v4, w3⟩
      · have e3 : w3.sleeps = w.sleeps ++ [1000, 2000] := by
          have := healthCheck_sleeps urls (slept (1000 * (0 + 1 + 1)) w2)
          rw [hh2] at this
          simp only [slept] at this
          rw [this, e1]
          simp
        simp only [if_neg hs3]
        rw [connectLoop_succ, if_neg h4]
        exact ⟨rfl, e3⟩
      · have e3 : w3.sleeps = w.sleeps ++ [1000, 2000] := by
          have := healthCheck_sleeps urls (slept (1000 * (0 + 1 + 1)) w2)
          rw [hh2] at this
          simp only [slept] at this
          rw [this, e1]
          simp
        simp only []
        rw [hstop]
        exact ⟨rfl, e3⟩
    · have e1 : w2.sleeps = w.sleeps ++ [1000] := by
        have := healthCheck_sleeps urls (slept (1000 * (0 + 1)) w1)
        rw [hh1] at this
        simp only [slept] at this
        rw [this, e0]
      simp only []
      rw [hstop]
      exact ⟨rfl, e1⟩
  · have e0 : w1.sleeps = w.sleeps := by
      have := healthCheck_sleeps urls (chooseUrl urls w)
      rw [hh0] at this
      exact this
    simp only []
    rw [hstop]
    refine ⟨rfl, ?_⟩
    simp [e0]


/-! ## C20: the initial choice of the active URL -/

/-- While every probe fails, health checks and backoff sleeps leave the active URL as it
was. -/
theorem connectLoop_base_of_failures (urls : List String) (fuel attempts : Nat)
    (success : Bool) (w : World) :
    ∃ new, (connectLoop urls fuel attempts success w).2.sent = w.sent ++ new ∧
      ((∀ s ∈ new, (probeFailure s.answer).isSome = true) →
        (connectLoop urls fuel attempts success w).2.apiBaseUrl = w.apiBaseUrl) := by
  have hR : ∀ a b c : World,
      (∃ new, b.sent = a.sent ++ new ∧
        ((∀ s ∈ new, (probeFailure s.answer).isSome = true) → b.apiBaseUrl = a.apiBaseUrl)) →
      (∃ new, c.sent = b.sent ++ new ∧
        ((∀ s ∈ new, (probeFailure s.answer).isSome = true) → c.apiBaseUrl = b.apiBaseUrl)) →
      (∃ new, c.sent = a.sent ++ new ∧
        ((∀ s ∈ new, (probeFailure s.answer).isSome = true) →
          c.apiBaseUrl = a.apiBaseUrl)) := by
    intro a b c hab hbc
    obtain ⟨n1, h1, k1⟩ := hab
    obtain ⟨n2, h2, k2⟩ := hbc
    refine ⟨n1 ++ n2, by rw [h2, h1, List.append_assoc], fun hall => ?_⟩
    rw [k2 (fun s hs => hall s (List.mem_append.mpr (Or.inr hs))),
      k1 (fun s hs => hall s (List.mem_append.mpr (Or.inl hs)))]
  refine connectLoop_rel
    (fun a b => ∃ new, b.sent = a.sent ++ new ∧
      ((∀ s ∈ new, (probeFailure s.answer).isSome = true) → b.apiBaseUrl = a.apiBaseUrl))
    urls (fun a => ⟨[], by simp, fun _ => rfl⟩) hR ?_ (fun a ms => ⟨[], by simp [slept], fun _ => rfl⟩)
    fuel attempts success w
  intro a
  refine healthCheckFrom_rel
    (fun a b => ∃ new, b.sent = a.sent ++ new ∧
      ((∀ s ∈ new, (probeFailure s.answer).isSome = true) → b.apiBaseUrl = a.apiBaseUrl))
    urls (fun a => ⟨[], by simp, fun _ => rfl⟩) hR ?_ urls none a
  intro url b
  obtain ⟨-, -, -, hsent, hbase⟩ := probe_frame urls url b
  refine ⟨[probeSent url b], hsent, fun hall => ?_⟩
  rcases hbase with h | ⟨-, -, h⟩
  · exact h
  · have := hall (probeSent url b) (List.mem_singleton.mpr rfl)
    rw [h] at this
    simp at this

/-- C20: the method `initialize` chooses the active URL before it issues any request:
the persisted URL if the read succeeds and yields a non-empty URL that is a candidate,
otherwise the first candidate; the health checks start from that choice, and if every
probe of the call fails the active URL after the call is exactly that choice. -/
theorem C20_initial_choice (urls : List String) (first : String) (w : World)
    (hfirst : urls.head? = some first) :
    (chooseUrl urls w).apiBaseUrl =
      (match w.storageFault w.storageOps, w.storage "apiBaseUrl" with
       | none, some stored => if stored ≠ "" ∧ stored ∈ urls then stored else first
       | _, _ => first) ∧
    (chooseUrl urls w).sent = w.sent ∧
    initService urls w = connectLoop urls (MAX_RETRIES + 1) 0 false (chooseUrl urls w) ∧
    ((∀ s ∈ (initService urls w).2.sent.drop w.sent.length,
        (probeFailure s.answer).isSome = true) →
      (initService urls w).2.apiBaseUrl =
        (match w.storageFault w.storageOps, w.storage "apiBaseUrl" with
         | none, some stored => if stored ≠ "" ∧ stored ∈ urls then stored else first
         | _, _ => first)) := by
  have hf : firstUrl urls = first := by simp [firstUrl, hfirst]
  have hchoice : (chooseUrl urls w).apiBaseUrl =
      (match w.storageFault w.storageOps, w.storage "apiBaseUrl" with
       | none, some stored => if stored ≠ "" ∧ stored ∈ urls then stored else first
       | _, _ => first) := by
    simp only [chooseUrl, hf]
  refine ⟨hchoice, rfl, initService_eq urls w, fun hall => ?_⟩
  rw [← hchoice, initService_eq]
  obtain ⟨new, hnew, hkeep⟩ :=
    connectLoop_base_of_failures urls (MAX_RETRIES + 1) 0 false (chooseUrl urls w)
  rw [initService_eq, hnew] at hall
  have hsent : (chooseUrl urls w).sent = w.sent := rfl
  rw [hsent, List.drop_left] at hall
  exact hkeep hall

/-- C20 at a concrete start: the second candidate is persisted and no candidate is
reachable; the second candidate is active afterwards. -/
theorem C20_initial_choice_witness :
    (initService candidates
        (endpointWorld allDown (some "http://10.0.0.2:3000") (fun _ => none))).2.apiBaseUrl
      = "http://10.0.0.2:3000" :=
  (C20_initial_choice candidates "http://10.0.0.1:3000"
      (endpointWorld allDown (some "http://10.0.0.2:3000") (fun _ => none)) rfl).2.2.2
    (by decide!)


/-! ## C16 and C17: the order of the probes and their outcome -/

/-- The candidates whose probes fail are passed over: each adds its request to the log
and changes nothing else. -/
theorem healthCheckFrom_skip (urls rest : List String) :
    ∀ (pre : List String) (lastError : Option JsError) (w : World),
      (∀ i c, pre[i]? = some c →
        (probeFailure (probeAnswer w (w.sent.length + i) c)).isSome = true) →
      ∃ (le : Option JsError) (w1 : World),
        healthCheckFrom urls (pre ++ rest) lastError w = healthCheckFrom urls rest le w1 ∧
        w1 = { w with sent := w1.sent } ∧
        w1.sent.length = w.sent.length + pre.length ∧
        w1.sent.map (fun s => s.request.url)
          = w.sent.map (fun s => s.request.url) ++ pre.map (fun c => c ++ "/health") ∧
        (pre = [] → le = lastError) := by
  intro pre
  induction pre with
  | nil =>
    intro lastError w _
    exact ⟨lastError, w, rfl, rfl, by simp, by simp, fun _ => rfl⟩
  | cons c pre ih =>
    intro lastError w hfail
    have h0 := hfail 0 c (by simp)
    rw [List.cons_append, healthCheckFrom_cons]
    rcases probe_cases urls c w with ⟨e, hf, hp⟩ | ⟨r, v, ha, hok, hb, hf, hp⟩
    · rw [hp]
      simp only []
      obtain ⟨le, w1, h1, h2, h3, h4, -⟩ :=
        ih (some e) { w with sent := w.sent ++ [probeSent c w] } (by
          intro i c1 hi
          have := hfail (i + 1) c1 (by simpa using hi)
          show (probeFailure (probeAnswer w ((w.sent ++ [probeSent c w]).length + i) c1)).isSome
            = true
          have hidx : (w.sent ++ [probeSent c w]).length + i = w.sent.length + (i + 1) := by
            simp only [List.length_append, List.length_cons, List.length_nil]
            omega
          rw [hidx]
          exact this)
      refine ⟨le, w1, h1, ?_, ?_, ?_, fun h => by cases h⟩
      · rw [h2]
      · rw [h3]
        show (w.sent ++ [probeSent c w]).length + pre.length = w.sent.length + (c :: pre).length
        simp only [List.length_append, List.length_cons, List.length_nil]
        omega
      · rw [h4]
        simp [probeSent]
    · have hcontra : probeFailure (probeAnswer w (w.sent.length + 0) c) = none := hf
      rw [hcontra] at h0
      simp at h0

/-- C16, as stated, fails: the first candidate answers its probe with status 200, but
with a body that is not JSON; `healthCheck` goes on to probe the second candidate and
makes it the active URL. -/
theorem C16_plain_text_answer_is_passed_over :
    ((healthCheck candidates (endpointWorld plainTextFirst none (fun _ => none))).2.sent.map
        (fun s => (s.request.url, s.answer.toOption.map (fun r => r.status)))
      = [("http://10.0.0.1:3000/health", some 200), ("http://10.0.0.2:3000/health", some 200)]) ∧
    (healthCheck candidates (endpointWorld plainTextFirst none (fun _ => none))).2.apiBaseUrl
      = "http://10.0.0.2:3000" := by
  decide!

/-- C16, amended: `healthCheck` probes the candidates in list order and stops at the
first one whose probe answers 2xx with a body that parses as JSON: when the probes of
the candidates `pre` fail and the probe of the next candidate `u` succeeds, the call
returns the body, the requests of the call are the probes of `pre` and of `u` in that
order (no later candidate is probed), the active URL afterwards is `u`, and when `u`
differs from the previously active URL it is written to persistence (persisted when the
write succeeds); when `u` was already active persistence is left alone. -/
theorem C16_first_healthy_candidate (pre post : List String) (u : String) (w : World)
    (r : Response) (v : Json)
    (hfail : ∀ i c, pre[i]? = some c →
      (probeFailure (probeAnswer w (w.sent.length + i) c)).isSome = true)
    (hans : probeAnswer w (w.sent.length + pre.length) u = .ok r)
    (hok : r.ok = true) (hbody : r.body = .ok v) :
    (healthCheck (pre ++ u :: post) w).1 = .ok v ∧
    (healthCheck (pre ++ u :: post) w).2.sent.map (fun s => s.request.url)
      = w.sent.map (fun s => s.request.url) ++ (pre ++ [u]).map (fun c => c ++ "/health") ∧
    (healthCheck (pre ++ u :: post) w).2.apiBaseUrl = u ∧
    (u ≠ w.apiBaseUrl → w.storageFault w.storageOps = none →
      (healthCheck (pre ++ u :: post) w).2.storage "apiBaseUrl" = some u) ∧
    (u = w.apiBaseUrl → (healthCheck (pre ++ u :: post) w).2.storage = w.storage) := by
  obtain ⟨le, w1, h1, h2, h3, h4, -⟩ :=
    healthCheckFrom_skip (pre ++ u :: post) (u :: post) pre none w hfail
  have hmem : u ∈ pre ++ u :: post := by simp
  have hanswer : (probeSent u w1).answer = .ok r := by
    rw [← hans]
    simp only [probeSent, probeAnswer, h3]
    rw [h2]
  unfold healthCheck
  rw [h1, healthCheckFrom_cons]
  rcases probe_cases (pre ++ u :: post) u w1 with ⟨e, hf, hp⟩ | ⟨r1, v1, ha, hok1, hb1, hf, hp⟩
  · rw [hanswer] at hf
    simp [probeFailure, hok, hbody] at hf
  · rw [hanswer] at ha
    cases ha
    rw [hbody] at hb1
    cases hb1
    rw [hp]
    show _ = Except.ok v ∧ _
    have hbase : w1.apiBaseUrl = w.apiBaseUrl := by rw [h2]
    have hstore : w1.storage = w.storage := by rw [h2]
    have hops : w1.storageOps = w.storageOps := by rw [h2]
    have hfault : w1.storageFault = w.storageFault := by rw [h2]
    by_cases hu : w1.apiBaseUrl = u
    · rw [if_neg (by simp [hu])]
      refine ⟨rfl, ?_, hu, fun hne => absurd (hbase ▸ hu).symm hne, fun _ => hstore⟩
      simp [h4, probeSent]
    · rw [if_pos (by simpa using hu), setBaseUrl_eq, if_pos hmem]
      refine ⟨rfl, ?_, rfl, fun _ hf0 => ?_, fun heq => absurd (hbase.trans heq.symm) hu⟩
      · simp [h4, probeSent]
      · simp [hops, hfault, hf0, setSlot]

/-- C16, amended, at a concrete run: the first candidate is unreachable, the second is
healthy. -/
theorem C16_first_healthy_candidate_witness :
    (healthCheck (["http://10.0.0.1:3000"] ++ "http://10.0.0.2:3000" :: [])
        (endpointWorld secondOnly none (fun _ => none))).1
      = .ok (.obj [("status", .str "ok")]) ∧
    (healthCheck (["http://10.0.0.1:3000"] ++ "http://10.0.0.2:3000" :: [])
        (endpointWorld secondOnly none (fun _ => none))).2.sent.map (fun s => s.request.url)
      = (endpointWorld secondOnly none (fun _ => none)).sent.map (fun s => s.request.url) ++
        (["http://10.0.0.1:3000"] ++ ["http://10.0.0.2:3000"]).map (fun c => c ++ "/health") ∧
    (healthCheck (["http://10.0.0.1:3000"] ++ "http://10.0.0.2:3000" :: [])
        (endpointWorld secondOnly none (fun _ => none))).2.apiBaseUrl
      = "http://10.0.0.2:3000" ∧
    ("http://10.0.0.2:3000" ≠ (endpointWorld secondOnly none (fun _ => none)).apiBaseUrl →
      (endpointWorld secondOnly none (fun _ => none)).storageFault
        (endpointWorld secondOnly none (fun _ => none)).storageOps = none →
      (healthCheck (["http://10.0.0.1:3000"] ++ "http://10.0.0.2:3000" :: [])
        (endpointWorld secondOnly none (fun _ => none))).2.storage "apiBaseUrl"
        = some "http://10.0.0.2:3000") ∧
    ("http://10.0.0.2:3000" = (endpointWorld secondOnly none (fun _ => none)).apiBaseUrl →
      (healthCheck (["http://10.0.0.1:3000"] ++ "http://10.0.0.2:3000" :: [])
        (endpointWorld secondOnly none (fun _ => none))).2.storage
        = (endpointWorld secondOnly none (fun _ => none)).storage) :=
  C16_first_healthy_candidate ["http://10.0.0.1:3000"] [] "http://10.0.0.2:3000"
    (endpointWorld secondOnly none (fun _ => none)) healthyAnswer
    (.obj [("status", .str "ok")])
    (fun i c hi => by
      cases i with
      | zero =>
        have hc : c = "http://10.0.0.1:3000" := by simpa using hi.symm
        subst hc
        decide
      | succ j => simp at hi)
    rfl rfl rfl


/-- C17: when the probe of every candidate fails (a rejection of `fetch`, a non-2xx
status, or a body that does not parse), `healthCheck` raises the error whose message is
'All API endpoints unreachable. Last error: m', with `m` the message of the error of
the last candidate in list order; every candidate has been probed, in list order, and
the active URL and persistence are as before. -/
theorem C17_all_candidates_unreachable (init : List String) (last : String) (w : World)
    (e : JsError)
    (hfail : ∀ i c, init[i]? = some c →
      (probeFailure (probeAnswer w (w.sent.length + i) c)).isSome = true)
    (hlast : probeFailure (probeAnswer w (w.sent.length + init.length) last) = some e) :
    (healthCheck (init ++ [last]) w).1
      = .error (mkError ("All API endpoints unreachable. Last error: " ++ e.message)) ∧
    (healthCheck (init ++ [last]) w).2.sent.map (fun s => s.request.url)
      = w.sent.map (fun s => s.request.url) ++ (init ++ [last]).map (fun c => c ++ "/health") ∧
    (healthCheck (init ++ [last]) w).2.apiBaseUrl = w.apiBaseUrl ∧
    (healthCheck (init ++ [last]) w).2.storage = w.storage := by
  obtain ⟨le, w1, h1, h2, h3, h4, -⟩ :=
    healthCheckFrom_skip (init ++ [last]) [last] init none w hfail
  have hanswer : probeFailure (probeSent last w1).answer = some e := by
    rw [← hlast]
    simp only [probeSent, probeAnswer, h3]
    rw [h2]
  unfold healthCheck
  rw [h1, healthCheckFrom_cons]
  rcases probe_cases (init ++ [last]) last w1 with ⟨e1, hf, hp⟩ | ⟨r1, v1, ha, hok1, hb1, hf, hp⟩
  · rw [hanswer] at hf
    cases hf
    rw [hp]
    have hbase : w1.apiBaseUrl = w.apiBaseUrl := by rw [h2]
    have hstore : w1.storage = w.storage := by rw [h2]
    refine ⟨rfl, ?_, hbase, hstore⟩
    show (w1.sent ++ [probeSent last w1]).map (fun s => s.request.url) = _
    simp [h4, probeSent]
  · rw [hanswer] at hf
    cases hf

/-- C17 at a concrete run: the first candidate is unreachable and the second, last one
answers 503. -/
theorem C17_all_candidates_unreachable_witness :
    (healthCheck (["http://10.0.0.1:3000"] ++ ["http://10.0.0.2:3000"])
        (endpointWorld allDown none (fun _ => none))).1
      = .error (mkError ("All API endpoints unreachable. Last error: " ++
          (mkError "Health check failed: 503").message)) ∧
    (healthCheck (["http://10.0.0.1:3000"] ++ ["http://10.0.0.2:3000"])
        (endpointWorld allDown none (fun _ => none))).2.sent.map (fun s => s.request.url)
      = (endpointWorld allDown none (fun _ => none)).sent.map (fun s => s.request.url) ++
        (["http://10.0.0.1:3000"] ++ ["http://10.0.0.2:3000"]).map (fun c => c ++ "/health") ∧
    (healthCheck (["http://10.0.0.1:3000"] ++ ["http://10.0.0.2:3000"])
        (endpointWorld allDown none (fun _ => none))).2.apiBaseUrl
      = (endpointWorld allDown none (fun _ => none)).apiBaseUrl ∧
    (healthCheck (["http://10.0.0.1:3000"] ++ ["http://10.0.0.2:3000"])
        (endpointWorld allDown none (fun _ => none))).2.storage
      = (endpointWorld allDown none (fun _ => none)).storage :=
  C17_all_candidates_unreachable ["http://10.0.0.1:3000"] "http://10.0.0.2:3000"
    (endpointWorld allDown none (fun _ => none)) (mkError "Health check failed: 503")
    (fun i c hi => by
      cases i with
      | zero =>
        have hc : c = "http://10.0.0.1:3000" := by simpa using hi.symm
        subst hc
        decide
      | succ j => simp at hi)
    (by decide)


/-! ## C21: the connection tests -/

/-- One connection test: the record pushed and the request logged. -/
theorem testConnection_eq (url : String) (w : World) :
    testConnection url w =
      (.ok (testRecord url (w.backend w.sent.length ⟨url ++ "/health", testOptions⟩).delay
          (testAnswer w w.sent.length url)),
       { w with sent := w.sent ++ [testSent url w] }) := by
  have hto : testOptions.timeout.getD 20000 = 3000 := rfl
  have hpa : settle (w.backend w.sent.length ⟨url ++ "/health", testOptions⟩) 3000
      = testAnswer w w.sent.length url := rfl
  simp only [testConnection, tryCatch, tryCatchThe, MonadExcept.tryCatch, Js.tryCatch, bind,
    Js.bind, nextDelay, fetchWithTimeout_eq, hto, hpa, testSent]
  cases hs : testAnswer w w.sent.length url with
  | error x =>
    by_cases hn : x.name = "AbortError"
    · simp [testRecord, hn, pure, Js.pure, mkError]
    · simp [testRecord, hn, pure, Js.pure]
  | ok r =>
    simp only [testRecord]
    cases hok : r.ok
    · simp [pure, Js.pure]
    · simp only [if_true, Body.json, Bool.false_eq_true, if_false]
      cases hb : r.body with
      | error e => simp [Js.ofExcept, Js.throw, Js.bind, pure, Js.pure]
      | ok v => simp [Js.ofExcept, Js.pure, Js.bind, pure]

/-- The tag of a record says whether the test passed. -/
theorem testRecord_status (url : String) (elapsed : Nat) (a : Except JsError Response) :
    (testRecord url elapsed a).url = url ∧
    ((testRecord url elapsed a).status = "success" ↔ testPassed a = true) ∧
    ((testRecord url elapsed a).status = "error" ↔ testPassed a = false) := by
  cases a with
  | error x => simp [testRecord, testPassed]
  | ok r =>
    simp only [testRecord, testPassed]
    cases hok : r.ok
    · simp
    · cases hb : r.body <;> simp

/-- The loop of `testAllConnections`: it returns, appends one record per candidate still
to test, in order, and sends one request per candidate. -/
theorem testAllFrom_records :
    ∀ (l : List String) (results : List ConnectionResult) (w : World),
      ∃ recs, (testAllFrom l results w).1 = .ok (results ++ recs) ∧
        recs.map (fun r => r.url) = l ∧
        (∀ i u, l[i]? = some u → ∃ r, recs[i]? = some r ∧ r.url = u ∧
          (r.status = "success" ↔ testPassed (testAnswer w (w.sent.length + i) u) = true) ∧
          (r.status = "error" ↔ testPassed (testAnswer w (w.sent.length + i) u) = false)) ∧
        (testAllFrom l results w).2.sent.length = w.sent.length + l.length ∧
        (testAllFrom l results w).2.storage = w.storage ∧
        (testAllFrom l results w).2.backend = w.backend := by
  intro l
  induction l with
  | nil =>
    intro results w
    exact ⟨[], by simp [testAllFrom, pure, Js.pure], rfl, by simp, rfl, rfl, rfl⟩
  | cons url rest ih =>
    intro results w
    simp only [testAllFrom, bind, Js.bind, testConnection_eq]
    obtain ⟨recs, h1, h2, h3, h4, h5, h6⟩ := ih
      (results ++ [testRecord url (w.backend w.sent.length ⟨url ++ "/health", testOptions⟩).delay
        (testAnswer w w.sent.length url)])
      { w with sent := w.sent ++ [testSent url w] }
    have hst := testRecord_status url
      (w.backend w.sent.length ⟨url ++ "/health", testOptions⟩).delay
      (testAnswer w w.sent.length url)
    refine ⟨testRecord url (w.backend w.sent.length ⟨url ++ "/health", testOptions⟩).delay
        (testAnswer w w.sent.length url) :: recs, ?_, ?_, ?_, ?_, h5, h6⟩
    · rw [h1]; simp
    · simp [h2, hst.1]
    · intro i u hi
      cases i with
      | zero =>
        simp only [List.getElem?_cons_zero, Option.some.injEq] at hi
        subst hi
        exact ⟨_, List.getElem?_cons_zero, hst.1, hst.2.1, hst.2.2⟩
      | succ j =>
        simp only [List.getElem?_cons_succ] at hi
        obtain ⟨r, hr, hu, hs, he⟩ := h3 j u hi
        have hlen : (w.sent ++ [testSent url w]).length + j = w.sent.length + (j + 1) := by
          simp only [List.length_append, List.length_cons, List.length_nil]; omega
        have hta : ∀ n, testAnswer { w with sent := w.sent ++ [testSent url w] } n u
            = testAnswer w n u := fun _ => rfl
        simp only [hta, hlen] at hs he
        exact ⟨r, by simpa using hr, hu, hs, he⟩
    · rw [h4]
      simp only [List.length_append, List.length_cons, List.length_nil]; omega

/-- C21: `testAllConnections` never raises and returns one record per candidate, in the
order of the candidates; the candidate at position `i` is tested by request number `i` of
the call, whatever the other tests gave, and its record is tagged 'success' exactly when
that request was answered in time with a 2xx status and a body that parses, and 'error'
otherwise.  The call sends one request per candidate and leaves the active URL and the
persisted data as they were. -/
theorem C21_one_record_per_candidate (urls : List String) (w : World) :
    ∃ records, (testAllConnections urls w).1 = .ok records ∧
      records.map (fun r => r.url) = urls ∧
      (∀ i u, urls[i]? = some u → ∃ r, records[i]? = some r ∧ r.url = u ∧
        (r.status = "success" ↔ testPassed (testAnswer w (w.sent.length + i) u) = true) ∧
        (r.status = "error" ↔ testPassed (testAnswer w (w.sent.length + i) u) = false)) ∧
      (testAllConnections urls w).2.sent.length = w.sent.length + urls.length ∧
      (testAllConnections urls w).2.apiBaseUrl = w.apiBaseUrl ∧
      (testAllConnections urls w).2.storage = w.storage := by
  obtain ⟨recs, h1, h2, h3, h4, h5, _⟩ := testAllFrom_records urls [] w
  exact ⟨recs, by simpa [testAllConnections] using h1, h2, h3, h4,
    testAllFrom_base urls [] w, h5⟩

/-- C21 at a concrete call: two candidates, of which only the second is reachable. -/
theorem C21_one_record_per_candidate_witness :
    (∃ (records : List ConnectionResult) (r : ConnectionResult),
      (testAllConnections candidates (endpointWorld secondOnly none (fun _ => none))).1
        = .ok records ∧
      records[1]? = some r ∧ r.url = "http://10.0.0.2:3000" ∧ r.status = "success") ∧
    (testAllConnections candidates (endpointWorld secondOnly none (fun _ => none))).2.apiBaseUrl
      = "http://10.0.0.1:3000" := by
  obtain ⟨records, h1, _, h3, _, h5, _⟩ :=
    C21_one_record_per_candidate candidates (endpointWorld secondOnly none (fun _ => none))
  obtain ⟨r, hr, hu, hs, _⟩ := h3 1 "http://10.0.0.2:3000" rfl
  have hp : testPassed (testAnswer (endpointWorld secondOnly none (fun _ => none))
      ((endpointWorld secondOnly none (fun _ => none)).sent.length + 1)
      "http://10.0.0.2:3000") = true := by decide
  exact ⟨⟨records, r, h1, hr, hu, hs.mpr hp⟩, h5⟩


/-! ## C25: the token store never raises -/

theorem adds_refl (P : Sent → Prop) (w : World) : Adds P w w := ⟨[], by simp, by simp⟩

theorem adds_trans (P : Sent → Prop) (a b c : World) (h1 : Adds P a b) (h2 : Adds P b c) :
    Adds P a c := by
  obtain ⟨l1, e1, p1⟩ := h1
  obtain ⟨l2, e2, p2⟩ := h2
  refine ⟨l1 ++ l2, by rw [e2, e1, List.append_assoc], ?_⟩
  intro s hs
  rcases List.mem_append.mp hs with h | h
  · exact p1 s h
  · exact p2 s h

/-- A step that leaves the request log alone adds nothing. -/
theorem adds_of_eq (P : Sent → Prop) (a b : World) (h : b.sent = a.sent) : Adds P a b :=
  ⟨[], by simp [h], by simp⟩

/-- A step that logs one request for which `P` holds. -/
theorem adds_one (P : Sent → Prop) (a b : World) (s : Sent) (h : b.sent = a.sent ++ [s])
    (hp : P s) : Adds P a b :=
  ⟨[s], h, by simpa using hp⟩

/-- Every request of the retry loop is the request of one of its attempts. -/
theorem retryLoop_adds (P : Sent → Prop) (endpoint : String) (options : Options)
    (hP : ∀ w, P (attemptSent endpoint options w)) (fuel attempt : Nat) (w : World) :
    Adds P w (retryLoop endpoint options fuel attempt w).2 :=
  retryLoop_rel (Adds P) endpoint options (adds_refl P) (adds_trans P)
    (fun w1 => adds_one P _ _ _ (attemptBody_sent endpoint options w1) (hP w1))
    (fun _ _ => adds_of_eq P _ _ rfl) fuel attempt w

/-- The first request of the retry loop is the request of the attempt that starts in the
world in which the loop is entered. -/
theorem retryLoop_first (endpoint : String) (options : Options) (fuel attempt : Nat)
    (w : World) (h : attempt < maxRetries) :
    ∃ rest, (retryLoop endpoint options (fuel + 1) attempt w).2.sent
      = w.sent ++ attemptSent endpoint options w :: rest := by
  rw [retryLoop_succ, if_pos h]
  have hs := attemptBody_sent endpoint options w
  rcases hab : attemptBody endpoint options w with ⟨e | v, w1⟩
  · rw [hab] at hs
    simp only at hs
    by_cases hl : attempt + 1 = maxRetries
    · simp only [hl, if_true]
      exact ⟨[], hs⟩
    · simp only [hl, if_false]
      obtain ⟨l, hl1, _⟩ := retryLoop_adds (fun _ => True) endpoint options (fun _ => trivial)
        fuel (attempt + 1) { w1 with sleeps := w1.sleeps ++ [1000 * (attempt + 1)] }
      refine ⟨l, ?_⟩
      rw [hl1]
      simp only [hs, List.append_assoc, List.singleton_append]
  · rw [hab] at hs
    exact ⟨[], hs⟩

/-- `setToken` never raises; a rejected write changes nothing. -/
theorem setToken_eq (token : Json) (w : World) :
    setToken token w =
      (.ok (),
        match token with
        | .str s =>
          (match w.storageFault w.storageOps with
           | some _ => { w with storageOps := w.storageOps + 1 }
           | none => { w with storageOps := w.storageOps + 1,
                              storage := setSlot w.storage "authToken" (some s) })
        | _ => w) := by
  cases token with
  | str s =>
    simp only [setToken, tryCatch, tryCatchThe, MonadExcept.tryCatch, Js.tryCatch, setItem]
    cases w.storageFault w.storageOps <;> rfl
  | _ => rfl

/-- C25: the three token-store operations never raise.  When the persistence operation
fails, `getToken` returns `null` and `setToken` and `removeToken` complete normally,
leaving the store as it was; and an attempt of `makeAuthenticatedRequest` whose token
read fails sends its request all the same, without an `Authorization` header (for a
caller that passes none). -/
theorem C25_token_store_never_raises (endpoint : String) (options : Options) (token : Json)
    (w : World) :
    (∃ t, (getToken w).1 = .ok t) ∧ (setToken token w).1 = .ok () ∧
    (removeToken w).1 = .ok () ∧
    (∀ e, w.storageFault w.storageOps = some e →
      (getToken w).1 = .ok none ∧
      (setToken token w).2.storage = w.storage ∧
      (removeToken w).2.storage = w.storage ∧
      (options.headers.lookup "Authorization" = none →
        ∃ s, (makeAuthenticatedRequest endpoint options w).2.sent[w.sent.length]? = some s ∧
          s.request.url = w.apiBaseUrl ++ endpoint ∧
          s.request.options.headers.lookup "Authorization" = none)) := by
  refine ⟨⟨_, by rw [getToken_eq]⟩, by rw [setToken_eq], by rw [removeToken_eq], ?_⟩
  intro e he
  refine ⟨by rw [getToken_eq, he], ?_, by rw [removeToken_eq]; simp [he], ?_⟩
  · rw [setToken_eq]
    cases token <;> simp [he]
  · intro hno
    obtain ⟨rest, hrest⟩ := retryLoop_first endpoint options 2 0 w (by decide)
    refine ⟨attemptSent endpoint options w, ?_, rfl, ?_⟩
    · show (retryLoop endpoint options (2 + 1) 0 w).2.sent[w.sent.length]? = _
      rw [hrest, List.getElem?_append_right (Nat.le_refl _), Nat.sub_self]
      exact List.getElem?_cons_zero
    · have htok : tokenRead w = none := by simp [tokenRead, he]
      show (attemptRequest endpoint options (tokenRead w) w.apiBaseUrl).options.headers.lookup
        "Authorization" = none
      rw [attemptRequest_authorization endpoint options _ _ hno, htok]
      rfl

/-- C25 at a concrete call: the store rejects its first operation while token `T1` is
persisted. -/
theorem C25_token_store_never_raises_witness :
    (getToken (signedIn slowBackend firstOpFails)).1 = .ok none ∧
    ∃ s, (makeAuthenticatedRequest "/alerts" {} (signedIn slowBackend firstOpFails)).2.sent[
        (signedIn slowBackend firstOpFails).sent.length]? = some s ∧
      s.request.url = (signedIn slowBackend firstOpFails).apiBaseUrl ++ "/alerts" ∧
      s.request.options.headers.lookup "Authorization" = none :=
  ⟨((C25_token_store_never_raises "/alerts" {} (.str "T2")
      (signedIn slowBackend firstOpFails)).2.2.2 _ rfl).1,
   ((C25_token_store_never_raises "/alerts" {} (.str "T2")
      (signedIn slowBackend firstOpFails)).2.2.2 _ rfl).2.2.2 rfl⟩


/-! ## C27: linear backoff -/

/-- C27: `makeAuthenticatedRequest` runs at most three attempts: it returns the body of
the first attempt that succeeds, sleeps exactly 1000 ms between a failed first attempt
and the second and exactly 2000 ms between a failed second attempt and the third, and
after a failed third attempt it throws that attempt's error without sleeping.  These are
its only sleeps, so a call that throws has sent three requests and slept 1000 ms and
2000 ms, 3000 ms in total. -/
theorem C27_linear_backoff (endpoint : String) (options : Options) (w : World) :
    makeAuthenticatedRequest endpoint options w =
      (match attemptBody endpoint options w with
       | (.ok v, w1) => (.ok (some (some v)), w1)
       | (.error _, w1) =>
         match attemptBody endpoint options (slept (1000 * 1) w1) with
         | (.ok v, w2) => (.ok (some (some v)), w2)
         | (.error _, w2) =>
           match attemptBody endpoint options (slept (1000 * 2) w2) with
           | (.ok v, w3) => (.ok (some (some v)), w3)
           | (.error e, w3) => (.error e, w3)) ∧
    (makeAuthenticatedRequest endpoint options w).2.sleeps =
      w.sleeps ++
        (match attemptBody endpoint options w with
         | (.ok _, _) => []
         | (.error _, w1) =>
           match attemptBody endpoint options (slept (1000 * 1) w1) with
           | (.ok _, _) => [1000]
           | (.error _, _) => [1000, 2000]) ∧
    ((∃ e, (makeAuthenticatedRequest endpoint options w).1 = .error e) →
      (makeAuthenticatedRequest endpoint options w).2.sent.length = w.sent.length + 3 ∧
      (makeAuthenticatedRequest endpoint options w).2.sleeps = w.sleeps ++ [1000, 2000] ∧
      ((makeAuthenticatedRequest endpoint options w).2.sleeps.drop w.sleeps.length).sum
        = 3000) := by
  have h0 : (0 : Nat) < maxRetries := by decide
  have h1 : (0 : Nat) + 1 < maxRetries := by decide
  have h2 : (0 : Nat) + 1 + 1 < maxRetries := by decide
  have n1 : ¬ ((0 : Nat) + 1 = maxRetries) := by decide
  have n2 : ¬ ((0 : Nat) + 1 + 1 = maxRetries) := by decide
  have n3 : (0 : Nat) + 1 + 1 + 1 = maxRetries := by decide
  have key : makeAuthenticatedRequest endpoint options w
      = retryLoop endpoint options (2 + 1) 0 w := rfl
  rw [key, retryLoop_succ, if_pos h0]
  have s1 := attemptBody_sent endpoint options w
  have l1 := attemptBody_sleeps endpoint options w
  rcases hab1 : attemptBody endpoint options w with ⟨e1 | v1, w1⟩
  · rw [hab1] at s1 l1
    simp only at s1 l1
    simp only [if_neg n1]
    rw [retryLoop_succ, if_pos h1]
    have s2 := attemptBody_sent endpoint options (slept (1000 * 1) w1)
    have l2 := attemptBody_sleeps endpoint options (slept (1000 * 1) w1)
    have e12 : ({ w1 with sleeps := w1.sleeps ++ [1000 * (0 + 1)] } : World)
        = slept (1000 * 1) w1 := rfl
    rw [e12]
    rcases hab2 : attemptBody endpoint options (slept (1000 * 1) w1) with ⟨e2 | v2, w2⟩
    · rw [hab2] at s2 l2
      simp only at s2 l2
      simp only [if_neg n2]
      rw [retryLoop_succ, if_pos h2]
      have s3 := attemptBody_sent endpoint options (slept (1000 * 2) w2)
      have l3 := attemptBody_sleeps endpoint options (slept (1000 * 2) w2)
      have e23 : ({ w2 with sleeps := w2.sleeps ++ [1000 * (0 + 1 + 1)] } : World)
          = slept (1000 * 2) w2 := rfl
      rw [e23]
      have hsl : (slept (1000 * 2) w2).sleeps = w.sleeps ++ [1000, 2000] := by
        show w2.sleeps ++ [1000 * 2] = _
        rw [l2]
        show (w1.sleeps ++ [1000 * 1]) ++ [1000 * 2] = _
        rw [l1]
        simp
      have hsn : (slept (1000 * 2) w2).sent.length = w.sent.length + 2 := by
        show w2.sent.length = _
        rw [s2]
        show ((w1.sent) ++ _).length = _
        rw [s1]
        simp
      rcases hab3 : attemptBody endpoint options (slept (1000 * 2) w2) with ⟨e3 | v3, w3⟩
      · rw [hab3] at s3 l3
        simp only at s3 l3
        simp only [if_pos n3]
        refine ⟨trivial, by rw [l3, hsl], fun _ => ⟨?_, by rw [l3, hsl], ?_⟩⟩
        · rw [s3, List.length_append, hsn]; rfl
        · rw [l3, hsl]; simp
      · rw [hab3] at s3 l3
        simp only at s3 l3
        simp only []
        refine ⟨trivial, by rw [l3, hsl], fun h => ?_⟩
        obtain ⟨e, he⟩ := h
        simp at he
    · rw [hab2] at s2 l2
      simp only at s2 l2
      simp only []
      refine ⟨trivial, ?_, fun h => ?_⟩
      · rw [l2]
        show w1.sleeps ++ [1000 * 1] = _
        rw [l1]
      · obtain ⟨e, he⟩ := h
        simp at he
  · rw [hab1] at s1 l1
    simp only at s1 l1
    simp only []
    refine ⟨trivial, by simp [l1], fun h => ?_⟩
    obtain ⟨e, he⟩ := h
    simp at he

set_option maxHeartbeats 1000000 in
/-- C27 at a concrete call: the backend answers 500 to every request. -/
theorem C27_linear_backoff_witness :
    (makeAuthenticatedRequest "/alerts" {} (mkWorld none (constBackend serverError))).2.sent.length
      = (mkWorld none (constBackend serverError)).sent.length + 3 ∧
    (makeAuthenticatedRequest "/alerts" {} (mkWorld none (constBackend serverError))).2.sleeps
      = (mkWorld none (constBackend serverError)).sleeps ++ [1000, 2000] ∧
    ((makeAuthenticatedRequest "/alerts" {} (mkWorld none (constBackend serverError))).2.sleeps.drop
      (mkWorld none (constBackend serverError)).sleeps.length).sum = 3000 :=
  (C27_linear_backoff "/alerts" {} (mkWorld none (constBackend serverError))).2.2
    ⟨mkError "boom", rfl⟩


/-! ## Facts about the data fetchers -/

/-- The common shape of the three fetchers. -/
theorem fetcher_eq (date : DateApi) (f : Fetcher) (w : World) :
    f.run date w =
      match backendData (fetcherAnswer w f.path) with
      | some v => (.ok v, { w with sent := w.sent ++ [fetcherSent f.path w] })
      | none => f.mock date { w with sent := w.sent ++ [fetcherSent f.path w] } := by
  have hto : fetcherOptions.timeout.getD 20000 = 20000 := rfl
  have hmock : ∀ w1 : World, ∃ v, f.mock date w1 = (.ok v, w1) := by
    intro w1
    cases f <;> exact ⟨_, rfl⟩
  have key : f.run date w =
      Js.tryCatch (do
          let base ← getBaseUrl
          let response ← fetchWithTimeout (base ++ f.path) fetcherOptions
          if response.ok then
            let body : Body := { response := response }
            let data ← Js.ofExcept body.json.1
            let inner ← Js.ofExcept (data.getProp "data")
            pure (if inner.truthy then inner.getD data else data)
          else
            f.mock date)
        (fun _ => f.mock date) w := by
    cases f <;> rfl
  rw [key]
  have hpa : settle (w.backend w.sent.length ⟨w.apiBaseUrl ++ f.path, fetcherOptions⟩) 20000
      = fetcherAnswer w f.path := rfl
  simp only [Js.tryCatch, bind, Js.bind, getBaseUrl, fetchWithTimeout_eq, hto, hpa, fetcherSent]
  cases hs : fetcherAnswer w f.path with
  | error x => simp [backendData]
  | ok r =>
    simp only [backendData]
    cases hok : r.ok
    · obtain ⟨v, hv⟩ := hmock { w with sent := w.sent ++
        [⟨⟨w.apiBaseUrl ++ f.path, fetcherOptions⟩, w.storage "authToken", .ok r⟩] }
      simp [hv]
    · simp only [if_true, Body.json, Bool.false_eq_true, if_false]
      cases hb : r.body with
      | error e => simp [Js.ofExcept, Js.throw, Js.bind]
      | ok d =>
        simp only [Js.ofExcept, Js.pure, Js.bind]
        cases hg : d.getProp "data" with
        | error e => simp [Js.throw, Js.bind]
        | ok inner => simp [Js.pure, Js.bind, pure]

/-- A mock array is returned without a throw, leaves the world alone, and is a non-empty
array. -/
theorem mock_eq (date : DateApi) (f : Fetcher) (w : World) :
    ∃ x xs, f.mock date w = (.ok (.arr (x :: xs)), w) := by
  cases f <;> exact ⟨_, _, rfl⟩

/-- The answers for which a fetcher returns backend data: a 2xx status and a body that
parses to a value other than `null`. -/
theorem backendData_isSome (a : Except JsError Response) :
    (backendData a).isSome = true ↔
      ∃ r d, a = .ok r ∧ r.ok = true ∧ r.body = .ok d ∧ d.isNull = false := by
  cases a with
  | error x => simp [backendData]
  | ok r =>
    simp only [backendData]
    cases hok : r.ok
    · simp [hok]
    · cases hb : r.body with
      | error e => simp [hb]
      | ok d =>
        cases d <;> simp [Json.getProp, Json.isNull, hok, hb]


/-! ## C24, C23, C22: the data fetchers -/

/-- C24: each of the three fetchers returns a value and never raises, sends exactly one
request and never sleeps.  For an answer with a 2xx status and a body that parses to a
value other than `null` it returns backend data, the value of `data.data || data`; for
every other answer (a transport error, a timeout, another status, a body that does not
parse or is `null`) it returns its mock array, which is not empty. -/
theorem C24_fetchers_never_raise (date : DateApi) (f : Fetcher) (w : World) :
    (∃ v, (f.run date w).1 = .ok v) ∧
    (f.run date w).2.sent = w.sent ++ [fetcherSent f.path w] ∧
    (f.run date w).2.sleeps = w.sleeps ∧
    (∀ r d, fetcherAnswer w f.path = .ok r → r.ok = true → r.body = .ok d →
      d.isNull = false →
      ∃ inner, d.getProp "data" = .ok inner ∧
        (f.run date w).1 = .ok (if inner.truthy then inner.getD d else d)) ∧
    ((¬ ∃ r d, fetcherAnswer w f.path = .ok r ∧ r.ok = true ∧ r.body = .ok d ∧
        d.isNull = false) →
      (f.run date w).1 = (f.mock date (f.run date w).2).1 ∧
      ∃ x xs, (f.run date w).1 = .ok (.arr (x :: xs))) := by
  obtain ⟨x, xs, hm⟩ := mock_eq date f { w with sent := w.sent ++ [fetcherSent f.path w] }
  have hsome := backendData_isSome (fetcherAnswer w f.path)
  rw [fetcher_eq]
  cases hbd : backendData (fetcherAnswer w f.path) with
  | some v =>
    simp only []
    refine ⟨⟨v, rfl⟩, trivial, trivial, ?_, ?_⟩
    · intro r d ha hok hb hn
      simp only [backendData, ha, hok, if_true, hb] at hbd
      cases hg : d.getProp "data" with
      | error e => rw [hg] at hbd; simp at hbd
      | ok inner =>
        rw [hg] at hbd
        simp only [Option.some.injEq] at hbd
        exact ⟨inner, rfl, by rw [hbd]⟩
    · intro hno
      rw [hbd] at hsome
      exact absurd (hsome.mp rfl) hno
  | none =>
    simp only [hm]
    refine ⟨⟨_, rfl⟩, trivial, trivial, ?_, ?_⟩
    · intro r d ha hok hb hn
      rw [hbd] at hsome
      have := hsome.mpr ⟨r, d, ha, hok, hb, hn⟩
      simp at this
    · intro _
      exact ⟨trivial, x, xs, rfl⟩

/-- C24 at a concrete call: the backend is unreachable, and `getAlerts` returns its mock
array after one request. -/
theorem C24_fetchers_never_raise_witness :
    (Fetcher.alerts.run fixedClock (mkWorld none unreachable)).1
      = (Fetcher.alerts.mock fixedClock
          (Fetcher.alerts.run fixedClock (mkWorld none unreachable)).2).1 ∧
    ∃ x xs, (Fetcher.alerts.run fixedClock (mkWorld none unreachable)).1
      = .ok (.arr (x :: xs)) :=
  (C24_fetchers_never_raise fixedClock .alerts (mkWorld none unreachable)).2.2.2.2
    (by simp [fetcherAnswer, mkWorld, unreachable, settle])

/-- C23, the behaviour of the code: `getAlerts` returns the same value for an unreachable
backend, as a substitute, and for a backend that answers 200 with that very array, as
genuine data; so do the two other fetchers. -/
theorem C23_fallback_equals_backend_data :
    (getAlerts fixedClock (mkWorld none unreachable)).1
      = (getAlerts fixedClock (mkWorld none mirrorBackend)).1 ∧
    (getWeatherData fixedClock (mkWorld none unreachable)).1
      = (getWeatherData fixedClock (mkWorld none mirrorBackend)).1 ∧
    (getLocationData fixedClock (mkWorld none unreachable)).1
      = (getLocationData fixedClock (mkWorld none mirrorBackend)).1 ∧
    ((getAlerts fixedClock (mkWorld none unreachable)).2.sent.map Sent.summary)
      = [(none, none, none)] ∧
    ((getAlerts fixedClock (mkWorld none mirrorBackend)).2.sent.map Sent.summary)
      = [(none, none, some 200)] :=
  ⟨rfl, rfl, rfl, by decide, by decide⟩

/-- C23, amended: the fallback value carries no flag.  Whenever the backend answers with
a 2xx status and a body equal to the mock array of the fetcher, the fetcher returns that
body, a value equal to its fallback value. -/
theorem C23_fallback_is_not_flagged (date : DateApi) (f : Fetcher) (w : World)
    (r : Response) (hans : fetcherAnswer w f.path = .ok r) (hok : r.ok = true)
    (hbody : r.body = (f.mock date { w with sent := w.sent ++ [fetcherSent f.path w] }).1) :
    (f.run date w).1 = r.body ∧
    (f.run date w).1 = (f.mock date (f.run date w).2).1 := by
  obtain ⟨x, xs, hm⟩ := mock_eq date f { w with sent := w.sent ++ [fetcherSent f.path w] }
  rw [hm] at hbody
  have hbd : backendData (fetcherAnswer w f.path) = some (.arr (x :: xs)) := by
    simp [backendData, hans, hok, hbody, Json.getProp, JsVal.truthy]
  rw [fetcher_eq, hbd]
  simp only [hm, hbody]
  exact ⟨trivial, trivial⟩

/-- C23 at a concrete call: the backend answers `getWeatherData` with the mock array. -/
theorem C23_fallback_is_not_flagged_witness :
    (Fetcher.weather.run fixedClock (mkWorld none mirrorBackend)).1
      = (weatherMock fixedClock (mkWorld none unreachable)).1 ∧
    (Fetcher.weather.run fixedClock (mkWorld none mirrorBackend)).1
      = (Fetcher.weather.mock fixedClock
          (Fetcher.weather.run fixedClock (mkWorld none mirrorBackend)).2).1 :=
  C23_fallback_is_not_flagged fixedClock .weather (mkWorld none mirrorBackend)
    ⟨200, "OK", (weatherMock fixedClock (mkWorld none unreachable)).1⟩ rfl rfl rfl

/-- C22, the behaviour of the code: after a login that stored token `T1`, the request of
`getAlerts` leaves while the token store holds `T1`, and it carries no `Authorization`
header. -/
theorem C22_getAlerts_sends_no_authorization :
    (login "alice" "pw" (mkWorld none loginThenAlerts)).2.storage "authToken" = some "T1" ∧
    ((getAlerts fixedClock
        (login "alice" "pw" (mkWorld none loginThenAlerts)).2).2.sent.map Sent.summary)
      = [(none, none, some 200), (some "T1", none, some 200)] :=
  ⟨by decide!, by decide!⟩

/-- C22, amended: `getAlerts` sends one GET request to `/alerts` with the headers
`Content-Type` and `Accept` only, so without an `Authorization` header whatever the
token store holds; when the backend answers it with a 2xx status and an array, it
returns that array unmodified. -/
theorem C22_getAlerts_returns_array (date : DateApi) (w : World) (r : Response)
    (xs : List Json) (hans : fetcherAnswer w "/alerts" = .ok r) (hok : r.ok = true)
    (hbody : r.body = .ok (.arr xs)) :
    (getAlerts date w).2.sent = w.sent ++ [fetcherSent "/alerts" w] ∧
    (fetcherSent "/alerts" w).request.url = w.apiBaseUrl ++ "/alerts" ∧
    (fetcherSent "/alerts" w).request.options.method = some "GET" ∧
    (fetcherSent "/alerts" w).request.options.headers
      = [("Content-Type", "application/json"), ("Accept", "application/json")] ∧
    (fetcherSent "/alerts" w).request.options.headers.lookup "Authorization" = none ∧
    (fetcherSent "/alerts" w).tokenSlot = w.storage "authToken" ∧
    (getAlerts date w).1 = .ok (.arr xs) := by
  have hbd : backendData (fetcherAnswer w "/alerts") = some (.arr xs) := by
    simp [backendData, hans, hok, hbody, Json.getProp, JsVal.truthy]
  have h := fetcher_eq date .alerts w
  have hp : Fetcher.alerts.path = "/alerts" := rfl
  have hr : Fetcher.alerts.run date = getAlerts date := rfl
  rw [hp, hr, hbd] at h
  rw [h]
  exact ⟨rfl, rfl, rfl, rfl, rfl, rfl, rfl⟩

/-- C22 at a concrete call: `getAlerts` after the login of alice. -/
theorem C22_getAlerts_returns_array_witness :
    (getAlerts fixedClock (login "alice" "pw" (mkWorld none loginThenAlerts)).2).1
      = .ok (.arr [.obj [("AlertID", .num 7), ("Message", .str "Storm warning")]]) :=
  (C22_getAlerts_returns_array fixedClock (login "alice" "pw" (mkWorld none loginThenAlerts)).2
    ⟨200, "OK", .ok (.arr [.obj [("AlertID", .num 7), ("Message", .str "Storm warning")]])⟩
    [.obj [("AlertID", .num 7), ("Message", .str "Storm warning")]] rfl rfl rfl).2.2.2.2.2.2


/-! ## Facts about the login request -/

/-- `ApiService.login`, case by case. -/
theorem login_eq (username password : String) (w : World) :
    login username password w =
      (loginResult (loginAnswer username password w),
        match loginToken (loginAnswer username password w) with
        | some t => (setToken t { w with sent := w.sent ++ [loginSent username password w] }).2
        | none => { w with sent := w.sent ++ [loginSent username password w] }) := by
  have hpa : settle (w.backend w.sent.length ⟨w.apiBaseUrl ++ "/login",
      { method := some "POST",
        headers := [("Content-Type", "application/json"), ("Accept", "application/json")],
        body := some (.obj [("username", .str username), ("password", .str password)]),
        timeout := some 30000 }⟩) 30000 = loginAnswer username password w := rfl
  simp only [login, tryCatch, tryCatchThe, MonadExcept.tryCatch, Js.tryCatch, bind, Js.bind,
    getBaseUrl, fetchWithTimeout_eq, Option.getD_some, hpa, loginSent, loginRequest]
  cases hs : loginAnswer username password w with
  | error x => simp [loginResult, loginToken, throw, throwThe, MonadExcept.throw, Js.throw]
  | ok r =>
    simp only [loginResult, loginToken, Body.json, Bool.false_eq_true, if_false]
    cases hb : r.body with
    | error e =>
      simp [Js.ofExcept, Js.throw, Js.bind, throw, throwThe, MonadExcept.throw]
    | ok data =>
      simp only [Js.ofExcept, Js.pure]
      cases hg : data.getProp "token" with
      | error e => simp [Js.throw, Js.bind, Js.pure, throw, throwThe, MonadExcept.throw]
      | ok tok =>
        simp only [Js.pure, Js.bind]
        cases hok : r.ok
        · simp only [Bool.not_false, if_true, Bool.false_eq_true, if_false]
          cases hm : data.getProp "message" with
          | error e => simp [Js.ofExcept, Js.throw, Js.bind, throw, throwThe, MonadExcept.throw]
          | ok m => simp [Js.ofExcept, Js.throw, Js.bind, Js.pure, throw, throwThe,
              MonadExcept.throw]
        · simp only [Bool.not_true, Bool.false_eq_true, if_false, if_true]
          cases tok with
          | none => simp [pure, Js.pure, Js.bind]
          | some t =>
            cases ht : t.truthy
            · simp only [ht, Bool.false_eq_true, if_false]
              rfl
            · simp only [ht, if_true]
              simp only [Js.bind, setToken_eq, pure, Js.pure]

/-- What `ApiService.login` adds to the request log. -/
theorem login_sent (username password : String) (w : World) :
    (login username password w).2.sent = w.sent ++ [loginSent username password w] := by
  rw [login_eq]
  cases loginToken (loginAnswer username password w) with
  | none => rfl
  | some t =>
    simp only [setToken_eq]
    cases t <;> try rfl
    cases w.storageFault w.storageOps <;> rfl


/-! ## C26: the Content-Type header -/

/-- What a fetcher adds to the request log. -/
theorem fetcher_sent (date : DateApi) (f : Fetcher) (w : World) :
    (f.run date w).2.sent = w.sent ++ [fetcherSent f.path w] := by
  obtain ⟨x, xs, hm⟩ := mock_eq date f { w with sent := w.sent ++ [fetcherSent f.path w] }
  rw [fetcher_eq]
  cases backendData (fetcherAnswer w f.path) with
  | some v => rfl
  | none => simp only [hm]

/-- Every request of the connection tests satisfies what the request of each test
satisfies. -/
theorem testAllFrom_adds (P : Sent → Prop) (hP : ∀ url w, P (testSent url w)) :
    ∀ (l : List String) (results : List ConnectionResult) (w : World),
      Adds P w (testAllFrom l results w).2 := by
  intro l
  induction l with
  | nil => intro results w; exact adds_refl P w
  | cons url rest ih =>
    intro results w
    simp only [testAllFrom, bind, Js.bind, testConnection_eq]
    exact adds_trans P _ _ _ (adds_one P w _ (testSent url w) rfl (hP url w)) (ih _ _)

/-- Every request of a health check is the request of one of its probes. -/
theorem healthCheck_adds (P : Sent → Prop) (urls : List String)
    (hP : ∀ url w, P (probeSent url w)) (w : World) : Adds P w (healthCheck urls w).2 :=
  healthCheckFrom_rel (Adds P) urls (adds_refl P) (adds_trans P)
    (fun url a => adds_one P a _ (probeSent url a) (probe_frame urls url a).2.2.2.1 (hP url a))
    urls none w

/-- Every request of the method `initialize` is the request of a probe. -/
theorem initService_adds (P : Sent → Prop) (urls : List String)
    (hP : ∀ url w, P (probeSent url w)) (w : World) : Adds P w (initService urls w).2 := by
  rw [initService_eq]
  exact adds_trans P w (chooseUrl urls w) _ (adds_of_eq P _ _ rfl)
    (connectLoop_rel (Adds P) urls (adds_refl P) (adds_trans P)
      (fun a => healthCheck_adds P urls hP a) (fun a ms => adds_of_eq P _ _ rfl)
      (MAX_RETRIES + 1) 0 false (chooseUrl urls w))

/-- The `Content-Type` header of an attempt, for a caller that passes none. -/
theorem attemptRequest_contentType (endpoint : String) (options : Options)
    (tok : Option String) (base : String)
    (hno : options.headers.lookup "Content-Type" = none) :
    (attemptRequest endpoint options tok base).options.headers.lookup "Content-Type"
      = some "application/json" := by
  simp only [attemptRequest]
  rw [lookup_spread _ _ _ hno]
  cases strTruthy tok
  · rfl
  · simp only [if_true]
    rw [lookup_spread _ _ _ (by simp [List.lookup])]
    rfl

/-- What the two status checks add to the request log: one request with the empty
options. -/
theorem statusCheck_sent (w : World) :
    (checkApiStatus w).2.sent = w.sent ++ [⟨⟨w.apiBaseUrl ++ "/", {}⟩, w.storage "authToken",
      settle (w.backend w.sent.length ⟨w.apiBaseUrl ++ "/", {}⟩) 20000⟩] ∧
    (checkIotHealth w).2.sent = w.sent ++ [⟨⟨w.apiBaseUrl ++ "/iot/health", {}⟩,
      w.storage "authToken",
      settle (w.backend w.sent.length ⟨w.apiBaseUrl ++ "/iot/health", {}⟩) 20000⟩] := by
  have hto : ({} : Options).timeout.getD 20000 = 20000 := rfl
  constructor
  · simp only [checkApiStatus, tryCatch, tryCatchThe, MonadExcept.tryCatch, Js.tryCatch, bind,
      Js.bind, getBaseUrl, fetchWithTimeout_eq, hto]
    generalize settle (w.backend w.sent.length ⟨w.apiBaseUrl ++ "/", {}⟩) 20000 = a
    cases a <;> rfl
  · simp only [checkIotHealth, tryCatch, tryCatchThe, MonadExcept.tryCatch, Js.tryCatch, bind,
      Js.bind, getBaseUrl, fetchWithTimeout_eq, hto]
    generalize settle (w.backend w.sent.length ⟨w.apiBaseUrl ++ "/iot/health", {}⟩) 20000 = a
    cases a <;> rfl

/-- C26, the behaviour of the code: the requests of `checkApiStatus` and of
`checkIotHealth` carry no header at all, and a caller of `makeAuthenticatedRequest` that
passes its own `Content-Type` replaces the default one. -/
theorem C26_requests_without_json_content_type :
    ((checkApiStatus (mkWorld none (constBackend healthyAnswer))).2.sent.map
      (fun s => s.request.options.headers)) = [[]] ∧
    ((checkIotHealth (mkWorld none (constBackend healthyAnswer))).2.sent.map
      (fun s => s.request.options.headers)) = [[]] ∧
    ((makeAuthenticatedRequest "/iot/data"
        { method := some "POST", headers := [("Content-Type", "text/plain")] }
        (mkWorld none (constBackend healthyAnswer))).2.sent.map
      (fun s => s.request.options.headers.lookup "Content-Type")) = [some "text/plain"] :=
  ⟨by decide!, by decide!, by decide!⟩

/-- C26, amended: every request of `login`, of the health probes (`healthCheck` and the
method `initialize`), of the connection tests and of the three fetchers carries
`Content-Type: application/json`; so does every request of `makeAuthenticatedRequest`
when the caller's options carry no `Content-Type` of their own.  `checkApiStatus` and
`checkIotHealth` each send one request, with no header. -/
theorem C26_content_type (urls : List String) (date : DateApi) (f : Fetcher)
    (username password endpoint : String) (options : Options) (w : World) :
    Adds jsonType w (login username password w).2 ∧
    Adds jsonType w (healthCheck urls w).2 ∧
    Adds jsonType w (initService urls w).2 ∧
    Adds jsonType w (testAllConnections urls w).2 ∧
    Adds jsonType w (f.run date w).2 ∧
    (options.headers.lookup "Content-Type" = none →
      Adds jsonType w (makeAuthenticatedRequest endpoint options w).2) ∧
    (∃ s, (checkApiStatus w).2.sent = w.sent ++ [s] ∧
      s.request.url = w.apiBaseUrl ++ "/" ∧ s.request.options.headers = []) ∧
    (∃ s, (checkIotHealth w).2.sent = w.sent ++ [s] ∧
      s.request.url = w.apiBaseUrl ++ "/iot/health" ∧ s.request.options.headers = []) := by
  refine ⟨?_, ?_, ?_, ?_, ?_, ?_, ?_, ?_⟩
  · exact adds_one jsonType _ _ _ (login_sent username password w) rfl
  · exact healthCheck_adds jsonType urls (fun _ _ => rfl) w
  · exact initService_adds jsonType urls (fun _ _ => rfl) w
  · exact testAllFrom_adds jsonType (fun _ _ => rfl) urls [] w
  · exact adds_one jsonType _ _ _ (fetcher_sent date f w) rfl
  · intro hno
    exact retryLoop_adds jsonType endpoint options
      (fun a => attemptRequest_contentType endpoint options _ _ hno) maxRetries 0 w
  · exact ⟨_, (statusCheck_sent w).1, rfl, rfl⟩
  · exact ⟨_, (statusCheck_sent w).2, rfl, rfl⟩

/-- C26 at a concrete call: a request for `/alerts` with the empty options, answered 500
three times. -/
theorem C26_content_type_witness :
    Adds jsonType (mkWorld none (constBackend serverError))
      (makeAuthenticatedRequest "/alerts" {} (mkWorld none (constBackend serverError))).2 :=
  (C26_content_type candidates fixedClock .alerts "alice" "pw" "/alerts" {}
    (mkWorld none (constBackend serverError))).2.2.2.2.2.1 rfl


/-! ## Facts about the handler of the login button -/

/-- A value that has one property read without a throw has every property read without
a throw. -/
theorem getProp_ok (data : Json) (k k1 : String) (v : JsVal) (h : data.getProp k = .ok v) :
    ∃ v1, data.getProp k1 = .ok v1 := by
  cases data <;> first | exact ⟨_, rfl⟩ | simp [Json.getProp] at h

/-- `handleLogin` when `ApiService.login` throws. -/
theorem handleLogin_of_error (api : JsonApi) (username password : String) (w w1 : World)
    (e : JsError) (hu : username ≠ "") (hp : password ≠ "")
    (hlogin : login username password (busy w) = (.error e, w1)) :
    handleLogin api username password w = (.ok (), dismissed (loginDialog e.message) w1) := by
  have hne : ¬ (username = "" ∨ password = "") := by simp [hu, hp]
  unfold handleLogin
  rw [if_neg hne]
  have hl : login username password { w with isLoading := true } = (.error e, w1) := hlogin
  simp only [bind, Js.bind, setIsLoading, Js.tryFinally, tryCatch, tryCatchThe,
    MonadExcept.tryCatch, Js.tryCatch, hl, loginDialog, dismissed]
  by_cases hc : e.message = "Request timeout" ∨
      includes e.message "Network request failed" = true
  · rw [if_pos hc, if_pos hc]; rfl
  · rw [if_neg hc, if_neg hc]; rfl

/-- `handleLogin` when `ApiService.login` returns a body whose `success` is falsy. -/
theorem handleLogin_of_refusal (api : JsonApi) (username password : String) (w w1 : World)
    (data : Json) (success : JsVal) (hu : username ≠ "") (hp : password ≠ "")
    (hlogin : login username password (busy w) = (.ok data, w1))
    (hsucc : data.getProp "success" = .ok success) (hfalsy : success.truthy = false) :
    handleLogin api username password w
      = (.ok (), dismissed "Invalid username or password." w1) := by
  have hne : ¬ (username = "" ∨ password = "") := by simp [hu, hp]
  obtain ⟨tok, htok⟩ := getProp_ok data "success" "token" success hsucc
  obtain ⟨name, hname⟩ := getProp_ok data "success" "username" success hsucc
  unfold handleLogin
  rw [if_neg hne]
  have hl : login username password { w with isLoading := true } = (.ok data, w1) := hlogin
  simp only [bind, Js.bind, setIsLoading, Js.tryFinally, tryCatch, tryCatchThe,
    MonadExcept.tryCatch, Js.tryCatch, hl, hsucc, htok, hname, Js.ofExcept, Js.pure, hfalsy,
    Bool.false_eq_true, if_false, showAlert, dismissed]

/-- `handleLogin` when `ApiService.login` returns a body whose `success` is truthy: the
profile is handed to the `login` of `AuthProvider`, and an error of that call is shown
like an error of the request. -/
theorem handleLogin_of_success (api : JsonApi) (username password : String) (w w1 : World)
    (data userData : Json) (success token : JsVal) (hu : username ≠ "") (hp : password ≠ "")
    (hlogin : login username password (busy w) = (.ok data, w1))
    (hsucc : data.getProp "success" = .ok success) (htruthy : success.truthy = true)
    (htok : data.getProp "token" = .ok token)
    (hdata : userDataOf data username = .ok userData) :
    handleLogin api username password w =
      match AuthProvider.login api userData token w1 with
      | (.ok _, w2) =>
        (.ok (), { w2 with navigations := w2.navigations ++ [("Home", "Dashboard")],
                           isLoading := false })
      | (.error e, w2) => (.ok (), dismissed (loginDialog e.message) w2) := by
  have hne : ¬ (username = "" ∨ password = "") := by simp [hu, hp]
  obtain ⟨name, hname⟩ := getProp_ok data "success" "username" success hsucc
  unfold handleLogin
  rw [if_neg hne]
  have hl : login username password { w with isLoading := true } = (.ok data, w1) := hlogin
  simp only [bind, Js.bind, setIsLoading, Js.tryFinally, tryCatch, tryCatchThe,
    MonadExcept.tryCatch, Js.tryCatch, hl, hsucc, htok, hname, hdata, Js.ofExcept, Js.pure,
    htruthy, if_true]
  rcases AuthProvider.login api userData token w1 with ⟨e | u, w2⟩
  · simp only [loginDialog, dismissed]
    by_cases hc : e.message = "Request timeout" ∨
        includes e.message "Network request failed" = true
    · rw [if_pos hc, if_pos hc]; rfl
    · rw [if_neg hc, if_neg hc]; rfl
  · rfl


/-! ## C28: the dialog of a failed login -/

/-- `ApiService.login` changes the request log and the token store only. -/
theorem login_world (username password : String) (w : World) :
    ∃ ops store, (login username password w).2 =
      { w with sent := w.sent ++ [loginSent username password w],
               storageOps := ops, storage := store } ∧
      (∀ k, k ≠ "authToken" → store k = w.storage k) := by
  rw [login_eq]
  cases loginToken (loginAnswer username password w) with
  | none => exact ⟨w.storageOps, w.storage, rfl, fun _ _ => rfl⟩
  | some t =>
    simp only [setToken_eq]
    cases t with
    | str s =>
      simp only []
      cases w.storageFault w.storageOps with
      | some e => exact ⟨w.storageOps + 1, w.storage, rfl, fun _ _ => rfl⟩
      | none =>
        refine ⟨w.storageOps + 1, setSlot w.storage "authToken" (some s), rfl, ?_⟩
        intro k hk
        simp [setSlot, hk]
    | _ => exact ⟨w.storageOps, w.storage, rfl, fun _ _ => rfl⟩

/-- The completion of `ApiService.login` called by `handleLogin`. -/
theorem login_busy (username password : String) (w : World) :
    login username password (busy w) =
      (loginResult (loginAnswer username password w), (login username password (busy w)).2) := by
  have h := login_eq username password (busy w)
  have ha : loginAnswer username password (busy w) = loginAnswer username password w := rfl
  rw [ha] at h
  rw [h]

/-- The dialogs after a `handleLogin` in which `ApiService.login` throws. -/
theorem handleLogin_alerts_of_error (api : JsonApi) (username password : String) (w : World)
    (e : JsError) (hu : username ≠ "") (hp : password ≠ "")
    (hres : loginResult (loginAnswer username password w) = .error e) :
    (handleLogin api username password w).1 = .ok () ∧
    (handleLogin api username password w).2.alerts
      = w.alerts ++ [("Login Error", loginDialog e.message)] := by
  have hl := login_busy username password w
  rw [hres] at hl
  obtain ⟨ops, store, hw1, _⟩ := login_world username password (busy w)
  rw [handleLogin_of_error api username password w _ e hu hp hl, hw1]
  exact ⟨rfl, rfl⟩

/-- The dialogs after a `handleLogin` in which `ApiService.login` returns a body whose
`success` is falsy. -/
theorem handleLogin_alerts_of_refusal (api : JsonApi) (username password : String)
    (w : World) (data : Json) (success : JsVal) (hu : username ≠ "") (hp : password ≠ "")
    (hres : loginResult (loginAnswer username password w) = .ok data)
    (hsucc : data.getProp "success" = .ok success) (hfalsy : success.truthy = false) :
    handleLogin api username password w =
      (.ok (), dismissed "Invalid username or password." (login username password (busy w)).2) := by
  have hl := login_busy username password w
  rw [hres] at hl
  exact handleLogin_of_refusal api username password w _ data success hu hp hl hsucc hfalsy

/-- C28, the behaviour of the code: a login answered with status 504 and the message
'Request timeout', an HTTP error response, shows the network message. -/
theorem C28_http_error_shown_as_network_error :
    (handleLogin toyJson "alice" "pw" (mkWorld none gatewayTimeout)).2.alerts
      = [("Login Error", "Network error. Please try again later.")] ∧
    ((handleLogin toyJson "alice" "pw" (mkWorld none gatewayTimeout)).2.sent.map Sent.summary)
      = [(none, none, some 504)] :=
  ⟨by decide!, by decide!⟩

/-- C28, amended: `handleLogin` with both fields filled in shows one dialog for a failed
login and chooses its text by the message of the error: 'Network error. Please try again
later.' when the message is 'Request timeout' or contains 'Network request failed',
'Invalid username or password.' otherwise (`loginDialog`).  So a request that is not
settled within 30 s shows the network message; a transport failure shows the dialog of
its message, the network message for 'Network request failed'; a 2xx answer whose
`success` is falsy shows the generic message; and an answer with another status shows
the dialog of the message of its body, or of 'Login failed'. -/
theorem C28_login_error_classification (api : JsonApi) (username password : String)
    (w : World) (hu : username ≠ "") (hp : password ≠ "") :
    (30000 ≤ (w.backend w.sent.length (loginRequest username password w.apiBaseUrl)).delay →
      (handleLogin api username password w).2.alerts
        = w.alerts ++ [("Login Error", "Network error. Please try again later.")]) ∧
    (∀ d m, d < 30000 →
      w.backend w.sent.length (loginRequest username password w.apiBaseUrl)
        = ⟨d, .failure m⟩ →
      (handleLogin api username password w).2.alerts
        = w.alerts ++ [("Login Error", loginDialog m)]) ∧
    loginDialog "Network request failed" = "Network error. Please try again later." ∧
    (∀ r data success, loginAnswer username password w = .ok r → r.ok = true →
      r.body = .ok data → data.getProp "success" = .ok success → success.truthy = false →
      (handleLogin api username password w).2.alerts
        = w.alerts ++ [("Login Error", "Invalid username or password.")]) ∧
    (∀ r data m, loginAnswer username password w = .ok r → r.ok = false →
      r.body = .ok data → data.getProp "message" = .ok m →
      (handleLogin api username password w).2.alerts
        = w.alerts ++ [("Login Error", loginDialog (messageOr m "Login failed"))]) := by
  refine ⟨?_, ?_, by decide, ?_, ?_⟩
  · intro hd
    have hres : loginResult (loginAnswer username password w)
        = .error (mkError "Request timeout") := by
      simp [loginAnswer, settle, Nat.not_lt.mpr hd, loginResult, abortError]
    exact (handleLogin_alerts_of_error api username password w _ hu hp hres).2
  · intro d m hd hb
    have hres : loginResult (loginAnswer username password w) = .error ⟨"TypeError", m⟩ := by
      simp [loginAnswer, settle, hb, hd, loginResult]
    exact (handleLogin_alerts_of_error api username password w _ hu hp hres).2
  · intro r data success ha hok hb hs hf
    obtain ⟨tok, htok⟩ := getProp_ok data "success" "token" success hs
    have hres : loginResult (loginAnswer username password w) = .ok data := by
      simp [ha, loginResult, hb, htok, hok]
    rw [handleLogin_alerts_of_refusal api username password w data success hu hp hres hs hf]
    obtain ⟨ops, store, hw1, _⟩ := login_world username password (busy w)
    rw [hw1]
    rfl
  · intro r data m ha hok hb hm
    obtain ⟨tok, htok⟩ := getProp_ok data "message" "token" m hm
    have hres : loginResult (loginAnswer username password w)
        = .error (mkError (messageOr m "Login failed")) := by
      simp [ha, loginResult, hb, htok, hok, hm]
    exact (handleLogin_alerts_of_error api username password w _ hu hp hres).2

/-- C28 at a concrete call: the backend is unreachable. -/
theorem C28_login_error_classification_witness :
    (handleLogin toyJson "alice" "pw" (mkWorld none unreachable)).2.alerts
      = (mkWorld none unreachable).alerts ++
          [("Login Error", loginDialog "Network request failed")] ∧
    loginDialog "Network request failed" = "Network error. Please try again later." :=
  ⟨(C28_login_error_classification toyJson "alice" "pw" (mkWorld none unreachable)
      (by decide) (by decide)).2.1 40 "Network request failed" (by decide) rfl,
   (C28_login_error_classification toyJson "alice" "pw" (mkWorld none unreachable)
      (by decide) (by decide)).2.2.1⟩


/-! ## C29 and C30: the token of a login and the session -/

/-- C29: with a working store and both fields filled in, for every earlier content of the
token store: when the login request is answered in time with a 2xx status and a body
whose `token` is the non-empty string `T`, `ApiService.login` stores `T` whatever the
`success` field says, and a following `getToken()` returns `T`.  If `success` is falsy,
`handleLogin` shows 'Invalid username or password.', does not navigate and leaves the
session state as it was, while the token store holds `T`. -/
theorem C29_token_stored_despite_refusal (api : JsonApi) (username password T : String)
    (w : World) (r : Response) (data : Json) (success : JsVal)
    (hu : username ≠ "") (hp : password ≠ "") (hw : workingStore w) (hT : T ≠ "")
    (hans : loginAnswer username password w = .ok r) (hok : r.ok = true)
    (hbody : r.body = .ok data) (htok : data.getProp "token" = .ok (some (.str T)))
    (hsucc : data.getProp "success" = .ok success) :
    (login username password w).1 = .ok data ∧
    (login username password w).2.storage "authToken" = some T ∧
    (getToken (login username password w).2).1 = .ok (some T) ∧
    (success.truthy = false →
      (handleLogin api username password w).1 = .ok () ∧
      (handleLogin api username password w).2.storage "authToken" = some T ∧
      (getToken (handleLogin api username password w).2).1 = .ok (some T) ∧
      (handleLogin api username password w).2.alerts
        = w.alerts ++ [("Login Error", "Invalid username or password.")] ∧
      (handleLogin api username password w).2.navigations = w.navigations ∧
      (handleLogin api username password w).2.isAuthenticated = w.isAuthenticated ∧
      (handleLogin api username password w).2.user = w.user) := by
  have hTb : (T != "") = true := by simpa using hT
  have hres : loginResult (loginAnswer username password w) = .ok data := by
    simp [hans, loginResult, hbody, htok, hok]
  have htk : loginToken (loginAnswer username password w) = some (.str T) := by
    simp [hans, loginToken, hbody, htok, hok, Json.truthy, hTb]
  have hl : ∀ w0 : World, w0.storageFault = w.storageFault →
      loginAnswer username password w0 = loginAnswer username password w →
      login username password w0 =
        (.ok data, { w0 with sent := w0.sent ++ [loginSent username password w0],
                             storageOps := w0.storageOps + 1,
                             storage := setSlot w0.storage "authToken" (some T) }) := by
    intro w0 hf ha
    rw [login_eq, ha, hres, htk]
    simp only [setToken_eq]
    have : w0.storageFault w0.storageOps = none := by rw [hf]; exact hw _
    simp only [this]
  refine ⟨?_, ?_, ?_, ?_⟩
  · rw [hl w rfl rfl]
  · rw [hl w rfl rfl]; simp [setSlot]
  · rw [hl w rfl rfl, getToken_eq]; simp [setSlot, hw _]
  · intro hf
    have hb := hl (busy w) rfl rfl
    rw [handleLogin_of_refusal api username password w _ data success hu hp hb hsucc hf]
    refine ⟨rfl, by simp [dismissed, setSlot], ?_, rfl, rfl, rfl, rfl⟩
    rw [getToken_eq]
    have hfault : ∀ n, (busy w).storageFault n = none := fun n => hw n
    simp [hfault, dismissed, setSlot]

/-- C29 at a concrete call: token `old` is stored, and the backend refuses the login of
alice with a 2xx answer that carries token `T2`. -/
theorem C29_token_stored_despite_refusal_witness :
    (getToken (login "alice" "pw" (mkWorld (some "old") refusingBackend)).2).1
      = .ok (some "T2") ∧
    (handleLogin toyJson "alice" "pw" (mkWorld (some "old") refusingBackend)).2.alerts
      = (mkWorld (some "old") refusingBackend).alerts ++
          [("Login Error", "Invalid username or password.")] ∧
    (handleLogin toyJson "alice" "pw" (mkWorld (some "old") refusingBackend)).2.isAuthenticated
      = (mkWorld (some "old") refusingBackend).isAuthenticated :=
  ⟨(C29_token_stored_despite_refusal toyJson "alice" "pw" "T2"
      (mkWorld (some "old") refusingBackend)
      ⟨200, "OK", .ok (.obj [("success", .bool false), ("token", .str "T2")])⟩
      (.obj [("success", .bool false), ("token", .str "T2")]) (some (.bool false))
      (by decide) (by decide) (fun _ => rfl) (by decide) rfl rfl rfl rfl rfl).2.2.1,
   ((C29_token_stored_despite_refusal toyJson "alice" "pw" "T2"
      (mkWorld (some "old") refusingBackend)
      ⟨200, "OK", .ok (.obj [("success", .bool false), ("token", .str "T2")])⟩
      (.obj [("success", .bool false), ("token", .str "T2")]) (some (.bool false))
      (by decide) (by decide) (fun _ => rfl) (by decide) rfl rfl rfl rfl rfl).2.2.2
        rfl).2.2.2.1,
   ((C29_token_stored_despite_refusal toyJson "alice" "pw" "T2"
      (mkWorld (some "old") refusingBackend)
      ⟨200, "OK", .ok (.obj [("success", .bool false), ("token", .str "T2")])⟩
      (.obj [("success", .bool false), ("token", .str "T2")]) (some (.bool false))
      (by decide) (by decide) (fun _ => rfl) (by decide) rfl rfl rfl rfl rfl).2.2.2
        rfl).2.2.2.2.2.1⟩

/-- C30: with a working store, an empty token store and both fields filled in: when the
login request is answered in time with a 2xx status and a body whose `success` is truthy
and whose `token` is absent or falsy, `handleLogin` persists the profile it builds, sets
the session Authenticated as that profile and navigates to the dashboard, and the token
store stays empty.  After a restart of the process `loadAuthData` finds no token and
leaves the session Unauthenticated without a user, although the profile is still
persisted. -/
theorem C30_session_without_token_is_lost (api : JsonApi) (username password : String)
    (w : World) (r : Response) (data userData : Json) (success token : JsVal)
    (hu : username ≠ "") (hp : password ≠ "") (hw : workingStore w)
    (hempty : w.storage "authToken" = none)
    (hans : loginAnswer username password w = .ok r) (hok : r.ok = true)
    (hbody : r.body = .ok data) (hsucc : data.getProp "success" = .ok success)
    (htruthy : success.truthy = true) (htok : data.getProp "token" = .ok token)
    (hfalsy : token.truthy = false) (hdata : userDataOf data username = .ok userData) :
    (handleLogin api username password w).1 = .ok () ∧
    (handleLogin api username password w).2.isAuthenticated = true ∧
    (handleLogin api username password w).2.user = some userData ∧
    (handleLogin api username password w).2.storage "user" = some (api.stringify userData) ∧
    (handleLogin api username password w).2.storage "authToken" = none ∧
    (handleLogin api username password w).2.navigations
      = w.navigations ++ [("Home", "Dashboard")] ∧
    (handleLogin api username password w).2.alerts = w.alerts ∧
    (AuthProvider.loadAuthData api
      (restarted (handleLogin api username password w).2)).2.isAuthenticated = false ∧
    (AuthProvider.loadAuthData api
      (restarted (handleLogin api username password w).2)).2.user = none ∧
    (AuthProvider.loadAuthData api
      (restarted (handleLogin api username password w).2)).2.loading = false ∧
    (AuthProvider.loadAuthData api
      (restarted (handleLogin api username password w).2)).2.storage "user"
        = some (api.stringify userData) := by
  have hres : loginResult (loginAnswer username password w) = .ok data := by
    simp [hans, loginResult, hbody, htok, hok]
  have htk : loginToken (loginAnswer username password w) = none := by
    cases token with
    | none => simp [hans, loginToken, hbody, htok, hok]
    | some t =>
      have : t.truthy = false := hfalsy
      simp [hans, loginToken, hbody, htok, hok, this]
  have hb : login username password (busy w) =
      (.ok data, { busy w with sent := (busy w).sent ++ [loginSent username password (busy w)] }) := by
    have ha : loginAnswer username password (busy w) = loginAnswer username password w := rfl
    rw [login_eq, ha, hres, htk]
  have hauth : AuthProvider.login api userData token
      { busy w with sent := (busy w).sent ++ [loginSent username password (busy w)] } =
      (.ok (), { busy w with
        sent := (busy w).sent ++ [loginSent username password (busy w)],
        storageOps := w.storageOps + 2,
        storage := setSlot w.storage "user" (some (api.stringify userData)),
        user := some userData,
        isAuthenticated := true }) := by
    simp [AuthProvider.login, tryCatch, tryCatchThe, MonadExcept.tryCatch, Js.tryCatch, bind,
      Js.bind, hfalsy, getItem, setItem, setUser, setIsAuthenticated, hw _, pure, Js.pure,
      busy]
  rw [handleLogin_of_success api username password w _ data userData success token hu hp hb
    hsucc htruthy htok hdata, hauth]
  simp only []
  rw [loadAuthData_eq]
  simp [restarted, busy, setSlot, hw _, hempty, strTruthy]

/-- C30 at a concrete call: alice logs in on a fresh install, and the backend accepts
without handing out a token. -/
theorem C30_session_without_token_is_lost_witness :
    (handleLogin toyJson "alice" "pw" (mkWorld none sessionBackend)).2.isAuthenticated = true ∧
    (AuthProvider.loadAuthData toyJson
      (restarted (handleLogin toyJson "alice" "pw"
        (mkWorld none sessionBackend)).2)).2.isAuthenticated = false ∧
    (AuthProvider.loadAuthData toyJson
      (restarted (handleLogin toyJson "alice" "pw"
        (mkWorld none sessionBackend)).2)).2.storage "user" = some aliceText :=
  ⟨(C30_session_without_token_is_lost toyJson "alice" "pw" (mkWorld none sessionBackend)
      ⟨200, "OK", .ok (.obj [("success", .bool true)])⟩ (.obj [("success", .bool true)])
      (.obj [("username", .str "alice")]) (some (.bool true)) none
      (by decide) (by decide) (fun _ => rfl) rfl rfl rfl rfl rfl rfl rfl rfl rfl).2.1,
   (C30_session_without_token_is_lost toyJson "alice" "pw" (mkWorld none sessionBackend)
      ⟨200, "OK", .ok (.obj [("success", .bool true)])⟩ (.obj [("success", .bool true)])
      (.obj [("username", .str "alice")]) (some (.bool true)) none
      (by decide) (by decide) (fun _ => rfl) rfl rfl rfl rfl rfl rfl rfl rfl rfl).2.2.2.2.2.2.2.1,
   (C30_session_without_token_is_lost toyJson "alice" "pw" (mkWorld none sessionBackend)
      ⟨200, "OK", .ok (.obj [("success", .bool true)])⟩ (.obj [("success", .bool true)])
      (.obj [("username", .str "alice")]) (some (.bool true)) none
      (by decide) (by decide) (fun _ => rfl) rfl rfl rfl rfl rfl rfl rfl rfl
      rfl).2.2.2.2.2.2.2.2.2.2⟩

end Frontend
